import Mathlib

/-!
# DezuKVM: HID bridge protocol engine and Aux MCU channel

A shallow embedding of the CH9329 HID controller of DezuKVM
(`remdeskd/mod/remdeshid` and `dezukvmd/mod/kvmhid`) and of its auxiliary
MCU controller (`dezukvmd/mod/kvmaux`).

Conventions of the embedding.

* A Go `uint8` is a `Nat`; every place where the Go code can wrap
  carries an explicit `% 256`.
* A Go `int` is an `Int`; the conversion `uint8(x)` is `toUint8`.
* A Go `[]byte` is a `List Nat`.
* A Go result `([]byte, error)` is a `Reply`: `Reply.data p` is `(p, nil)`
  (with `(nil, nil)` as `Reply.data []`), `Reply.fail e` is `(nil, err)` and
  `Reply.crash` is a run-time panic.
* The controller is passed explicitly.  The serial side of the
  controller is an input: `Env.accept` says whether the write queue takes
  the packet within the 30 ms of `Send`, `Env.arrivals` are the chunks
  the reader goroutine puts on the ingress queue before the 500 ms
  timeout of `WaitForReply`, and `Env.now` is the value of
  `time.Now().UnixMilli()`.
* `WaitForReply` takes the chunks in queue order and meets its timeout only
  when the queue has run dry.
* `Controller.sendLog` records, in order, every packet handed to `Send`.
-/

namespace DezuKVM

/-! ## Types (typedef.go) -/

/-- Errors returned by the controller, one constructor per message. -/
inductive HidError where
  | notRunning          -- "serial port is not running"
  | writeTimeout        -- "timeout waiting to send data"
  | replyTimeout        -- "timeout waiting for reply"
  | deviceError         -- "device returned error reply"
  | checksumFailed      -- "checksum validation failed"
  | unsupported         -- errors.ErrUnsupported
  | unsupportedKeycode  -- "Unsupported keycode: ..."
  | noSpaceLeft         -- "No space left in keyboard state to press key: ..."
  | sendFailed (cause : HidError) -- "failed to send ... command: " + err.Error()
  | sendCommandFailed   -- "failed to send command"
  | getReplyFailed      -- "failed to get reply"
  | getConfigFailed     -- "failed to get current configuration"
  | sendConfigFailed    -- "failed to send configuration command"
  | invalidResponseLength -- "invalid response length"
  | invalidMouseButton  -- "invalid mouse button: %d"
  | invalidOpcode       -- "invalid opcode for mouse button press/release"
  | unsupportedEvent    -- "unsupported HID command event type: %d"
  deriving DecidableEq, Repr

/-- The Go result pair `([]byte, error)`, with a third case for a panic. -/
inductive Reply where
  | data (payload : List Nat)
  | fail (err : HidError)
  | crash
  deriving DecidableEq, Repr

/-- Whether the result carries an error (`err != nil`). -/
def Reply.isError : Reply → Bool
  | .fail _ => true
  | _ => false

/-- Record `Config` of typedef.go (the serial settings play no part here). -/
structure Config where
  ScrollSensitivity : Nat
  deriving DecidableEq, Repr

/-- Record `HIDState` of typedef.go. `KeyboardButtons` is the Go array `[6]uint8`. -/
structure HIDState where
  Modkey : Nat
  KeyboardButtons : List Nat
  Leds : Nat
  MouseButtons : Nat
  MouseX : Int
  MouseY : Int
  deriving DecidableEq, Repr

/-- Record `Controller` of typedef.go, with the log of packets handed to `Send`. -/
structure Controller where
  Config : Config
  hidState : HIDState
  serialRunning : Bool
  sendLog : List (List Nat)
  incomgDataQueue : List (List Nat)
  lastCursorEventTime : Int
  deriving DecidableEq, Repr

/-- Record `HIDCommand` of typedef.go, the decoded JSON event. -/
structure HIDCommand where
  Event : Int
  Keycode : Int
  IsRightModKey : Bool
  MouseAbsX : Int
  MouseAbsY : Int
  MouseRelX : Int
  MouseRelY : Int
  MouseMoveButtonState : Int
  MouseButton : Int
  MouseScroll : Int
  deriving DecidableEq, Repr

/-- The serial side of one call, as seen by the controller. -/
structure Env where
  accept : Bool
  arrivals : List (List Nat)
  now : Int
  deriving DecidableEq, Repr

def EventTypeKeyPress : Int := 0
def EventTypeKeyRelease : Int := 1
def EventTypeMouseMove : Int := 2
def EventTypeMousePress : Int := 3
def EventTypeMouseRelease : Int := 4
def EventTypeMouseScroll : Int := 5
def EventTypeHIDCommand : Int := 6
def EventTypeHIDReset : Int := 255

def MinCusorEventInterval : Int := 25

def MOD_LCTRL : Nat := 0x01
def MOD_LSHIFT : Nat := 0x02
def MOD_LALT : Nat := 0x04
def MOD_LGUI : Nat := 0x08
def MOD_RCTRL : Nat := 0x10
def MOD_RSHIFT : Nat := 0x20
def MOD_RALT : Nat := 0x40
def MOD_RGUI : Nat := 0x80

/-- The Go conversion `uint8(x)` of an `int`: the low eight bits. -/
def toUint8 (x : Int) : Nat := (x % 256).toNat

/-- The Go operation `a &^ b` on `uint8` (bit clear). -/
def bitClear (a b : Nat) : Nat := a &&& (255 ^^^ b)

/-- State of `NewHIDController`. -/
def defaultHidState : HIDState :=
  { Modkey := 0x00
    KeyboardButtons := [0x00, 0x00, 0x00, 0x00, 0x00, 0x00]
    Leds := 0x00
    MouseButtons := 0x00
    MouseX := 0
    MouseY := 0 }

/-- Constructor `NewHIDController`: nothing sent, nothing received, not yet running. -/
def NewHIDController (config : Config) : Controller :=
  { Config := config
    hidState := defaultHidState
    serialRunning := false
    sendLog := []
    incomgDataQueue := []
    lastCursorEventTime := 0 }

/-! ## Checksum (mouse.go) -/

/-- Function `calcChecksum`: a `uint8` accumulator over the slice. -/
def calcChecksum (data : List Nat) : Nat :=
  data.foldl (fun sum value => (sum + value) % 256) 0

/-! ## Serial side (remdeshid.go) -/

/-- Method `Send`: the packet is handed over; it fails when the serial loop
is not running or the write queue does not take it in time. -/
def Send (c : Controller) (env : Env) (data : List Nat) : Option HidError × Controller :=
  let c1 := { c with sendLog := c.sendLog ++ [data] }
  if !c.serialRunning then (some .notRunning, c1)
  else if env.accept then (none, c1)
  else (some .writeTimeout, c1)

/-- One pass of the body of the `for`/`select` loop of `WaitForReply` after
`reply` has been extended: `some r` is a `return`, `none` goes on to the
next chunk with the accumulator in the second component. -/
def checkReply (cmdByte : Nat) (reply : List Nat) : Option Reply × List Nat :=
  let succReplyByte := cmdByte ||| 0x80
  let errorReplyByte := cmdByte ||| 0xC0
  if reply.length ≥ 7 then
    if reply.getD 0 0 = 0x57 ∧ reply.getD 1 0 = 0xAB then
      let replyByte := reply.getD 3 0
      let dataLength := reply.getD 4 0
      let expectedLength := 5 + dataLength + 1
      if reply.length ≥ expectedLength then
        -- `5+dataLength` is a `byte` expression
        let hi := (5 + dataLength) % 256
        if 5 ≤ hi ∧ hi < reply.length then
          let data := (reply.take hi).drop 5
          let checksum := reply.getD hi 0
          let sum := (reply.take hi).foldl (fun sum b => (sum + b) % 256) 0
          if sum = checksum then
            if replyByte = succReplyByte then (some (.data data), reply)
            else if replyByte = errorReplyByte then (some (.fail .deviceError), reply)
            else (none, reply)
          else (some (.fail .checksumFailed), reply)
        else (some .crash, reply)
      else (none, reply)
    else (none, [])
  else (none, reply)

/-- The loop of `WaitForReply`: chunks are taken from the queue one by one;
when the queue has run dry the timeout fires.  Returns the result and the
chunks left on the queue. -/
def waitLoop (cmdByte : Nat) : List Nat → List (List Nat) → Reply × List (List Nat)
  | _, [] => (.fail .replyTimeout, [])
  | reply, data :: rest =>
    match checkReply cmdByte (reply ++ data) with
    | (some r, _) => (r, rest)
    | (none, reply1) => waitLoop cmdByte reply1 rest

/-- Method `WaitForReply`. -/
def WaitForReply (c : Controller) (env : Env) (cmdByte : Nat) : Reply × Controller :=
  let r := waitLoop cmdByte [] (c.incomgDataQueue ++ env.arrivals)
  (r.1, { c with incomgDataQueue := r.2 })

/-! ## Keyboard (keyboard.go) -/

/-- Function `IsModifierKey`. -/
def IsModifierKey (keycode : Nat) : Bool :=
  match keycode with
  | 16 => true
  | 17 => true
  | 18 => true
  | 91 => true
  | _ => false

/-- The `switch keycode` that opens both `SetModifierKey` and
`UnsetModifierKey`: the modifier bit, or `none` in the `default` branch. -/
def modifierBit (keycode : Nat) (isRight : Bool) : Option Nat :=
  match keycode with
  | 17 => some (if isRight then MOD_RCTRL else MOD_LCTRL)
  | 16 => some (if isRight then MOD_RSHIFT else MOD_LSHIFT)
  | 18 => some (if isRight then MOD_RALT else MOD_LALT)
  | 91 => some (if isRight then MOD_RGUI else MOD_LGUI)
  | _ => none

/-- Function `javaScriptKeycodeToHIDOpcode`. -/
def javaScriptKeycodeToHIDOpcode (keycode : Nat) : Nat :=
  if keycode ≥ 65 ∧ keycode ≤ 90 then (keycode - 65) + 0x04
  else if keycode ≥ 49 ∧ keycode ≤ 57 then (keycode - 49) + 0x1E
  else if keycode ≥ 97 ∧ keycode ≤ 105 then (keycode - 97) + 0x59
  else if keycode ≥ 112 ∧ keycode ≤ 123 then (keycode - 112) + 0x3A
  else match keycode with
    | 8 => 0x2A
    | 9 => 0x2B
    | 13 => 0x28
    | 16 => 0xE1
    | 17 => 0xE0
    | 18 => 0xE6
    | 19 => 0x48
    | 20 => 0x39
    | 27 => 0x29
    | 32 => 0x2C
    | 33 => 0x4B
    | 34 => 0x4E
    | 35 => 0x4D
    | 36 => 0x4A
    | 37 => 0x50
    | 38 => 0x52
    | 39 => 0x4F
    | 40 => 0x51
    | 44 => 0x46
    | 45 => 0x49
    | 46 => 0x4C
    | 48 => 0x27
    | 59 => 0x33
    | 61 => 0x2E
    | 91 => 0xE3
    | 92 => 0xE7
    | 93 => 0x65
    | 96 => 0x62
    | 106 => 0x55
    | 107 => 0x57
    | 109 => 0x56
    | 110 => 0x63
    | 111 => 0x54
    | 144 => 0x53
    | 145 => 0x47
    | 146 => 0x58
    | 173 => 0x2D
    | 186 => 0x33
    | 187 => 0x2E
    | 188 => 0x36
    | 189 => 0x2D
    | 190 => 0x37
    | 191 => 0x38
    | 192 => 0x35
    | 219 => 0x2F
    | 220 => 0x31
    | 221 => 0x30
    | 222 => 0x34
    | _ => 0x00

/-- The packet built by `keyboardSendKeyCombinations` before it is sent. -/
def keyboardPacket (s : HIDState) : List Nat :=
  let packet := [0x57, 0xAB, 0x00, 0x02, 0x08,
    s.Modkey, 0x00,
    0x00, 0x00, 0x00, 0x00, 0x00, 0x00,
    0x00]
  let packet := (List.range s.KeyboardButtons.length).foldl
    (fun p i => p.set (7 + i) (s.KeyboardButtons.getD i 0)) packet
  packet.set 13 (calcChecksum (packet.take 13))

/-- Function `keyboardSendKeyCombinations`. -/
def keyboardSendKeyCombinations (c : Controller) (env : Env) : Reply × Controller :=
  match Send c env (keyboardPacket c.hidState) with
  | (some err, c1) => (.fail (.sendFailed err), c1)
  | (none, c1) => WaitForReply c1 env 0x02

/-- Method `SetModifierKey`. -/
def SetModifierKey (c : Controller) (env : Env) (keycode : Nat) (isRight : Bool) :
    Reply × Controller :=
  match modifierBit keycode isRight with
  | none => (.fail .unsupported, c)
  | some bit =>
    keyboardSendKeyCombinations
      { c with hidState := { c.hidState with Modkey := c.hidState.Modkey ||| bit } } env

/-- Method `UnsetModifierKey`. -/
def UnsetModifierKey (c : Controller) (env : Env) (keycode : Nat) (isRight : Bool) :
    Reply × Controller :=
  match modifierBit keycode isRight with
  | none => (.fail .unsupported, c)
  | some bit =>
    keyboardSendKeyCombinations
      { c with hidState := { c.hidState with Modkey := bitClear c.hidState.Modkey bit } } env

/-- The assignment `c.hidState.KeyboardButtons[i] = v`. -/
def Controller.setSlot (c : Controller) (i v : Nat) : Controller :=
  { c with hidState := { c.hidState with KeyboardButtons := c.hidState.KeyboardButtons.set i v } }

/-- The loop `for i := 0; i < 6; i++ { if KeyboardButtons[i] == v { ... return } }`:
the index at which the body returns, if any. -/
def scanSlots (kb : List Nat) (v : Nat) : Option Nat :=
  (List.range 6).find? (fun i => kb.getD i 0 == v)

/-- Method `SendKeyboardPress`. -/
def SendKeyboardPress (c : Controller) (env : Env) (keycode : Nat) : Reply × Controller :=
  let keycode := javaScriptKeycodeToHIDOpcode keycode
  if keycode = 0x00 then (.fail .unsupportedKeycode, c)
  else
    match scanSlots c.hidState.KeyboardButtons keycode with
    | some _ => (.data [], c)
    | none =>
      match scanSlots c.hidState.KeyboardButtons 0x00 with
      | some i => keyboardSendKeyCombinations (c.setSlot i keycode) env
      | none => (.fail .noSpaceLeft, c)

/-- Method `SendKeyboardRelease`. -/
def SendKeyboardRelease (c : Controller) (env : Env) (keycode : Nat) : Reply × Controller :=
  let keycode := javaScriptKeycodeToHIDOpcode keycode
  if keycode = 0x00 then (.fail .unsupportedKeycode, c)
  else
    match scanSlots c.hidState.KeyboardButtons keycode with
    | some i => keyboardSendKeyCombinations (c.setSlot i 0x00) env
    | none => (.data [], c)

/-! ## Mouse (mouse.go) -/

/-- The packet built by `MouseMoveAbsolute`. -/
def mouseAbsolutePacket (s : HIDState) (xLSB xMSB yLSB yMSB : Nat) : List Nat :=
  let packet := [0x57, 0xAB, 0x00, 0x04, 0x07, 0x02,
    s.MouseButtons,
    xLSB,
    xMSB,
    yLSB,
    yMSB,
    0x00,
    0x00]
  packet.set 12 (calcChecksum (packet.take 12))

/-- Method `MouseMoveAbsolute`. -/
def MouseMoveAbsolute (c : Controller) (env : Env) (xLSB xMSB yLSB yMSB : Nat) :
    Reply × Controller :=
  match Send c env (mouseAbsolutePacket c.hidState xLSB xMSB yLSB yMSB) with
  | (some err, c1) => (.fail (.sendFailed err), c1)
  | (none, c1) => WaitForReply c1 env 0x04

/-- The packet built by `MouseMoveRelative`. -/
def mouseRelativePacket (s : HIDState) (dx dy wheel : Nat) : List Nat :=
  let dx := if dx = 0x80 then 0x81 else dx
  let dy := if dy = 0x80 then 0x81 else dy
  let packet := [0x57, 0xAB, 0x00, 0x05, 0x05, 0x01,
    s.MouseButtons,
    dx,
    dy,
    wheel,
    0x00]
  packet.set 10 (calcChecksum (packet.take 10))

/-- Method `MouseMoveRelative`. -/
def MouseMoveRelative (c : Controller) (env : Env) (dx dy wheel : Nat) : Reply × Controller :=
  match Send c env (mouseRelativePacket c.hidState dx dy wheel) with
  | (some err, c1) => (.fail (.sendFailed err), c1)
  | (none, c1) => WaitForReply c1 env 0x05

/-- Sets `hidState.MouseButtons`. -/
def Controller.setMouseButtons (c : Controller) (b : Nat) : Controller :=
  { c with hidState := { c.hidState with MouseButtons := b } }

/-- Method `MouseButtonPress`. -/
def MouseButtonPress (c : Controller) (env : Env) (button : Nat) : Reply × Controller :=
  match button with
  | 0x01 => MouseMoveRelative (c.setMouseButtons (c.hidState.MouseButtons ||| 0x01)) env 0 0 0
  | 0x02 => MouseMoveRelative (c.setMouseButtons (c.hidState.MouseButtons ||| 0x02)) env 0 0 0
  | 0x03 => MouseMoveRelative (c.setMouseButtons (c.hidState.MouseButtons ||| 0x04)) env 0 0 0
  | _ => (.fail .invalidOpcode, c)

/-- Method `MouseButtonRelease`. -/
def MouseButtonRelease (c : Controller) (env : Env) (button : Nat) : Reply × Controller :=
  match button with
  | 0x00 => MouseMoveRelative (c.setMouseButtons 0x00) env 0 0 0
  | 0x01 => MouseMoveRelative (c.setMouseButtons (bitClear c.hidState.MouseButtons 0x01)) env 0 0 0
  | 0x02 => MouseMoveRelative (c.setMouseButtons (bitClear c.hidState.MouseButtons 0x02)) env 0 0 0
  | 0x03 => MouseMoveRelative (c.setMouseButtons (bitClear c.hidState.MouseButtons 0x04)) env 0 0 0
  | _ => (.fail .invalidOpcode, c)

/-- Method `MouseScroll`. -/
def MouseScroll (c : Controller) (env : Env) (tilt : Int) : Reply × Controller :=
  if tilt = 0 then (.data [], c)
  else
    let wheel := if tilt < 0 then c.Config.ScrollSensitivity % 256
      else (0xFF - c.Config.ScrollSensitivity) % 256
    MouseMoveRelative c env 0 0 wheel

/-! ## Chip configuration and event dispatch (ch9329.go) -/

/-- The packet built by `GetChipCurrentConfiguration`. -/
def getConfigPacket : List Nat :=
  let cmd := [0x57, 0xAB,
    0x00, 0x08, 0x00,
    0x00]
  cmd.set 5 (calcChecksum (cmd.take 5))

/-- Method `GetChipCurrentConfiguration`. -/
def GetChipCurrentConfiguration (c : Controller) (env : Env) : Reply × Controller :=
  match Send c env getConfigPacket with
  | (some _, c1) => (.fail .sendCommandFailed, c1)
  | (none, c1) =>
    match WaitForReply c1 env 0x08 with
    | (.data resp, c2) =>
      if resp.length < 50 then (.fail .invalidResponseLength, c2) else (.data resp, c2)
    | (.fail _, c2) => (.fail .getReplyFailed, c2)
    | (.crash, c2) => (.crash, c2)

/-- The button synchronisation of `case EventTypeMouseMove`: the three
`if ... { MouseButtons |= bit } else { MouseButtons &^= bit }` statements. -/
def syncMouseButtons (b : Nat) (state : Int) : Nat :=
  let leftPressed := Int.land state 0x01 ≠ 0
  let middlePressed := Int.land state 0x02 ≠ 0
  let rightPressed := Int.land state 0x04 ≠ 0
  let b := if leftPressed then b ||| 0x01 else bitClear b 0x01
  let b := if middlePressed then b ||| 0x04 else bitClear b 0x04
  if rightPressed then b ||| 0x02 else bitClear b 0x02

/-- The body of `case EventTypeMouseMove` of `ConstructAndSendCmd`. -/
def handleMouseMove (c : Controller) (env : Env) (cmd : HIDCommand) : Reply × Controller :=
  let c1 := c.setMouseButtons (syncMouseButtons c.hidState.MouseButtons cmd.MouseMoveButtonState)
  let c2 := { c1 with lastCursorEventTime := env.now }
  if cmd.MouseAbsX ≠ 0 ∨ cmd.MouseAbsY ≠ 0 then
    let xLSB := toUint8 (Int.land cmd.MouseAbsX 0xFF)
    let xMSB := toUint8 (Int.land (cmd.MouseAbsX >>> 8) 0xFF)
    let yLSB := toUint8 (Int.land cmd.MouseAbsY 0xFF)
    let yMSB := toUint8 (Int.land (cmd.MouseAbsY >>> 8) 0xFF)
    MouseMoveAbsolute c2 env xLSB xMSB yLSB yMSB
  else (.data [], c2)

/-- The body of `case EventTypeMouseScroll` of `ConstructAndSendCmd`. -/
def handleMouseScroll (c : Controller) (env : Env) (cmd : HIDCommand) : Reply × Controller :=
  if env.now - c.lastCursorEventTime < MinCusorEventInterval then (.data [], c)
  else MouseScroll { c with lastCursorEventTime := env.now } env cmd.MouseScroll

/-- Method `ConstructAndSendCmd`. -/
def ConstructAndSendCmd (c : Controller) (env : Env) (cmd : HIDCommand) : Reply × Controller :=
  if cmd.Event = EventTypeKeyPress then
    if IsModifierKey (toUint8 cmd.Keycode) then
      SetModifierKey c env (toUint8 cmd.Keycode) cmd.IsRightModKey
    else if cmd.Keycode = 13 ∧ cmd.IsRightModKey = true then
      SendKeyboardPress c env 146
    else SendKeyboardPress c env (toUint8 cmd.Keycode)
  else if cmd.Event = EventTypeKeyRelease then
    if IsModifierKey (toUint8 cmd.Keycode) then
      UnsetModifierKey c env (toUint8 cmd.Keycode) cmd.IsRightModKey
    else if cmd.Keycode = 13 ∧ cmd.IsRightModKey = true then
      SendKeyboardRelease c env 146
    else SendKeyboardRelease c env (toUint8 cmd.Keycode)
  else if cmd.Event = EventTypeMouseMove then handleMouseMove c env cmd
  else if cmd.Event = EventTypeMousePress then
    if cmd.MouseButton < 1 ∨ cmd.MouseButton > 3 then (.fail .invalidMouseButton, c)
    else MouseButtonPress c env (toUint8 cmd.MouseButton)
  else if cmd.Event = EventTypeMouseRelease then
    if cmd.MouseButton < 1 ∨ cmd.MouseButton > 3 then (.fail .invalidMouseButton, c)
    else MouseButtonRelease c env (toUint8 cmd.MouseButton)
  else if cmd.Event = EventTypeMouseScroll then handleMouseScroll c env cmd
  else (.fail .unsupportedEvent, c)

/-- Runs a sequence of events, each with its own serial-side input. -/
def runEvents (c : Controller) : List (HIDCommand × Env) → Controller
  | [] => c
  | (cmd, env) :: rest => runEvents (ConstructAndSendCmd c env cmd).2 rest

/-- A key event (`KeyPress` when `press`, else `KeyRelease`) with the other fields zero. -/
def keyEvent (press : Bool) (keycode : Int) (isRight : Bool) : HIDCommand :=
  { Event := if press then EventTypeKeyPress else EventTypeKeyRelease
    Keycode := keycode
    IsRightModKey := isRight
    MouseAbsX := 0
    MouseAbsY := 0
    MouseRelX := 0
    MouseRelY := 0
    MouseMoveButtonState := 0
    MouseButton := 0
    MouseScroll := 0 }

/-- A packet whose last byte is the checksum of all the bytes before it. -/
def checksumOk (p : List Nat) : Prop :=
  p.getLast? = some (calcChecksum p.dropLast)

instance (p : List Nat) : Decidable (checksumOk p) := by
  unfold checksumOk; infer_instance

/-- The frame `57 AB 00 (cmd|0x80) len(p) p chk` of a success reply to `cmd`. -/
def replyFrame (cmd : Nat) (p : List Nat) : List Nat :=
  let body := [0x57, 0xAB, 0x00, cmd ||| 0x80, p.length] ++ p
  body ++ [calcChecksum body]

/-- No non-zero usage code sits in two slots of the six-slot array. -/
def slotsDistinct (kb : List Nat) : Prop :=
  ∀ i j, i < 6 → j < 6 → i ≠ j → kb.getD i 0 ≠ 0 → kb.getD i 0 ≠ kb.getD j 0

/-- The keyboard invariant of the HID state: six slots, no key twice. -/
def kbInv (s : HIDState) : Prop :=
  s.KeyboardButtons.length = 6 ∧ slotsDistinct s.KeyboardButtons

/-- Whether the bit of mask `bit` is set in `m`. -/
def bitSet (m bit : Nat) : Bool := m &&& bit != 0

/-- The modifier table of the spec: browser keycode, side (`true` = right), bit. -/
def modifierTable : List (Int × Bool × Nat) :=
  [(17, false, 0x01), (16, false, 0x02), (18, false, 0x04), (91, false, 0x08),
   (17, true, 0x10), (16, true, 0x20), (18, true, 0x40), (91, true, 0x80)]

/-- Whether the most recent event for the pair (`key`, `right`) in `evs` was a
`KeyPress`; `false` when the pair has no event. -/
def lastWasPress (key : Int) (right : Bool) (evs : List (HIDCommand × Env)) : Bool :=
  evs.foldl (fun held e =>
    if e.1.Keycode = key ∧ e.1.IsRightModKey = right then decide (e.1.Event = EventTypeKeyPress)
    else held) false

/-- The keycode table as the spec states it: the four ranges and the fixed
entries it lists; `none` where it lists nothing. -/
def specKeycodeTable (c : Nat) : Option Nat :=
  if 65 ≤ c ∧ c ≤ 90 then some (0x04 + (c - 65))
  else if 49 ≤ c ∧ c ≤ 57 then some (0x1E + (c - 49))
  else if 97 ≤ c ∧ c ≤ 105 then some (0x59 + (c - 97))
  else if 112 ≤ c ∧ c ≤ 123 then some (0x3A + (c - 112))
  else match c with
    | 8 => some 0x2A
    | 9 => some 0x2B
    | 13 => some 0x28
    | 16 => some 0xE1
    | 17 => some 0xE0
    | 18 => some 0xE6
    | 19 => some 0x48
    | 20 => some 0x39
    | 27 => some 0x29
    | 32 => some 0x2C
    | 37 => some 0x50
    | 38 => some 0x52
    | 39 => some 0x4F
    | 40 => some 0x51
    | 91 => some 0xE3
    | 92 => some 0xE7
    | 93 => some 0x65
    | 96 => some 0x62
    | 144 => some 0x53
    | 145 => some 0x47
    | 146 => some 0x58
    | _ => none

/-- The set of supported keycodes:
`{8,9,13,16..20,27,32..40,44..46,48..57,59,61,65..93,96..107,109..123,144..146,173,186..192,219..222}`. -/
def supportedKeycode (c : Nat) : Bool :=
  decide (c = 8 ∨ c = 9 ∨ c = 13 ∨ (16 ≤ c ∧ c ≤ 20) ∨ c = 27 ∨ (32 ≤ c ∧ c ≤ 40)
    ∨ (44 ≤ c ∧ c ≤ 46) ∨ (48 ≤ c ∧ c ≤ 57) ∨ c = 59 ∨ c = 61 ∨ (65 ≤ c ∧ c ≤ 93)
    ∨ (96 ≤ c ∧ c ≤ 107) ∨ (109 ≤ c ∧ c ≤ 123) ∨ (144 ≤ c ∧ c ≤ 146) ∨ c = 173
    ∨ (186 ≤ c ∧ c ≤ 192) ∨ (219 ≤ c ∧ c ≤ 222))

/-- A controller whose serial loop is running (after `Connect`), in the
all-zero HID state. -/
def runningController (config : Config) : Controller :=
  { NewHIDController config with serialRunning := true }

/-- Reads a keyboard report back: the modifier byte (byte 5) and the six
slots (bytes 7..12). -/
def parseKeyboardReport (p : List Nat) : Nat × List Nat :=
  (p.getD 5 0, (p.drop 7).take 6)

/-- A `MouseMove` event with absolute position `(x, y)`, relative deltas
`(rx, ry)` and button bitfield `state`; the other fields zero. -/
def mouseMoveEvent (x y rx ry state : Int) : HIDCommand :=
  { Event := EventTypeMouseMove
    Keycode := 0
    IsRightModKey := false
    MouseAbsX := x
    MouseAbsY := y
    MouseRelX := rx
    MouseRelY := ry
    MouseMoveButtonState := state
    MouseButton := 0
    MouseScroll := 0 }

/-- The substitution of relative moves: `0x80` becomes `0x81`. -/
def avoid80 (d : Nat) : Nat := if d = 0x80 then 0x81 else d

/-- A `MouseScroll` event with the given tilt; the other fields zero. -/
def mouseScrollEvent (tilt : Int) : HIDCommand :=
  { Event := EventTypeMouseScroll
    Keycode := 0
    IsRightModKey := false
    MouseAbsX := 0
    MouseAbsY := 0
    MouseRelX := 0
    MouseRelY := 0
    MouseMoveButtonState := 0
    MouseButton := 0
    MouseScroll := tilt }

/-- A `MousePress` (when `press`) or `MouseRelease` event for `button`; the
other fields zero. -/
def mouseButtonEvent (press : Bool) (button : Int) : HIDCommand :=
  { Event := if press then EventTypeMousePress else EventTypeMouseRelease
    Keycode := 0
    IsRightModKey := false
    MouseAbsX := 0
    MouseAbsY := 0
    MouseRelX := 0
    MouseRelY := 0
    MouseMoveButtonState := 0
    MouseButton := button
    MouseScroll := 0 }

/-- The `MouseButtons` bit of a mouse button number: 1 left `0x01`, 2 right
`0x02`, 3 middle `0x04`. -/
def mouseButtonBit (button : Int) : Nat :=
  if button = 1 then 0x01 else if button = 2 then 0x02 else 0x04

/-- A frame on the wire: magic `57 AB`, address, reply byte, length byte,
payload and a trailing checksum byte `chk` (right or wrong). -/
def wireFrame (addr reply : Nat) (p : List Nat) (chk : Nat) : List Nat :=
  [0x57, 0xAB, addr, reply, p.length] ++ p ++ [chk]

/-- The checksum a frame with these fields must end with. -/
def frameChecksum (addr reply : Nat) (p : List Nat) : Nat :=
  calcChecksum ([0x57, 0xAB, addr, reply, p.length] ++ p)

/-- The packet built by `ConfigureChipTo19200` from the configuration
returned by the chip: the four baud-rate bytes are overwritten in place, the
header and the first 50 bytes are put together, and the checksum of
`setCmd[:len(setCmd)-1]` is appended. -/
def setConfigPacket (currentConfig : List Nat) : List Nat :=
  let currentConfig := currentConfig.set 3 0x00
  let currentConfig := currentConfig.set 4 0x00
  let currentConfig := currentConfig.set 5 0x4B
  let currentConfig := currentConfig.set 6 0x00
  let setCmd := [0x57, 0xAB, 0x00, 0x09, 0x32] ++ currentConfig.take 50
  setCmd ++ [calcChecksum (setCmd.take (setCmd.length - 1))]

/-- Method `ConfigureChipTo19200`; `env1` is the serial side during the
"get" exchange and `env2` during the "set" exchange. The result is
`Reply.data []` for a `nil` error. -/
def ConfigureChipTo19200 (c : Controller) (env1 env2 : Env) : Reply × Controller :=
  match GetChipCurrentConfiguration c env1 with
  | (.fail _, c1) => (.fail .getConfigFailed, c1)
  | (.crash, c1) => (.crash, c1)
  | (.data currentConfig, c1) =>
    match Send c1 env2 (setConfigPacket currentConfig) with
    | (some _, c2) => (.fail .sendConfigFailed, c2)
    | (none, c2) =>
      match WaitForReply c2 env2 0x09 with
      | (.data _, c3) => (.data [], c3)
      | (.fail _, c3) => (.fail .getReplyFailed, c3)
      | (.crash, c3) => (.crash, c3)

/-- The payload of the failing input: 49 zero bytes and a last byte `01`. -/
def sampleConfig : List Nat := List.replicate 49 0x00 ++ [0x01]

/-! ## Aux MCU (kvmaux/remdesaux.go) -/

/-- Type `USB_mass_storage_side` of remdesaux.go. -/
inductive USB_mass_storage_side where
  | USB_MASS_STORAGE_KVM
  | USB_MASS_STORAGE_REMOTE
  deriving DecidableEq, Repr

/-- Errors of the Aux MCU channel: a failed `port.Write` or a failed read. -/
inductive AuxError where
  | writeFailed
  | readFailed
  deriving DecidableEq, Repr

/-- Record `AuxMcu` of remdesaux.go; `written` is the log of the bytes handed
to `port.Write`, oldest first. -/
structure AuxMcu where
  usb_mass_storage_side : USB_mass_storage_side
  written : List Nat
  deriving DecidableEq, Repr

/-- The serial side of one Aux MCU call: whether `port.Write` succeeds, and
what `reader.ReadString` returns (`none` for an error). -/
structure AuxEnv where
  writeOk : Bool
  line : Option String
  deriving DecidableEq, Repr

/-- Constructor `NewAuxOutbandController`, once the port has opened. -/
def NewAuxOutbandController : AuxMcu :=
  { usb_mass_storage_side := .USB_MASS_STORAGE_KVM
    written := [] }

/-- Method `sendCommand`: one byte is handed to `port.Write`. -/
def sendCommand (c : AuxMcu) (env : AuxEnv) (cmd : Nat) : Option AuxError × AuxMcu :=
  (if env.writeOk then none else some .writeFailed, { c with written := c.written ++ [cmd] })

/-- Method `SwitchUSBToKVM`. -/
def SwitchUSBToKVM (c : AuxMcu) (env : AuxEnv) : Option AuxError × AuxMcu :=
  sendCommand { c with usb_mass_storage_side := .USB_MASS_STORAGE_KVM } env 'm'.toNat

/-- Method `SwitchUSBToRemote`. -/
def SwitchUSBToRemote (c : AuxMcu) (env : AuxEnv) : Option AuxError × AuxMcu :=
  sendCommand { c with usb_mass_storage_side := .USB_MASS_STORAGE_REMOTE } env 'n'.toNat

/-- Method `PressPowerButton`. -/
def PressPowerButton (c : AuxMcu) (env : AuxEnv) : Option AuxError × AuxMcu :=
  sendCommand c env 'p'.toNat

/-- Method `ReleasePowerButton`. -/
def ReleasePowerButton (c : AuxMcu) (env : AuxEnv) : Option AuxError × AuxMcu :=
  sendCommand c env 's'.toNat

/-- Method `PressResetButton`. -/
def PressResetButton (c : AuxMcu) (env : AuxEnv) : Option AuxError × AuxMcu :=
  sendCommand c env 'r'.toNat

/-- Method `ReleaseResetButton`. -/
def ReleaseResetButton (c : AuxMcu) (env : AuxEnv) : Option AuxError × AuxMcu :=
  sendCommand c env 'd'.toNat

/-- The white space of Go's `unicode.IsSpace`. -/
def isSpace (ch : Char) : Bool :=
  ch = '\t' || ch = '\n' || ch.toNat = 0x0B || ch.toNat = 0x0C || ch = '\r' || ch = ' '
    || ch.toNat = 0x85 || ch.toNat = 0xA0 || ch.toNat = 0x1680
    || (0x2000 ≤ ch.toNat && ch.toNat ≤ 0x200A) || ch.toNat = 0x2028 || ch.toNat = 0x2029
    || ch.toNat = 0x202F || ch.toNat = 0x205F || ch.toNat = 0x3000

/-- Go's `strings.TrimSpace`. -/
def trimSpace (s : String) : String :=
  String.mk (((s.data.dropWhile isSpace).reverse.dropWhile isSpace).reverse)

/-- Method `GetUUID`. -/
def GetUUID (c : AuxMcu) (env : AuxEnv) : Except AuxError String × AuxMcu :=
  match sendCommand c env 'u'.toNat with
  | (some err, c1) => (.error err, c1)
  | (none, c1) =>
    match env.line with
    | none => (.error .readFailed, c1)
    | some line => (.ok (trimSpace line), c1)

/-- Method `GetUSBMassStorageSide`. -/
def GetUSBMassStorageSide (c : AuxMcu) : USB_mass_storage_side :=
  c.usb_mass_storage_side

/-! ## Device-group discovery (dezukvm/kvmscan.go) -/

/-- Record `UsbKvmDevice` of kvmscan.go. -/
structure UsbKvmDevice where
  UUID : String
  USBKVMDevicePath : String
  AuxMCUDevicePath : String
  CaptureDevicePaths : List String
  AlsaDevicePaths : List String
  deriving DecidableEq, Repr

/-- Record `devInfo` of `DiscoverUsbKvmSubtree`: a device node and the sysfs
path `getDeviceFullPath` resolved for it. -/
structure devInfo where
  path : String
  sysPath : String
  deriving DecidableEq, Repr

/-- Record `hubGroup` of `DiscoverUsbKvmSubtree`. -/
structure hubGroup where
  ttys : List String
  acms : List String
  videos : List String
  alsas : List String
  deriving DecidableEq, Repr

/-- The value `&hubGroup{}`. -/
def hubGroup.empty : hubGroup := { ttys := [], acms := [], videos := [], alsas := [] }

/-- Go `strings.Split(s, "/")` on the characters of `s`. -/
def splitSlash : List Char → List (List Char)
  | [] => [[]]
  | c :: cs =>
    match splitSlash cs with
    | [] => if c = '/' then [[], []] else [[c]]
    | seg :: rest => if c = '/' then [] :: seg :: rest else (c :: seg) :: rest

/-- Go `strings.Join(parts, "/")`. -/
def joinSlash : List (List Char) → List Char
  | [] => []
  | [p] => p
  | p :: q :: rest => p ++ '/' :: joinSlash (q :: rest)

/-- The class `\d` of the hub pattern: an ASCII digit. -/
def isDigit (c : Char) : Bool := '0' ≤ c && c ≤ '9'

/-- Splits at every `.`. -/
def splitDot : List Char → List (List Char)
  | [] => [[]]
  | c :: cs =>
    match splitDot cs with
    | [] => if c = '.' then [[], []] else [[c]]
    | seg :: rest => if c = '.' then [] :: seg :: rest else (c :: seg) :: rest

/-- Whether a path segment matches `hubPattern`, `^\d+-\d+(\.\d+)*$`: digits,
a dash, then one or more groups of digits separated by dots. -/
def isHubSegment (s : List Char) : Bool :=
  match s.dropWhile isDigit with
  | '-' :: r =>
    !(s.takeWhile isDigit).isEmpty && (splitDot r).all (fun g => !g.isEmpty && g.all isDigit)
  | _ => false

/-- The closure `getHub`: the path up to and including the first segment
that matches `hubPattern`, or `""`. -/
def getHub (sys : String) : String :=
  let parts := splitSlash sys.data
  match parts.findIdx? isHubSegment with
  | some i => String.mk (joinSlash (parts.take (i + 1)))
  | none => ""

/-- Go `strings.Contains(s, sub)` on characters. -/
def containsChars (sub : List Char) : List Char → Bool
  | [] => sub.isEmpty
  | c :: cs => sub.isPrefixOf (c :: cs) || containsChars sub cs

/-- The test `strings.Contains(t.path, "ACM")`. -/
def isAcm (path : String) : Bool := containsChars ['A', 'C', 'M'] path.data

/-- The Go map `hubs`, in insertion order: the statement
`if hubs[hub] == nil { hubs[hub] = &hubGroup{} }` followed by an update `f`
of `hubs[hub]`. -/
def hubsUpdate (hubs : List (String × hubGroup)) (hub : String) (f : hubGroup → hubGroup) :
    List (String × hubGroup) :=
  match hubs with
  | [] => [(hub, f hubGroup.empty)]
  | (k, g) :: rest => if k = hub then (k, f g) :: rest else (k, g) :: hubsUpdate rest hub f

/-- One of the three loops over `ttys`, `videos`, `alsas`: `add` is what the
body appends to the group of the device's hub. -/
def hubsLoop (add : devInfo → hubGroup → hubGroup) (hubs : List (String × hubGroup))
    (devs : List devInfo) : List (String × hubGroup) :=
  devs.foldl (fun hubs t =>
    let hub := getHub t.sysPath
    if hub ≠ "" then hubsUpdate hubs hub (add t) else hubs) hubs

/-- Body of the loop over `ttys`. -/
def addTty (t : devInfo) (g : hubGroup) : hubGroup :=
  if isAcm t.path then { g with acms := g.acms ++ [t.path] }
  else { g with ttys := g.ttys ++ [t.path] }

/-- Body of the loop over `videos`. -/
def addVideo (v : devInfo) (g : hubGroup) : hubGroup :=
  { g with videos := g.videos ++ [v.path] }

/-- Body of the loop over `alsas`. -/
def addAlsa (a : devInfo) (g : hubGroup) : hubGroup :=
  { g with alsas := g.alsas ++ [a.path] }

/-- The map `hubs` after the three loops. -/
def buildHubs (ttys videos alsas : List devInfo) : List (String × hubGroup) :=
  hubsLoop addAlsa (hubsLoop addVideo (hubsLoop addTty [] ttys) videos) alsas

/-- The test `(len(g.ttys) > 0 || len(g.acms) > 0) && len(g.videos) > 0`. -/
def hubGroup.qualifies (g : hubGroup) : Bool :=
  (g.ttys.length > 0 || g.acms.length > 0) && g.videos.length > 0

/-- The `UsbKvmDevice` built from a group in the last loop. -/
def hubGroup.toDevice (g : hubGroup) : UsbKvmDevice :=
  { UUID := ""
    USBKVMDevicePath := if g.ttys.length > 0 then g.ttys.getD 0 "" else ""
    AuxMCUDevicePath := if g.acms.length > 0 then g.acms.getD 0 "" else ""
    CaptureDevicePaths := g.videos
    AlsaDevicePaths := g.alsas }

/-- The loop `for _, g := range hubs` with the hub of each candidate kept;
`iter` is the order in which Go visits the map. -/
def discoverCandidates (iter : List (String × hubGroup) → List (String × hubGroup))
    (ttys videos alsas : List devInfo) : List (String × UsbKvmDevice) :=
  (iter (buildHubs ttys videos alsas)).filterMap
    (fun kg => if kg.2.qualifies then some (kg.1, kg.2.toDevice) else none)

/-- Function `populateUsbKvmUUID`; `readUUID` is the outcome of opening the
Aux MCU at a path and asking for its UUID (`none` for an error, which is
logged and ignored by the caller). -/
def populateUsbKvmUUID (readUUID : String → Option String) (dev : UsbKvmDevice) : UsbKvmDevice :=
  if dev.AuxMCUDevicePath = "" then dev
  else
    match readUUID dev.AuxMCUDevicePath with
    | none => dev
    | some uuid => { dev with UUID := uuid }

/-- Function `DiscoverUsbKvmSubtree` on the resolved device lists: `none`
is the error "no USB KVM device found". -/
def DiscoverUsbKvmSubtree (iter : List (String × hubGroup) → List (String × hubGroup))
    (readUUID : String → Option String) (ttys videos alsas : List devInfo) :
    Option (List UsbKvmDevice) :=
  let result := (discoverCandidates iter ttys videos alsas).map
    (fun kd => populateUsbKvmUUID readUUID kd.2)
  if result.length = 0 then none else some result

/-- The value of `hubs[hub]` (`none` for `nil`). -/
def hubsGet : List (String × hubGroup) → String → Option hubGroup
  | [], _ => none
  | (k, g) :: rest, hub => if k = hub then some g else hubsGet rest hub

/-- The group of a hub, the empty group when the map has none. -/
def groupOf (hubs : List (String × hubGroup)) (hub : String) : hubGroup :=
  (hubsGet hubs hub).getD hubGroup.empty

/-- The paths of the devices of `devs` whose hub prefix is `hub`, in input
order; devices without a hub prefix belong to no hub. -/
def devicesOfHub (hub : String) (devs : List devInfo) : List String :=
  (devs.filter (fun d => decide (getHub d.sysPath = hub) && decide (hub ≠ ""))).map (fun d => d.path)

/-- The candidate the spec describes for a hub prefix. -/
def specCandidate (hub : String) (ttys videos alsas : List devInfo) : UsbKvmDevice :=
  { UUID := ""
    USBKVMDevicePath := (((devicesOfHub hub ttys).filter (fun p => !isAcm p)).head?).getD ""
    AuxMCUDevicePath := (((devicesOfHub hub ttys).filter (fun p => isAcm p)).head?).getD ""
    CaptureDevicePaths := devicesOfHub hub videos
    AlsaDevicePaths := devicesOfHub hub alsas }

/-- A dongle behind root port 1-2: its UART, CDC-ACM, video and audio nodes
sit on ports 1-2.3.1 to 1-2.3.4 of the hub at 1-2.3. -/
def sampleTtysA : List devInfo :=
  [⟨"/dev/ttyUSB0",
    "/sys/devices/pci0000:00/0000:00:14.0/usb1/1-2/1-2.3/1-2.3.1/1-2.3.1:1.0/ttyUSB0/tty/ttyUSB0"⟩,
   ⟨"/dev/ttyACM0",
    "/sys/devices/pci0000:00/0000:00:14.0/usb1/1-2/1-2.3/1-2.3.2/1-2.3.2:1.0/tty/ttyACM0"⟩]

/-- The video node of the dongle at 1-2.3. -/
def sampleVideosA : List devInfo :=
  [⟨"/dev/video0",
    "/sys/devices/pci0000:00/0000:00:14.0/usb1/1-2/1-2.3/1-2.3.3/1-2.3.3:1.0/video4linux/video0"⟩]

/-- The audio node of the dongle at 1-2.3. -/
def sampleAlsasA : List devInfo :=
  [⟨"/dev/snd/pcmC1D0c",
    "/sys/devices/pci0000:00/0000:00:14.0/usb1/1-2/1-2.3/1-2.3.4/1-2.3.4:1.0/sound/card1/pcmC1D0c"⟩]

/-- A second dongle on the same upstream hub, at 1-2.4. -/
def sampleTtysB : List devInfo :=
  [⟨"/dev/ttyUSB1",
    "/sys/devices/pci0000:00/0000:00:14.0/usb1/1-2/1-2.4/1-2.4.1/1-2.4.1:1.0/ttyUSB1/tty/ttyUSB1"⟩,
   ⟨"/dev/ttyACM1",
    "/sys/devices/pci0000:00/0000:00:14.0/usb1/1-2/1-2.4/1-2.4.2/1-2.4.2:1.0/tty/ttyACM1"⟩]

/-- The video node of the dongle at 1-2.4. -/
def sampleVideosB : List devInfo :=
  [⟨"/dev/video2",
    "/sys/devices/pci0000:00/0000:00:14.0/usb1/1-2/1-2.4/1-2.4.3/1-2.4.3:1.0/video4linux/video2"⟩]

/-- A dongle on another root port, 2-1. -/
def sampleTtysC : List devInfo :=
  [⟨"/dev/ttyUSB2",
    "/sys/devices/pci0000:00/0000:00:14.0/usb2/2-1/2-1.1/2-1.1:1.0/ttyUSB2/tty/ttyUSB2"⟩,
   ⟨"/dev/ttyACM2",
    "/sys/devices/pci0000:00/0000:00:14.0/usb2/2-1/2-1.2/2-1.2:1.0/tty/ttyACM2"⟩]

/-- The video node of the dongle at 2-1. -/
def sampleVideosC : List devInfo :=
  [⟨"/dev/video4",
    "/sys/devices/pci0000:00/0000:00:14.0/usb2/2-1/2-1.3/2-1.3:1.0/video4linux/video4"⟩]

/-! ## Instance options and scan (dezukvm/typedef.go, kvmscan.go) -/

/-- Record `UsbKvmDeviceOption` of typedef.go. -/
structure UsbKvmDeviceOption where
  USBKVMDevicePath : String
  AuxMCUDevicePath : String
  VideoCaptureDevicePath : String
  AudioCaptureDevicePath : String
  CaptureVideoResolutionWidth : Int
  CaptureeVideoResolutionHeight : Int
  CaptureeVideoFPS : Int
  CaptureAudioSampleRate : Int
  CaptureAudioChannels : Int
  CaptureAudioBytesPerSample : Int
  CaptureAudioFrameSize : Int
  USBKVMBaudrate : Int
  AuxMCUBaudrate : Int
  deriving DecidableEq, Repr

/-- The body of the loop of `ScanConnectedUsbKvmDevices` for one group;
`isCaptureCard` is `usbcapture.IsCaptureCardVideoInterface`. -/
def scanOption (isCaptureCard : String → Bool) (dev : UsbKvmDevice) : UsbKvmDeviceOption :=
  let option : UsbKvmDeviceOption :=
    { USBKVMDevicePath := dev.USBKVMDevicePath
      AuxMCUDevicePath := dev.AuxMCUDevicePath
      VideoCaptureDevicePath := ""
      AudioCaptureDevicePath := ""
      CaptureVideoResolutionWidth := 0
      CaptureeVideoResolutionHeight := 0
      CaptureeVideoFPS := 0
      CaptureAudioSampleRate := 0
      CaptureAudioChannels := 0
      CaptureAudioBytesPerSample := 0
      CaptureAudioFrameSize := 0
      USBKVMBaudrate := 0
      AuxMCUBaudrate := 0 }
  let option := dev.CaptureDevicePaths.foldl
    (fun option videoPath =>
      if isCaptureCard videoPath then { option with VideoCaptureDevicePath := videoPath }
      else option) option
  if dev.AlsaDevicePaths.length > 0 then
    { option with AudioCaptureDevicePath := dev.AlsaDevicePaths.getD 0 "" }
  else option

/-- Function `ScanConnectedUsbKvmDevices`, given what `DiscoverUsbKvmSubtree`
returned; `none` is an error. -/
def ScanConnectedUsbKvmDevices (isCaptureCard : String → Bool)
    (possibleKvmDeviceGroup : Option (List UsbKvmDevice)) : Option (List UsbKvmDeviceOption) :=
  match possibleKvmDeviceGroup with
  | none => none
  | some groups =>
    if groups.length = 0 then none
    else some (groups.map (scanOption isCaptureCard))

/-- A group with two video nodes, as produced for a capture device with two
capture interfaces (or for two dongles on one upstream hub). -/
def sampleGroupTwoVideos : UsbKvmDevice :=
  { UUID := ""
    USBKVMDevicePath := "/dev/ttyUSB0"
    AuxMCUDevicePath := "/dev/ttyACM0"
    CaptureDevicePaths := ["/dev/video0", "/dev/video2"]
    AlsaDevicePaths := ["/dev/snd/pcmC1D0c"] }

/-! ## Device instances (dezukvm/typedef.go, usbkvm.go, dezukvm.go, handlers.go) -/

/-- Record `usbcapture.AudioConfig`. -/
structure AudioConfig where
  SampleRate : Int
  Channels : Int
  BytesPerSample : Int
  FrameSize : Int
  deriving DecidableEq, Repr

/-- Function `usbcapture.GetDefaultAudioConfig`. -/
def GetDefaultAudioConfig : AudioConfig :=
  { SampleRate := 48000, Channels := 2, BytesPerSample := 2, FrameSize := 1920 }

/-- Record `usbcapture.Config`. -/
structure CaptureConfig where
  VideoDeviceName : String
  AudioDeviceName : String
  AudioConfig : AudioConfig
  deriving DecidableEq, Repr

/-- Record `usbcapture.CaptureResolution`. -/
structure CaptureResolution where
  Width : Int
  Height : Int
  FPS : Int
  deriving DecidableEq, Repr

/-- Record `usbcapture.Instance`, the fields read by the instance manager. -/
structure Instance where
  Capturing : Bool
  streamInfo : String
  deriving DecidableEq, Repr

/-- Method `GetStreamInfo` of `usbcapture.Instance`. -/
def GetStreamInfo (i : Instance) : String :=
  i.streamInfo

/-- Record `UsbKvmDeviceInstance` of typedef.go. A Go nil pointer is `none`. -/
structure UsbKvmDeviceInstance where
  Config : UsbKvmDeviceOption
  captureConfig : CaptureConfig
  videoResoltuionConfig : CaptureResolution
  uuid : String
  usbKVMController : Option Controller
  auxMCUController : Option AuxMcu
  usbCaptureDevice : Option Instance
  deriving DecidableEq, Repr

/-- Method `UUID`. -/
def UsbKvmDeviceInstance.UUID (i : UsbKvmDeviceInstance) : String :=
  i.uuid

/-- What the outside world does during one `Start`: whether the two serial
ports open, the serial side of the `GetUUID` exchange, the result of
`uuid.NewRandom` (`none` for an error), whether `usbcapture.NewInstance`
succeeds, and the stream info set by `StartVideoCapture` (`none` when it
fails). -/
structure StartEnv where
  hidOpens : Bool
  auxOpens : Bool
  aux : AuxEnv
  newRandom : Option String
  captureNew : Bool
  captureStart : Option String
  deriving DecidableEq, Repr

/-- Errors returned by `Start`. -/
inductive StartError where
  | devicePathNotSpecified
  | connectFailed
  | auxOpenFailed
  | getUUIDFailed (cause : AuxError)
  | newRandomFailed
  | newInstanceFailed
  | startVideoCaptureFailed
  deriving DecidableEq, Repr

/-- Default baud rates of `Start`. -/
def UsbKvmDeviceInstance.defaultUSBKVMBaudrate (i : UsbKvmDeviceInstance) : UsbKvmDeviceInstance :=
  if i.Config.USBKVMBaudrate = 0 then { i with Config := { i.Config with USBKVMBaudrate := 115200 } }
  else i

/-- Default Aux MCU baud rate of `Start`. -/
def UsbKvmDeviceInstance.defaultAuxMCUBaudrate (i : UsbKvmDeviceInstance) : UsbKvmDeviceInstance :=
  if i.Config.AuxMCUBaudrate = 0 then { i with Config := { i.Config with AuxMCUBaudrate := 115200 } }
  else i

/-- The section "Start USB Capture Device" of `Start`. -/
def UsbKvmDeviceInstance.startCapture (i : UsbKvmDeviceInstance) (env : StartEnv) :
    Option StartError × UsbKvmDeviceInstance :=
  if env.captureNew then
    match env.captureStart with
    | none => (some .startVideoCaptureFailed, i)
    | some info => (none, { i with usbCaptureDevice := some { Capturing := true, streamInfo := info } })
  else (some .newInstanceFailed, i)

/-- The section "Start AuxMCU Controller" of `Start`, followed by the
capture section. -/
def UsbKvmDeviceInstance.startAux (i : UsbKvmDeviceInstance) (env : StartEnv) :
    Option StartError × UsbKvmDeviceInstance :=
  if i.Config.AuxMCUDevicePath ≠ "" then
    let i := i.defaultAuxMCUBaudrate
    if env.auxOpens then
      match GetUUID NewAuxOutbandController env.aux with
      | (.error err, auxMCU) => (some (.getUUIDFailed err), { i with auxMCUController := some auxMCU })
      | (.ok uuid, auxMCU) =>
        UsbKvmDeviceInstance.startCapture { i with auxMCUController := some auxMCU, uuid := uuid } env
    else (some .auxOpenFailed, i)
  else
    match env.newRandom with
    | none => (some .newRandomFailed, i)
    | some uuid => UsbKvmDeviceInstance.startCapture { i with uuid := uuid } env

/-- Method `Start` of `UsbKvmDeviceInstance`: the returned error (`none` for
nil) and the instance afterwards. -/
def UsbKvmDeviceInstance.Start (i : UsbKvmDeviceInstance) (env : StartEnv) :
    Option StartError × UsbKvmDeviceInstance :=
  if i.Config.USBKVMDevicePath = "" then (some .devicePathNotSpecified, i)
  else
    let i := i.defaultUSBKVMBaudrate
    if env.hidOpens then
      UsbKvmDeviceInstance.startAux
        { i with usbKVMController := some (runningController { ScrollSensitivity := 1 }) } env
    else (some .connectFailed, i)

/-- Method `Stop` of `UsbKvmDeviceInstance`. -/
def UsbKvmDeviceInstance.Stop (i : UsbKvmDeviceInstance) : UsbKvmDeviceInstance :=
  { i with usbKVMController := none, auxMCUController := none, usbCaptureDevice := none }


/-- Record `DezukVM` of typedef.go: the instances in list order. -/
structure DezukVM where
  UsbKvmInstance : List UsbKvmDeviceInstance
  deriving DecidableEq, Repr

/-- Constructor `NewKvmHostInstance`. -/
def NewKvmHostInstance : DezukVM :=
  { UsbKvmInstance := [] }

/-- Errors returned by `AddUsbKvmDevice`. -/
inductive AddError where
  | audioPathNotSpecified
  | videoPathNotSpecified
  deriving DecidableEq, Repr

/-- The audio defaults written into the option by `AddUsbKvmDevice`. -/
def audioDefaults (config : UsbKvmDeviceOption) : UsbKvmDeviceOption :=
  let config := if config.CaptureAudioSampleRate = 0
    then { config with CaptureAudioSampleRate := GetDefaultAudioConfig.SampleRate } else config
  let config := if config.CaptureAudioChannels = 0
    then { config with CaptureAudioChannels := GetDefaultAudioConfig.Channels } else config
  let config := if config.CaptureAudioBytesPerSample = 0
    then { config with CaptureAudioBytesPerSample := GetDefaultAudioConfig.BytesPerSample } else config
  if config.CaptureAudioFrameSize = 0
    then { config with CaptureAudioFrameSize := GetDefaultAudioConfig.FrameSize } else config

/-- The video defaults written into the option by `AddUsbKvmDevice`. -/
def videoDefaults (config : UsbKvmDeviceOption) : UsbKvmDeviceOption :=
  let config := if config.CaptureVideoResolutionWidth = 0
    then { config with CaptureVideoResolutionWidth := 1920 } else config
  let config := if config.CaptureeVideoResolutionHeight = 0
    then { config with CaptureeVideoResolutionHeight := 1080 } else config
  if config.CaptureeVideoFPS = 0 then { config with CaptureeVideoFPS := 25 } else config

/-- The instance literal built at the end of `AddUsbKvmDevice`. -/
def newInstance (config : UsbKvmDeviceOption) : UsbKvmDeviceInstance :=
  { Config := config
    captureConfig :=
      { VideoDeviceName := config.VideoCaptureDevicePath
        AudioDeviceName := config.AudioCaptureDevicePath
        AudioConfig :=
          { SampleRate := config.CaptureAudioSampleRate
            Channels := config.CaptureAudioChannels
            BytesPerSample := config.CaptureAudioBytesPerSample
            FrameSize := config.CaptureAudioFrameSize } }
    videoResoltuionConfig :=
      { Width := config.CaptureVideoResolutionWidth
        Height := config.CaptureeVideoResolutionHeight
        FPS := config.CaptureeVideoFPS }
    uuid := ""
    usbKVMController := none
    auxMCUController := none
    usbCaptureDevice := none }

/-- Method `AddUsbKvmDevice`. -/
def AddUsbKvmDevice (d : DezukVM) (config : UsbKvmDeviceOption) : Option AddError × DezukVM :=
  if config.AudioCaptureDevicePath = "" then (some .audioPathNotSpecified, d)
  else
    let config := audioDefaults config
    if config.VideoCaptureDevicePath = "" then (some .videoPathNotSpecified, d)
    else
      let config := videoDefaults config
      (none, { d with UsbKvmInstance := d.UsbKvmInstance ++ [newInstance config] })

/-- The loop of `StartAllUsbKvmDevices` from position `k` on; `envs k` is
what the outside world does during the start of the instance at position
`k`. The loop returns at the first error. -/
def startAllLoop (envs : Nat → StartEnv) :
    List UsbKvmDeviceInstance → Nat → Option StartError × List UsbKvmDeviceInstance
  | [], _ => (none, [])
  | inst :: rest, k =>
    match inst.Start (envs k) with
    | (some err, inst1) => (some err, inst1 :: rest)
    | (none, inst1) =>
      match startAllLoop envs rest (k + 1) with
      | (err, rest1) => (err, inst1 :: rest1)

/-- Method `StartAllUsbKvmDevices`. -/
def StartAllUsbKvmDevices (d : DezukVM) (envs : Nat → StartEnv) : Option StartError × DezukVM :=
  match startAllLoop envs d.UsbKvmInstance 0 with
  | (err, insts) => (err, { d with UsbKvmInstance := insts })

/-- Method `StopAllUsbKvmDevices`; `Stop` never returns an error. -/
def StopAllUsbKvmDevices (d : DezukVM) : DezukVM :=
  { d with UsbKvmInstance := d.UsbKvmInstance.map UsbKvmDeviceInstance.Stop }

/-- One element of the JSON array written by `HandleListInstances`. -/
structure InstanceEntry where
  uuid : String
  video_capture_dev : String
  audio_capture_dev : String
  video_resolution_width : Int
  video_resolution_height : Int
  video_framerate : Int
  audio_sample_rate : Int
  audio_channels : Int
  stream_info : String
  usb_kvm_device : String
  aux_mcu_device : String
  usb_mass_storage_side : USB_mass_storage_side
  deriving DecidableEq, Repr

/-- Outcome of `HandleListInstances`: the entries encoded into the response,
or a nil pointer dereference (a Go run-time panic). -/
inductive ListReply where
  | entries (l : List InstanceEntry)
  | nilDereference
  deriving DecidableEq, Repr

/-- The map literal built for one instance in `HandleListInstances`:
`GetStreamInfo` reads a field of `usbCaptureDevice` and
`GetUSBMassStorageSide` locks a field of `auxMCUController`, so each
dereferences its receiver; `none` is the nil dereference. -/
def listEntry (inst : UsbKvmDeviceInstance) : Option InstanceEntry :=
  match inst.usbCaptureDevice with
  | none => none
  | some usbCaptureDevice =>
    match inst.auxMCUController with
    | none => none
    | some auxMCUController =>
      some
        { uuid := inst.UUID
          video_capture_dev := inst.Config.VideoCaptureDevicePath
          audio_capture_dev := inst.Config.AudioCaptureDevicePath
          video_resolution_width := inst.Config.CaptureVideoResolutionWidth
          video_resolution_height := inst.Config.CaptureeVideoResolutionHeight
          video_framerate := inst.Config.CaptureeVideoFPS
          audio_sample_rate := inst.Config.CaptureAudioSampleRate
          audio_channels := inst.Config.CaptureAudioChannels
          stream_info := GetStreamInfo usbCaptureDevice
          usb_kvm_device := inst.Config.USBKVMDevicePath
          aux_mcu_device := inst.Config.AuxMCUDevicePath
          usb_mass_storage_side := GetUSBMassStorageSide auxMCUController }

/-- The loop of `HandleListInstances`; `instances` is the slice built so far. -/
def listLoop : List UsbKvmDeviceInstance → List InstanceEntry → ListReply
  | [], instances => .entries instances
  | inst :: rest, instances =>
    match listEntry inst with
    | none => .nilDereference
    | some entry => listLoop rest (instances ++ [entry])

/-- Method `HandleListInstances`. -/
def HandleListInstances (d : DezukVM) : ListReply :=
  listLoop d.UsbKvmInstance []

/-- An option as the scan produces it: all four device paths, no settings. -/
def sampleOption : UsbKvmDeviceOption :=
  { USBKVMDevicePath := "/dev/ttyUSB0"
    AuxMCUDevicePath := "/dev/ttyACM0"
    VideoCaptureDevicePath := "/dev/video0"
    AudioCaptureDevicePath := "/dev/snd/pcmC1D0c"
    CaptureVideoResolutionWidth := 0
    CaptureeVideoResolutionHeight := 0
    CaptureeVideoFPS := 0
    CaptureAudioSampleRate := 0
    CaptureAudioChannels := 0
    CaptureAudioBytesPerSample := 0
    CaptureAudioFrameSize := 0
    USBKVMBaudrate := 0
    AuxMCUBaudrate := 0 }

/-- The same option for a device without an Aux MCU. -/
def sampleOptionNoAux : UsbKvmDeviceOption :=
  { sampleOption with AuxMCUDevicePath := "" }

/-- A start in which every port opens, the Aux MCU answers its UUID and the
capture device starts. -/
def envAllGood : StartEnv :=
  { hidOpens := true
    auxOpens := true
    aux := { writeOk := true, line := some "dezukvm-0001\r\n" }
    newRandom := some "5b0c7e0e-6f0a-4c58-9d0b-0d6a4f7f3a11"
    captureNew := true
    captureStart := some "MJPG 1920x1080" }

/-- A start in which every port opens and the capture device starts, but
the read of the UUID line from the Aux MCU fails (a read timeout). -/
def envUuidReadFails : StartEnv :=
  { envAllGood with aux := { writeOk := true, line := none } }

/-- The registry after one `AddUsbKvmDevice` of `sampleOption`. -/
def sampleRegistry : DezukVM :=
  (AddUsbKvmDevice NewKvmHostInstance sampleOption).2

/-- The registry after one `AddUsbKvmDevice` of `sampleOptionNoAux`. -/
def sampleRegistryNoAux : DezukVM :=
  (AddUsbKvmDevice NewKvmHostInstance sampleOptionNoAux).2

/-! ## Audio decimation (usbcapture/audio_device.go) -/

/-- The loop `for i := 0; i < len(buf); i += stride` of the two downsample
functions, with `frameSize = 4`: `buf[i:i+4]` is appended when it lies inside
the buffer. The first argument bounds the number of iterations; `none` means
the bound was reached before the loop ended. -/
def downsampleLoop (stride : Nat) (buf : List Nat) : Nat → Nat → List Nat → Option (List Nat)
  | 0, _, _ => none
  | fuel + 1, i, out =>
    if i < buf.length then
      if i + 4 ≤ buf.length then
        downsampleLoop stride buf fuel (i + stride) (out ++ (buf.take (i + 4)).drop i)
      else downsampleLoop stride buf fuel (i + stride) out
    else some out

/-- The trimming at the head of the two downsample functions. -/
def trimIncompleteFrame (buf : List Nat) : List Nat :=
  if buf.length % 4 ≠ 0 then buf.take (buf.length - buf.length % 4) else buf

/-- Function `downsample48kTo24kStereo`: stride `frameSize * 2`. -/
def downsample48kTo24kStereo (buf : List Nat) : Option (List Nat) :=
  let buf := trimIncompleteFrame buf
  downsampleLoop (4 * 2) buf (buf.length + 1) 0 []

/-- Function `downsample48kTo16kStereo`: stride `frameSize * 3`. -/
def downsample48kTo16kStereo (buf : List Nat) : Option (List Nat) :=
  let buf := trimIncompleteFrame buf
  downsampleLoop (4 * 3) buf (buf.length + 1) 0 []

/-- Spec side: the 4-byte stereo frame number `m` of a buffer. -/
def frameAt (b : List Nat) (m : Nat) : List Nat :=
  (b.drop (4 * m)).take 4

/-- Spec side: the concatenation of frames `0, k, 2k, ...` taken from the
`n = len(b) / 4` complete frames of `b`; there are `ceil(n / k)` of them. -/
def everyKthFrame (k : Nat) (b : List Nat) : List Nat :=
  ((List.range ((b.length / 4 + k - 1) / k)).map (fun j => frameAt b (k * j))).flatten

/-! ## Audio messages (usbcapture/audio_device.go, AudioStreamingHandler) -/

/-- The choice of `selectedQuality` from the `quality` query parameter:
the first of `low`, `standard`, `high` equal to it, else `standard`. -/
def selectQuality (quality : String) : String :=
  (["low", "standard", "high"].find? (fun q => quality = q)).getD "standard"

/-- The body of the capture loop after the `n == 0` check: the binary
message handed to `conn.WriteMessage` for the chunk `buf[:n]`. `none` only
if a downsample loop did not end. -/
def audioMessage (selectedQuality : String) (chunk : List Nat) : Option (List Nat) :=
  if selectedQuality = "high" then some chunk
  else if selectedQuality = "standard" then downsample48kTo24kStereo chunk
  else if selectedQuality = "low" then downsample48kTo16kStereo chunk
  else some chunk

/-! ## Capture formats (usbcapture/video_device.go) -/

/-- Record `SizeInfo` of usbcapture. -/
structure SizeInfo where
  Width : Int
  Height : Int
  FPS : List Int
  deriving DecidableEq, Repr

/-- Record `FormatInfo` of usbcapture. -/
structure FormatInfo where
  Format : String
  Sizes : List SizeInfo
  deriving DecidableEq, Repr

/-- One line of the `v4l2-ctl --list-formats-ext` text, as the three regular
expressions of `GetV4L2FormatInfo` see it: the format name found by
`formatRegex`, the width and height found by `sizeRegex` (after
`strconv.Atoi`), and the frame rate found by `intervalRegex` (after
`strconv.ParseFloat` and the conversion `int(fps)`); `none` where the
expression does not match. -/
structure Line where
  format : Option String
  size : Option (Int × Int)
  interval : Option Int
  deriving DecidableEq, Repr

/-- A line `[i]: 'FMT'`. -/
def formatLine (fmt : String) : Line :=
  { format := some fmt, size := none, interval := none }

/-- A line `Size: Discrete WxH`. -/
def sizeLine (w h : Int) : Line :=
  { format := none, size := some (w, h), interval := none }

/-- A line `Interval: Discrete ...s (F fps)`, with `F` truncated to an integer. -/
def intervalLine (fps : Int) : Line :=
  { format := none, size := none, interval := some fps }

/-- The inner loop `for scanner.Scan()` of `GetV4L2FormatInfo`: interval
lines add to `sizeInfo.FPS`; the first other line ends the loop with `break`
after `scanner.Scan` has already moved past it. Returns the FPS list and the
lines the scanner has not yet read. -/
def scanIntervals : List Line → List Int → List Int × List Line
  | [], fps => (fps, [])
  | line :: rest, fps =>
    match line.interval with
    | some f => scanIntervals rest (fps ++ [f])
    | none => (fps, rest)

/-- Outcome of `GetV4L2FormatInfo`: the formats, or a nil pointer dereference
(a size line before any format line, `currentFormat` being nil). -/
inductive V4L2Reply where
  | formats (l : List FormatInfo)
  | nilDereference
  deriving DecidableEq, Repr

/-- Appends `*currentFormat` to `formats` when `currentFormat != nil`. -/
def appendCurrent (formats : List FormatInfo) (currentFormat : Option FormatInfo) :
    List FormatInfo :=
  match currentFormat with
  | some c => formats ++ [c]
  | none => formats

/-- The outer loop `for scanner.Scan()` of `GetV4L2FormatInfo` over the lines
not yet read. The first argument bounds the number of iterations; `none`
means the bound was reached before the loop ended. -/
def parseLoop : Nat → List Line → List FormatInfo → Option FormatInfo → Option V4L2Reply
  | 0, _, _, _ => none
  | _ + 1, [], formats, currentFormat => some (.formats (appendCurrent formats currentFormat))
  | fuel + 1, line :: rest, formats, currentFormat =>
    let formats1 := if line.format.isSome then appendCurrent formats currentFormat else formats
    let currentFormat1 : Option FormatInfo :=
      match line.format with
      | some name => some { Format := name, Sizes := [] }
      | none => currentFormat
    match line.size with
    | some (width, height) =>
      match currentFormat1 with
      | none => some .nilDereference
      | some c =>
        parseLoop fuel (scanIntervals rest []).2 formats1
          (some { c with Sizes := c.Sizes ++
            [{ Width := width, Height := height, FPS := (scanIntervals rest []).1 }] })
    | none => parseLoop fuel rest formats1 currentFormat1

/-- Function `GetV4L2FormatInfo` as a function of the lines of the listing. -/
def GetV4L2FormatInfo (lines : List Line) : Option V4L2Reply :=
  parseLoop (lines.length + 1) lines [] none

/-- The three nested loops of `deviceSupportResolution`. -/
def resolutionListed (formatInfo : List FormatInfo) (resolution : CaptureResolution) : Bool :=
  formatInfo.any (fun res =>
    res.Sizes.any (fun size =>
      size.Height = resolution.Height && size.Width = resolution.Width
        && size.FPS.any (fun fps => fps = resolution.FPS)))

/-- Function `deviceSupportResolution` as a function of the lines of the
listing; `none` when `GetV4L2FormatInfo` gives no formats. -/
def deviceSupportResolution (lines : List Line) (resolution : CaptureResolution) : Option Bool :=
  match GetV4L2FormatInfo lines with
  | some (.formats formatInfo) => some (resolutionListed formatInfo resolution)
  | _ => none

/-- A listing with one format and two sizes:
`[0]: 'MJPG'`, `Size: Discrete 1920x1080`, `Interval: ... (30.000 fps)`,
`Size: Discrete 1280x720`, `Interval: ... (60.000 fps)`. -/
def sampleListingTwoSizes : List Line :=
  [formatLine "MJPG", sizeLine 1920 1080, intervalLine 30, sizeLine 1280 720, intervalLine 60]

/-- A listing with two formats of one size each:
`[0]: 'MJPG'`, `Size: Discrete 1920x1080`, `Interval: ... (30.000 fps)`,
`[1]: 'YUYV'`, `Size: Discrete 640x480`, `Interval: ... (30.000 fps)`. -/
def sampleListingTwoFormats : List Line :=
  [formatLine "MJPG", sizeLine 1920 1080, intervalLine 30,
   formatLine "YUYV", sizeLine 640 480, intervalLine 30]

/-! ## Theorems -/

theorem set_last_eq (l : List Nat) (n v : Nat) (h : l.length = n + 1) :
    l.set n v = l.take n ++ [v] := by
  induction l generalizing n with
  | nil => simp at h
  | cons a t ih =>
    cases n with
    | zero =>
      have : t = [] := by simpa using h
      subst this; rfl
    | succ m =>
      simp only [List.length_cons, Nat.add_right_cancel_iff] at h
      simp [List.set, List.take, ih m h]

theorem checksumOk_set_last (l : List Nat) (n : Nat) (h : l.length = n + 1) :
    checksumOk (l.set n (calcChecksum (l.take n))) := by
  rw [set_last_eq l n _ h]
  simp [checksumOk]

theorem length_foldl_set (f : Nat → Nat) (is : List Nat) (p : List Nat) :
    (is.foldl (fun p i => p.set (7 + i) (f i)) p).length = p.length := by
  induction is generalizing p with
  | nil => rfl
  | cons i t ih => rw [List.foldl_cons, ih, List.length_set]

theorem keyboardPacket_length (s : HIDState) : (keyboardPacket s).length = 14 := by
  unfold keyboardPacket
  rw [List.length_set, length_foldl_set (fun i => s.KeyboardButtons.getD i 0)]
  rfl

theorem keyboardPacket_checksumOk (s : HIDState) : checksumOk (keyboardPacket s) := by
  unfold keyboardPacket
  refine checksumOk_set_last _ 13 ?_
  rw [length_foldl_set (fun i => s.KeyboardButtons.getD i 0)]
  rfl

theorem sendLog_WaitForReply (c : Controller) (env : Env) (cmd : Nat) :
    (WaitForReply c env cmd).2.sendLog = c.sendLog := rfl

theorem sendLog_Send (c : Controller) (env : Env) (p : List Nat) :
    (Send c env p).2.sendLog = c.sendLog ++ [p] := by
  unfold Send
  split_ifs <;> rfl

theorem hidState_Send (c : Controller) (env : Env) (p : List Nat) :
    (Send c env p).2.hidState = c.hidState := by
  unfold Send
  split_ifs <;> rfl

theorem sendLog_keyboardSend (c : Controller) (env : Env) :
    (keyboardSendKeyCombinations c env).2.sendLog = c.sendLog ++ [keyboardPacket c.hidState] := by
  unfold keyboardSendKeyCombinations
  have h := sendLog_Send c env (keyboardPacket c.hidState)
  split
  · next err c1 heq => rw [heq] at h; exact h
  · next c1 heq => rw [heq] at h; rw [sendLog_WaitForReply]; exact h

theorem hidState_keyboardSend (c : Controller) (env : Env) :
    (keyboardSendKeyCombinations c env).2.hidState = c.hidState := by
  unfold keyboardSendKeyCombinations
  have h := hidState_Send c env (keyboardPacket c.hidState)
  split
  · next err c1 heq => rw [heq] at h; exact h
  · next c1 heq => rw [heq] at h; exact h


theorem foldl_checksum_eq (l : List Nat) (a : Nat) :
    l.foldl (fun sum value => (sum + value) % 256) (a % 256) = (a + l.sum) % 256 := by
  induction l generalizing a with
  | nil => simp
  | cons x t ih =>
    rw [List.foldl_cons, ih (a % 256 + x), List.sum_cons]
    omega

theorem calcChecksum_eq_sum (l : List Nat) : calcChecksum l = l.sum % 256 := by
  have h := foldl_checksum_eq l 0
  simpa [calcChecksum] using h

theorem sendLog_MouseMoveAbsolute (c : Controller) (env : Env) (a b x y : Nat) :
    (MouseMoveAbsolute c env a b x y).2.sendLog
      = c.sendLog ++ [mouseAbsolutePacket c.hidState a b x y] := by
  unfold MouseMoveAbsolute
  have h := sendLog_Send c env (mouseAbsolutePacket c.hidState a b x y)
  split
  · next err c1 heq => rw [heq] at h; exact h
  · next c1 heq => rw [heq] at h; rw [sendLog_WaitForReply]; exact h

theorem sendLog_MouseMoveRelative (c : Controller) (env : Env) (dx dy w : Nat) :
    (MouseMoveRelative c env dx dy w).2.sendLog
      = c.sendLog ++ [mouseRelativePacket c.hidState dx dy w] := by
  unfold MouseMoveRelative
  have h := sendLog_Send c env (mouseRelativePacket c.hidState dx dy w)
  split
  · next err c1 heq => rw [heq] at h; exact h
  · next c1 heq => rw [heq] at h; rw [sendLog_WaitForReply]; exact h

theorem sendLog_GetChipCurrentConfiguration (c : Controller) (env : Env) :
    (GetChipCurrentConfiguration c env).2.sendLog = c.sendLog ++ [getConfigPacket] := by
  unfold GetChipCurrentConfiguration
  have h := sendLog_Send c env getConfigPacket
  split
  · next err c1 heq => rw [heq] at h; exact h
  · next c1 heq =>
    rw [heq] at h
    have h2 := sendLog_WaitForReply c1 env 0x08
    split
    · next resp c2 heq2 =>
      rw [heq2] at h2
      have h3 : c2.sendLog = c1.sendLog := h2
      split_ifs <;> exact h3.trans h
    · next e c2 heq2 => rw [heq2] at h2; exact Eq.trans h2 h
    · next c2 heq2 => rw [heq2] at h2; exact Eq.trans h2 h

/-- C1: every packet handed to `Send` by `keyboardSendKeyCombinations` (14 bytes),
`MouseMoveAbsolute` (13 bytes), `MouseMoveRelative` (11 bytes) and
`GetChipCurrentConfiguration` (6 bytes) ends with `calcChecksum` of the bytes
before it, and `calcChecksum` is the sum of the bytes modulo 256. -/
theorem C1_sent_packets_end_with_checksum (c : Controller) (env : Env)
    (xLSB xMSB yLSB yMSB dx dy wheel : Nat) :
    (∃ p, (keyboardSendKeyCombinations c env).2.sendLog = c.sendLog ++ [p]
        ∧ p.length = 14 ∧ checksumOk p)
    ∧ (∃ p, (MouseMoveAbsolute c env xLSB xMSB yLSB yMSB).2.sendLog = c.sendLog ++ [p]
        ∧ p.length = 13 ∧ checksumOk p)
    ∧ (∃ p, (MouseMoveRelative c env dx dy wheel).2.sendLog = c.sendLog ++ [p]
        ∧ p.length = 11 ∧ checksumOk p)
    ∧ (∃ p, (GetChipCurrentConfiguration c env).2.sendLog = c.sendLog ++ [p]
        ∧ p.length = 6 ∧ checksumOk p)
    ∧ (∀ l : List Nat, calcChecksum l = l.sum % 256) := by
  refine ⟨⟨_, sendLog_keyboardSend c env, keyboardPacket_length _, keyboardPacket_checksumOk _⟩,
    ⟨_, sendLog_MouseMoveAbsolute c env _ _ _ _, ?_, ?_⟩,
    ⟨_, sendLog_MouseMoveRelative c env _ _ _, ?_, ?_⟩,
    ⟨_, sendLog_GetChipCurrentConfiguration c env, ?_, ?_⟩, calcChecksum_eq_sum⟩
  · simp [mouseAbsolutePacket]
  · exact checksumOk_set_last _ 12 rfl
  · simp [mouseRelativePacket]
  · exact checksumOk_set_last _ 10 rfl
  · simp [getConfigPacket]
  · exact checksumOk_set_last _ 5 rfl

theorem exists_five_of_length (l : List Nat) (h : 5 ≤ l.length) :
    ∃ a b c d e r, l = a :: b :: c :: d :: e :: r := by
  match l, h with
  | a :: b :: c :: d :: e :: r, _ => exact ⟨a, b, c, d, e, r, rfl⟩

/-- A proper prefix of a success frame makes the loop wait for more. -/
theorem checkReply_prefix (cmd : Nat) (p reply tail : List Nat)
    (h : reply ++ tail = replyFrame cmd p) (ht : tail ≠ []) :
    checkReply cmd reply = (none, reply) := by
  by_cases h7 : reply.length ≥ 7
  · obtain ⟨a, b, c, d, e, r, rfl⟩ := exists_five_of_length reply (by omega)
    simp only [replyFrame, List.cons_append, List.nil_append, List.cons.injEq] at h
    obtain ⟨rfl, rfl, rfl, rfl, rfl, hr⟩ := h
    have hlen : r.length + tail.length = p.length + 1 := by
      have := congrArg List.length hr
      simpa using this
    have htl : 0 < tail.length := List.length_pos.mpr ht
    have hnot : ¬ (r.length + 5 ≥ 5 + p.length + 1) := by omega
    simp [checkReply, hnot]
  · simp [checkReply, h7]

/-- A whole success frame with 1..250 payload bytes is accepted. -/
theorem checkReply_frame (cmd : Nat) (p : List Nat) (h1 : 1 ≤ p.length) (h2 : p.length ≤ 250) :
    (checkReply cmd (replyFrame cmd p)).1 = some (.data p) := by
  have hhi : (5 + p.length) % 256 = 5 + p.length := by omega
  have hlen : (replyFrame cmd p).length = 5 + p.length + 1 := by
    simp [replyFrame]; omega
  have htake : (replyFrame cmd p).take (5 + p.length)
      = [0x57, 0xAB, 0x00, cmd ||| 0x80, p.length] ++ p := by
    unfold replyFrame
    rw [List.take_append_of_le_length (by simp; omega), List.take_of_length_le (by simp; omega)]
  have hget : (replyFrame cmd p).getD (5 + p.length) 0
      = calcChecksum ([0x57, 0xAB, 0x00, cmd ||| 0x80, p.length] ++ p) := by
    unfold replyFrame
    rw [List.getD_append_right _ _ _ _ (by simp; omega)]
    have : 5 + p.length - ([0x57, 0xAB, 0x00, cmd ||| 0x80, p.length] ++ p).length = 0 := by
      simp; omega
    rw [this]; rfl
  have h0 : (replyFrame cmd p).getD 0 0 = 0x57 := by simp [replyFrame]
  have hA : (replyFrame cmd p).getD 1 0 = 0xAB := by simp [replyFrame]
  have h3 : (replyFrame cmd p).getD 3 0 = cmd ||| 0x80 := by simp [replyFrame]
  have h4 : (replyFrame cmd p).getD 4 0 = p.length := by simp [replyFrame]
  unfold checkReply
  simp only [h0, hA, h3, h4, hhi, hlen, htake, hget]
  have hge : 5 + p.length + 1 ≥ 7 := by omega
  simp [hge, calcChecksum]


/-- The loop returns the payload once the chunks have completed the frame. -/
theorem waitLoop_frame (cmd : Nat) (p : List Nat) (h1 : 1 ≤ p.length) (h2 : p.length ≤ 250)
    (chunks : List (List Nat)) (acc : List Nat)
    (hjoin : acc ++ chunks.flatten = replyFrame cmd p)
    (hlt : acc.length < (replyFrame cmd p).length) :
    (waitLoop cmd acc chunks).1 = .data p := by
  induction chunks generalizing acc with
  | nil =>
    simp only [List.flatten_nil, List.append_nil] at hjoin
    rw [hjoin] at hlt
    exact absurd hlt (lt_irrefl _)
  | cons d rest ih =>
    rw [List.flatten_cons, ← List.append_assoc] at hjoin
    unfold waitLoop
    by_cases hrest : rest.flatten = []
    · rw [hrest, List.append_nil] at hjoin
      have hf := checkReply_frame cmd p h1 h2
      rw [hjoin]
      rcases hc : checkReply cmd (replyFrame cmd p) with ⟨o, x⟩
      rw [hc] at hf
      simp only at hf
      subst hf
      rfl
    · have hp := checkReply_prefix cmd p (acc ++ d) rest.flatten hjoin hrest
      rw [hp]
      refine ih (acc ++ d) hjoin ?_
      have hl := congrArg List.length hjoin
      rw [List.length_append] at hl
      have : 0 < rest.flatten.length := List.length_pos.mpr hrest
      omega

/-- C2 (amended): when the ingress queue is empty and the chunks that arrive
make up exactly the success frame `57 AB 00 (cmd|0x80) len(p) p chk` of a
payload of 1..250 bytes, in one chunk or split in any way, `WaitForReply cmd`
returns `p` with no error. -/
theorem C2_WaitForReply_returns_payload (c : Controller) (env : Env) (cmd : Nat) (p : List Nat)
    (hq : c.incomgDataQueue = []) (h1 : 1 ≤ p.length) (h2 : p.length ≤ 250)
    (hjoin : env.arrivals.flatten = replyFrame cmd p) :
    (WaitForReply c env cmd).1 = .data p := by
  unfold WaitForReply
  rw [hq, List.nil_append]
  refine waitLoop_frame cmd p h1 h2 env.arrivals [] (by simpa using hjoin) ?_
  simp [replyFrame]

/-- C2 (amended), at the payload `07 09` of command `0x02` delivered in three chunks. -/
theorem C2_WaitForReply_returns_payload_witness :
    (WaitForReply (NewHIDController ⟨0⟩) ⟨true, [[0x57, 0xAB, 0x00], [0x82, 0x02, 0x07], [0x09, 0x96]], 0⟩ 0x02).1
      = .data [0x07, 0x09] :=
  C2_WaitForReply_returns_payload (NewHIDController ⟨0⟩)
    ⟨true, [[0x57, 0xAB, 0x00], [0x82, 0x02, 0x07], [0x09, 0x96]], 0⟩ 0x02 [0x07, 0x09]
    rfl (by decide) (by decide) (by decide)

/-- C2 fails for the empty payload: the six-byte frame `57 AB 00 82 00 84`
is the success frame of command `0x02` with no payload, and `WaitForReply 0x02`
ends with the timeout error. -/
theorem C2_counterexample_empty_payload :
    replyFrame 0x02 [] = [0x57, 0xAB, 0x00, 0x82, 0x00, 0x84]
    ∧ (WaitForReply (NewHIDController ⟨0⟩) ⟨true, [[0x57, 0xAB, 0x00, 0x82, 0x00, 0x84]], 0⟩ 0x02).1
      = .fail .replyTimeout := by
  decide

theorem range_six : List.range 6 = [0, 1, 2, 3, 4, 5] := rfl

theorem exists_six_of_length (l : List Nat) (h : l.length = 6) :
    ∃ a b c d e f, l = [a, b, c, d, e, f] := by
  match l, h with
  | [a, b, c, d, e, f], _ => exact ⟨a, b, c, d, e, f, rfl⟩

/-- What the scanning loop returns: the lowest index holding `v`. -/
theorem scanSlots_some (kb : List Nat) (v i : Nat) (h : scanSlots kb v = some i) :
    i < 6 ∧ kb.getD i 0 = v ∧ ∀ j, j < i → kb.getD j 0 ≠ v := by
  unfold scanSlots at h
  rw [range_six] at h
  simp only [List.find?_cons, List.find?_nil] at h
  split at h
  · next h0 =>
    cases h
    exact ⟨by omega, by simpa using h0, fun j hj => absurd hj (Nat.not_lt_zero j)⟩
  · next h0 =>
    split at h
    · next h1 =>
      cases h
      refine ⟨by omega, by simpa using h1, fun j hj => ?_⟩
      interval_cases j
      simp_all
    · next h1 =>
      split at h
      · next h2 =>
        cases h
        refine ⟨by omega, by simpa using h2, fun j hj => ?_⟩
        interval_cases j <;> simp_all
      · next h2 =>
        split at h
        · next h3 =>
          cases h
          refine ⟨by omega, by simpa using h3, fun j hj => ?_⟩
          interval_cases j <;> simp_all
        · next h3 =>
          split at h
          · next h4 =>
            cases h
            refine ⟨by omega, by simpa using h4, fun j hj => ?_⟩
            interval_cases j <;> simp_all
          · next h4 =>
            split at h
            · next h5 =>
              cases h
              refine ⟨by omega, by simpa using h5, fun j hj => ?_⟩
              interval_cases j <;> simp_all
            · cases h

theorem scanSlots_none (kb : List Nat) (v : Nat) (h : scanSlots kb v = none) :
    ∀ j, j < 6 → kb.getD j 0 ≠ v := by
  unfold scanSlots at h
  rw [List.find?_eq_none] at h
  intro j hj
  have := h j (List.mem_range.mpr hj)
  simpa using this

theorem scanSlots_isSome_of_slot (kb : List Nat) (v j : Nat) (hj : j < 6) (h : kb.getD j 0 = v) :
    ∃ i, scanSlots kb v = some i := by
  cases hs : scanSlots kb v with
  | some i => exact ⟨i, rfl⟩
  | none => exact absurd h (scanSlots_none kb v hs j hj)

/-- On a six-slot array the scan fails exactly when no slot holds `v`. -/
theorem scanSlots_eq_none_iff (kb : List Nat) (hlen : kb.length = 6) (v : Nat) :
    scanSlots kb v = none ↔ v ∉ kb := by
  constructor
  · intro h hmem
    obtain ⟨n, hn⟩ := List.getElem_of_mem hmem
    obtain ⟨hn1, hn2⟩ := hn
    have := scanSlots_none kb v h n (by omega)
    apply this
    rw [List.getD_eq_getElem _ _ hn1]
    exact hn2
  · intro h
    cases hs : scanSlots kb v with
    | none => rfl
    | some i =>
      obtain ⟨hi, hv, _⟩ := scanSlots_some kb v i hs
      exfalso
      apply h
      rw [← hv, List.getD_eq_getElem _ _ (by omega)]
      exact List.getElem_mem _


theorem getD_set_ne (kb : List Nat) (i j v : Nat) (h : j ≠ i) :
    (kb.set i v).getD j 0 = kb.getD j 0 := by
  simp [List.getD_eq_getElem?_getD, List.getElem?_set_ne (Ne.symm h)]

/-- C3: for a keycode whose translation `u` is non-zero, `SendKeyboardPress`
(1) changes nothing and sends nothing when `u` already occupies a slot;
(2) otherwise, when some slot is zero, writes `u` to the lowest-index zero
slot, leaves every other slot, `Modkey` and the rest of the HID state as they
were and hands exactly one keyboard report to `Send`; (3) otherwise (all six
slots non-zero) returns an error, changes nothing and sends nothing. -/
theorem C3_SendKeyboardPress (c : Controller) (env : Env) (keycode : Nat)
    (hlen : c.hidState.KeyboardButtons.length = 6)
    (hu : javaScriptKeycodeToHIDOpcode keycode ≠ 0) :
    (javaScriptKeycodeToHIDOpcode keycode ∈ c.hidState.KeyboardButtons →
      SendKeyboardPress c env keycode = (.data [], c))
    ∧ (javaScriptKeycodeToHIDOpcode keycode ∉ c.hidState.KeyboardButtons →
        0 ∈ c.hidState.KeyboardButtons →
        ∃ i, i < 6 ∧ c.hidState.KeyboardButtons.getD i 0 = 0
          ∧ (∀ j, j < i → c.hidState.KeyboardButtons.getD j 0 ≠ 0)
          ∧ (SendKeyboardPress c env keycode).2.hidState
              = (c.setSlot i (javaScriptKeycodeToHIDOpcode keycode)).hidState
          ∧ (SendKeyboardPress c env keycode).2.hidState.KeyboardButtons.getD i 0
              = javaScriptKeycodeToHIDOpcode keycode
          ∧ (∀ j, j ≠ i → (SendKeyboardPress c env keycode).2.hidState.KeyboardButtons.getD j 0
              = c.hidState.KeyboardButtons.getD j 0)
          ∧ (SendKeyboardPress c env keycode).2.hidState.Modkey = c.hidState.Modkey
          ∧ (SendKeyboardPress c env keycode).2.sendLog
              = c.sendLog ++ [keyboardPacket (SendKeyboardPress c env keycode).2.hidState])
    ∧ (javaScriptKeycodeToHIDOpcode keycode ∉ c.hidState.KeyboardButtons →
        0 ∉ c.hidState.KeyboardButtons →
        SendKeyboardPress c env keycode = (.fail .noSpaceLeft, c)) := by
  refine ⟨fun hin => ?_, fun hnot hz => ?_, fun hnot hz => ?_⟩
  · have hs : scanSlots c.hidState.KeyboardButtons (javaScriptKeycodeToHIDOpcode keycode) ≠ none :=
      fun h => (scanSlots_eq_none_iff _ hlen _).mp h hin
    obtain ⟨i, hi⟩ := Option.ne_none_iff_exists'.mp hs
    simp [SendKeyboardPress, hu, hi]
  · have hs := (scanSlots_eq_none_iff _ hlen _).mpr hnot
    have hs0 : scanSlots c.hidState.KeyboardButtons 0 ≠ none :=
      fun h => (scanSlots_eq_none_iff _ hlen _).mp h hz
    obtain ⟨i, hi⟩ := Option.ne_none_iff_exists'.mp hs0
    obtain ⟨h6, hv, hmin⟩ := scanSlots_some _ _ _ hi
    have hrun : SendKeyboardPress c env keycode
        = keyboardSendKeyCombinations (c.setSlot i (javaScriptKeycodeToHIDOpcode keycode)) env := by
      simp [SendKeyboardPress, hu, hs, hi]
    refine ⟨i, h6, hv, hmin, ?_, ?_, ?_, ?_, ?_⟩
    · rw [hrun, hidState_keyboardSend]
    · rw [hrun, hidState_keyboardSend]
      have hi6 : i < c.hidState.KeyboardButtons.length := by omega
      simp [Controller.setSlot, List.getD_eq_getElem?_getD, hi6]
    · intro j hj
      rw [hrun, hidState_keyboardSend]
      exact getD_set_ne _ _ _ _ hj
    · rw [hrun, hidState_keyboardSend]
      rfl
    · rw [hrun, sendLog_keyboardSend, hidState_keyboardSend]
      rfl
  · have hs := (scanSlots_eq_none_iff _ hlen _).mpr hnot
    have hs0 := (scanSlots_eq_none_iff _ hlen _).mpr hz
    simp [SendKeyboardPress, hu, hs, hs0]

/-- C3 at the empty keyboard: pressing `A` (65) fills a slot with usage `0x04`. -/
theorem C3_SendKeyboardPress_witness :
    ∃ i, i < 6 ∧ defaultHidState.KeyboardButtons.getD i 0 = 0
      ∧ (SendKeyboardPress (NewHIDController ⟨1⟩) ⟨true, [], 0⟩ 65).2.hidState.KeyboardButtons.getD i 0
          = 0x04 := by
  obtain ⟨i, h6, h0, _, _, hst, _⟩ :=
    (C3_SendKeyboardPress (NewHIDController ⟨1⟩) ⟨true, [], 0⟩ 65 rfl (by decide)).2.1
      (by decide) (by decide)
  exact ⟨i, h6, h0, hst⟩

theorem getD_set_self (kb : List Nat) (i v : Nat) (h : i < kb.length) :
    (kb.set i v).getD i 0 = v := by
  simp [List.getD_eq_getElem?_getD, h]

theorem slotsDistinct_set_new (kb : List Nat) (hlen : kb.length = 6) (i u : Nat) (hi : i < 6)
    (hnew : ∀ j, j < 6 → kb.getD j 0 ≠ u) (hd : slotsDistinct kb) :
    slotsDistinct (kb.set i u) := by
  intro a b ha hb hab hne
  by_cases hai : a = i
  · subst hai
    rw [getD_set_self _ _ _ (by omega), getD_set_ne _ _ _ _ (Ne.symm hab)]
    exact fun h => hnew b hb h.symm
  · rw [getD_set_ne _ _ _ _ hai] at hne ⊢
    by_cases hbi : b = i
    · subst hbi
      rw [getD_set_self _ _ _ (by omega)]
      exact hnew a ha
    · rw [getD_set_ne _ _ _ _ hbi]
      exact hd a b ha hb hab hne

theorem slotsDistinct_set_zero (kb : List Nat) (hlen : kb.length = 6) (i : Nat) (hi : i < 6)
    (hd : slotsDistinct kb) : slotsDistinct (kb.set i 0) := by
  intro a b ha hb hab hne
  by_cases hai : a = i
  · subst hai
    rw [getD_set_self _ _ _ (by omega)] at hne
    exact absurd rfl hne
  · rw [getD_set_ne _ _ _ _ hai] at hne ⊢
    by_cases hbi : b = i
    · subst hbi
      rw [getD_set_self _ _ _ (by omega)]
      exact hne
    · rw [getD_set_ne _ _ _ _ hbi]
      exact hd a b ha hb hab hne

theorem hidState_MouseMoveAbsolute (c : Controller) (env : Env) (a b x y : Nat) :
    (MouseMoveAbsolute c env a b x y).2.hidState = c.hidState := by
  unfold MouseMoveAbsolute
  have h := hidState_Send c env (mouseAbsolutePacket c.hidState a b x y)
  split
  · next err c1 heq => rw [heq] at h; exact h
  · next c1 heq => rw [heq] at h; exact h

theorem hidState_MouseMoveRelative (c : Controller) (env : Env) (dx dy w : Nat) :
    (MouseMoveRelative c env dx dy w).2.hidState = c.hidState := by
  unfold MouseMoveRelative
  have h := hidState_Send c env (mouseRelativePacket c.hidState dx dy w)
  split
  · next err c1 heq => rw [heq] at h; exact h
  · next c1 heq => rw [heq] at h; exact h

theorem kb_SetModifierKey (c : Controller) (env : Env) (k : Nat) (r : Bool) :
    (SetModifierKey c env k r).2.hidState.KeyboardButtons = c.hidState.KeyboardButtons := by
  unfold SetModifierKey
  split
  · rfl
  · rw [hidState_keyboardSend]

theorem kb_UnsetModifierKey (c : Controller) (env : Env) (k : Nat) (r : Bool) :
    (UnsetModifierKey c env k r).2.hidState.KeyboardButtons = c.hidState.KeyboardButtons := by
  unfold UnsetModifierKey
  split
  · rfl
  · rw [hidState_keyboardSend]

theorem kb_MouseButtonPress (c : Controller) (env : Env) (b : Nat) :
    (MouseButtonPress c env b).2.hidState.KeyboardButtons = c.hidState.KeyboardButtons := by
  unfold MouseButtonPress
  split <;> first | rfl | (rw [hidState_MouseMoveRelative]; rfl)

theorem kb_MouseButtonRelease (c : Controller) (env : Env) (b : Nat) :
    (MouseButtonRelease c env b).2.hidState.KeyboardButtons = c.hidState.KeyboardButtons := by
  unfold MouseButtonRelease
  split <;> first | rfl | (rw [hidState_MouseMoveRelative]; rfl)

theorem hidState_MouseScroll (c : Controller) (env : Env) (t : Int) :
    (MouseScroll c env t).2.hidState = c.hidState := by
  unfold MouseScroll
  split
  · rfl
  · rw [hidState_MouseMoveRelative]

theorem kbInv_SendKeyboardPress (c : Controller) (env : Env) (k : Nat) (h : kbInv c.hidState) :
    kbInv (SendKeyboardPress c env k).2.hidState := by
  unfold SendKeyboardPress
  simp only
  split
  · exact h
  · next hu =>
    split
    · exact h
    · next hs =>
      split
      · next i hi =>
        rw [hidState_keyboardSend]
        obtain ⟨h6, _, _⟩ := scanSlots_some _ _ _ hi
        refine ⟨?_, ?_⟩
        · simpa [Controller.setSlot] using h.1
        · exact slotsDistinct_set_new _ h.1 i _ h6 (scanSlots_none _ _ hs) h.2
      · exact h

theorem kbInv_SendKeyboardRelease (c : Controller) (env : Env) (k : Nat) (h : kbInv c.hidState) :
    kbInv (SendKeyboardRelease c env k).2.hidState := by
  unfold SendKeyboardRelease
  simp only
  split
  · exact h
  · split
    · next i hi =>
      rw [hidState_keyboardSend]
      obtain ⟨h6, _, _⟩ := scanSlots_some _ _ _ hi
      refine ⟨?_, ?_⟩
      · simpa [Controller.setSlot] using h.1
      · exact slotsDistinct_set_zero _ h.1 i h6 h.2
    · exact h

theorem kbInv_of_kb_eq (s t : HIDState) (h : t.KeyboardButtons = s.KeyboardButtons)
    (hs : kbInv s) : kbInv t := by
  unfold kbInv at *
  rw [h]; exact hs

theorem hidState_handleMouseMove_kb (c : Controller) (env : Env) (cmd : HIDCommand) :
    (handleMouseMove c env cmd).2.hidState.KeyboardButtons = c.hidState.KeyboardButtons := by
  unfold handleMouseMove
  simp only
  split
  · rw [hidState_MouseMoveAbsolute]; rfl
  · rfl

theorem hidState_handleMouseScroll (c : Controller) (env : Env) (cmd : HIDCommand) :
    (handleMouseScroll c env cmd).2.hidState = c.hidState := by
  unfold handleMouseScroll
  split
  · rfl
  · rw [hidState_MouseScroll]

/-- Every event keeps the keyboard invariant. -/
theorem kbInv_ConstructAndSendCmd (c : Controller) (env : Env) (cmd : HIDCommand)
    (h : kbInv c.hidState) : kbInv (ConstructAndSendCmd c env cmd).2.hidState := by
  unfold ConstructAndSendCmd
  split_ifs
  · exact kbInv_of_kb_eq _ _ (kb_SetModifierKey _ _ _ _) h
  · exact kbInv_SendKeyboardPress _ _ _ h
  · exact kbInv_SendKeyboardPress _ _ _ h
  · exact kbInv_of_kb_eq _ _ (kb_UnsetModifierKey _ _ _ _) h
  · exact kbInv_SendKeyboardRelease _ _ _ h
  · exact kbInv_SendKeyboardRelease _ _ _ h
  · exact kbInv_of_kb_eq _ _ (hidState_handleMouseMove_kb _ _ _) h
  · exact h
  · exact kbInv_of_kb_eq _ _ (kb_MouseButtonPress _ _ _) h
  · exact h
  · exact kbInv_of_kb_eq _ _ (kb_MouseButtonRelease _ _ _) h
  · exact kbInv_of_kb_eq _ _ (by rw [hidState_handleMouseScroll]) h
  · exact h

theorem kbInv_runEvents (evs : List (HIDCommand × Env)) (c : Controller)
    (h : kbInv c.hidState) : kbInv (runEvents c evs).hidState := by
  induction evs generalizing c with
  | nil => exact h
  | cons e rest ih =>
    obtain ⟨cmd, env⟩ := e
    exact ih _ (kbInv_ConstructAndSendCmd c env cmd h)

theorem kbInv_default : kbInv defaultHidState := by
  refine ⟨rfl, ?_⟩
  intro i j hi _ _ hne
  exfalso
  apply hne
  interval_cases i <;> rfl


/-- C4: after any finite sequence of events (in particular of `KeyPress` and
`KeyRelease` events) run through `ConstructAndSendCmd` from the all-zero HID
state, whatever the serial side does, no non-zero usage code is in two slots
of `KeyboardButtons`, and at most six slots are non-zero. -/
theorem C4_keyboard_slots_invariant (c : Controller) (evs : List (HIDCommand × Env))
    (h0 : c.hidState = defaultHidState) :
    slotsDistinct (runEvents c evs).hidState.KeyboardButtons
    ∧ (runEvents c evs).hidState.KeyboardButtons.length = 6
    ∧ ((runEvents c evs).hidState.KeyboardButtons.filter (fun k => k ≠ 0)).length ≤ 6 := by
  have h := kbInv_runEvents evs c (by rw [h0]; exact kbInv_default)
  refine ⟨h.2, h.1, ?_⟩
  calc ((runEvents c evs).hidState.KeyboardButtons.filter (fun k => k ≠ 0)).length
      ≤ (runEvents c evs).hidState.KeyboardButtons.length := List.length_filter_le _ _
    _ = 6 := h.1

/-- C4 on the sequence press A, press A, press B, release A with a silent device. -/
theorem C4_keyboard_slots_invariant_witness :
    slotsDistinct (runEvents (NewHIDController ⟨1⟩)
      [(keyEvent true 65 false, ⟨true, [], 0⟩), (keyEvent true 65 false, ⟨false, [], 1⟩),
       (keyEvent true 66 false, ⟨true, [], 2⟩), (keyEvent false 65 false, ⟨true, [], 3⟩)]
      ).hidState.KeyboardButtons :=
  (C4_keyboard_slots_invariant (NewHIDController ⟨1⟩)
      [(keyEvent true 65 false, ⟨true, [], 0⟩), (keyEvent true 65 false, ⟨false, [], 1⟩),
       (keyEvent true 66 false, ⟨true, [], 2⟩), (keyEvent false 65 false, ⟨true, [], 3⟩)]
      rfl).1

theorem SendKeyboardPress_eq_of_free (c : Controller) (env : Env) (k i : Nat)
    (hu : javaScriptKeycodeToHIDOpcode k ≠ 0)
    (hs : scanSlots c.hidState.KeyboardButtons (javaScriptKeycodeToHIDOpcode k) = none)
    (hi : scanSlots c.hidState.KeyboardButtons 0 = some i) :
    SendKeyboardPress c env k
      = keyboardSendKeyCombinations (c.setSlot i (javaScriptKeycodeToHIDOpcode k)) env := by
  simp [SendKeyboardPress, hu, hs, hi]

theorem SendKeyboardRelease_eq_of_held (c : Controller) (env : Env) (k i : Nat)
    (hu : javaScriptKeycodeToHIDOpcode k ≠ 0)
    (hi : scanSlots c.hidState.KeyboardButtons (javaScriptKeycodeToHIDOpcode k) = some i) :
    SendKeyboardRelease c env k = keyboardSendKeyCombinations (c.setSlot i 0) env := by
  simp [SendKeyboardRelease, hu, hi]

theorem SendKeyboardRelease_eq_of_free (c : Controller) (env : Env) (k : Nat)
    (hu : javaScriptKeycodeToHIDOpcode k ≠ 0)
    (hs : scanSlots c.hidState.KeyboardButtons (javaScriptKeycodeToHIDOpcode k) = none) :
    SendKeyboardRelease c env k = (.data [], c) := by
  simp [SendKeyboardRelease, hu, hs]

theorem set_zero_of_getD_zero (kb : List Nat) (i : Nat) (h : kb.getD i 0 = 0) :
    kb.set i 0 = kb := by
  induction kb generalizing i with
  | nil => rfl
  | cons a t ih =>
    cases i with
    | zero =>
      have : a = 0 := by simpa using h
      subst this; rfl
    | succ n =>
      have h1 : t.getD n 0 = 0 := by simpa using h
      simp [List.set, ih n h1]

theorem setSlot_undo (c c1 : Controller) (i u : Nat)
    (hv : c.hidState.KeyboardButtons.getD i 0 = 0)
    (h1 : c1.hidState = (c.setSlot i u).hidState) :
    (c1.setSlot i 0).hidState = c.hidState := by
  have hset : (c.hidState.KeyboardButtons.set i u).set i 0 = c.hidState.KeyboardButtons := by
    rw [List.set_set, set_zero_of_getD_zero _ _ hv]
  show ({ c1.hidState with KeyboardButtons := c1.hidState.KeyboardButtons.set i 0 } : HIDState) = _
  rw [h1]
  show ({ c.hidState with KeyboardButtons := (c.hidState.KeyboardButtons.set i u).set i 0 } : HIDState) = _
  rw [hset]

/-- Pressing a key that is not held into a free slot and releasing it again
gives back the HID state. -/
theorem hidState_press_release (c : Controller) (env env1 : Env) (k : Nat)
    (hlen : c.hidState.KeyboardButtons.length = 6)
    (hu : javaScriptKeycodeToHIDOpcode k ≠ 0)
    (hnot : javaScriptKeycodeToHIDOpcode k ∉ c.hidState.KeyboardButtons)
    (hz : 0 ∈ c.hidState.KeyboardButtons) :
    (SendKeyboardRelease (SendKeyboardPress c env k).2 env1 k).2.hidState = c.hidState := by
  have hs := (scanSlots_eq_none_iff _ hlen _).mpr hnot
  have hs0 : scanSlots c.hidState.KeyboardButtons 0 ≠ none :=
    fun h => (scanSlots_eq_none_iff _ hlen _).mp h hz
  obtain ⟨i, hi⟩ := Option.ne_none_iff_exists'.mp hs0
  obtain ⟨h6, hv, _⟩ := scanSlots_some _ _ _ hi
  have hil : i < c.hidState.KeyboardButtons.length := by omega
  rw [SendKeyboardPress_eq_of_free c env k i hu hs hi]
  have hst := hidState_keyboardSend (c.setSlot i (javaScriptKeycodeToHIDOpcode k)) env
  -- the key now sits in slot `i` and nowhere else
  have hkb : (keyboardSendKeyCombinations (c.setSlot i (javaScriptKeycodeToHIDOpcode k)) env).2.hidState.KeyboardButtons
      = c.hidState.KeyboardButtons.set i (javaScriptKeycodeToHIDOpcode k) := by
    rw [hst]; rfl
  obtain ⟨i1, hi1⟩ := scanSlots_isSome_of_slot
    (keyboardSendKeyCombinations (c.setSlot i (javaScriptKeycodeToHIDOpcode k)) env).2.hidState.KeyboardButtons
    (javaScriptKeycodeToHIDOpcode k) i h6 (by rw [hkb]; exact getD_set_self _ _ _ hil)
  obtain ⟨h61, hv1, _⟩ := scanSlots_some _ _ _ hi1
  have hii : i1 = i := by
    by_contra hne
    rw [hkb, getD_set_ne _ _ _ _ hne] at hv1
    exact scanSlots_none _ _ hs i1 h61 hv1
  subst hii
  rw [SendKeyboardRelease_eq_of_held _ env1 k i1 hu hi1, hidState_keyboardSend]
  exact setSlot_undo c _ i1 _ hv hst


/-- C5: on a HID state without duplicate slots and for a keycode whose
translation `u` is non-zero, `SendKeyboardRelease` (1) when `u` is held, zeroes
the slot holding `u`, leaves every other slot, `Modkey` and the rest of the
HID state as they were, so that `u` is in no slot afterwards, and hands exactly
one keyboard report to `Send`; (2) when `u` is in no slot, changes nothing and
sends nothing; (3) hence, when `u` is not held and a zero slot exists, press
followed by release gives back the original HID state. -/
theorem C5_SendKeyboardRelease (c : Controller) (env env1 : Env) (keycode : Nat)
    (hinv : kbInv c.hidState)
    (hu : javaScriptKeycodeToHIDOpcode keycode ≠ 0) :
    (javaScriptKeycodeToHIDOpcode keycode ∈ c.hidState.KeyboardButtons →
        ∃ i, i < 6 ∧ c.hidState.KeyboardButtons.getD i 0 = javaScriptKeycodeToHIDOpcode keycode
          ∧ (SendKeyboardRelease c env keycode).2.hidState = (c.setSlot i 0).hidState
          ∧ (SendKeyboardRelease c env keycode).2.hidState.KeyboardButtons.getD i 0 = 0
          ∧ (∀ j, j ≠ i → (SendKeyboardRelease c env keycode).2.hidState.KeyboardButtons.getD j 0
              = c.hidState.KeyboardButtons.getD j 0)
          ∧ (SendKeyboardRelease c env keycode).2.hidState.Modkey = c.hidState.Modkey
          ∧ (∀ j, j < 6 → (SendKeyboardRelease c env keycode).2.hidState.KeyboardButtons.getD j 0
              ≠ javaScriptKeycodeToHIDOpcode keycode)
          ∧ (SendKeyboardRelease c env keycode).2.sendLog
              = c.sendLog ++ [keyboardPacket (SendKeyboardRelease c env keycode).2.hidState])
    ∧ (javaScriptKeycodeToHIDOpcode keycode ∉ c.hidState.KeyboardButtons →
        SendKeyboardRelease c env keycode = (.data [], c))
    ∧ (javaScriptKeycodeToHIDOpcode keycode ∉ c.hidState.KeyboardButtons →
        0 ∈ c.hidState.KeyboardButtons →
        (SendKeyboardRelease (SendKeyboardPress c env keycode).2 env1 keycode).2.hidState
          = c.hidState) := by
  obtain ⟨hlen, hd⟩ := hinv
  refine ⟨fun hin => ?_, fun hnot => ?_, fun hnot hz => ?_⟩
  · have hs : scanSlots c.hidState.KeyboardButtons (javaScriptKeycodeToHIDOpcode keycode) ≠ none :=
      fun h => (scanSlots_eq_none_iff _ hlen _).mp h hin
    obtain ⟨i, hi⟩ := Option.ne_none_iff_exists'.mp hs
    obtain ⟨h6, hv, _⟩ := scanSlots_some _ _ _ hi
    have hil : i < c.hidState.KeyboardButtons.length := by omega
    have hrun := SendKeyboardRelease_eq_of_held c env keycode i hu hi
    have hkb : (SendKeyboardRelease c env keycode).2.hidState.KeyboardButtons
        = c.hidState.KeyboardButtons.set i 0 := by
      rw [hrun, hidState_keyboardSend]; rfl
    refine ⟨i, h6, hv, ?_, ?_, ?_, ?_, ?_, ?_⟩
    · rw [hrun, hidState_keyboardSend]
    · rw [hkb]; exact getD_set_self _ _ _ hil
    · intro j hj
      rw [hkb]; exact getD_set_ne _ _ _ _ hj
    · rw [hrun, hidState_keyboardSend]; rfl
    · intro j hj
      rw [hkb]
      by_cases hji : j = i
      · subst hji
        rw [getD_set_self _ _ _ hil]
        exact fun h => hu h.symm
      · rw [getD_set_ne _ _ _ _ hji]
        intro h
        have := hd i j h6 hj (Ne.symm hji) (by rw [hv]; exact hu)
        exact this (hv.trans h.symm)
    · rw [hrun, sendLog_keyboardSend, hidState_keyboardSend]
      rfl
  · exact SendKeyboardRelease_eq_of_free c env keycode hu
      ((scanSlots_eq_none_iff _ hlen _).mpr hnot)
  · exact hidState_press_release c env env1 keycode hlen hu hnot hz

/-- C5 at the state holding `A` in slot 0: releasing 65 empties the slot. -/
theorem C5_SendKeyboardRelease_witness :
    ∃ i, i < 6
      ∧ (SendKeyboardRelease ((NewHIDController ⟨1⟩).setSlot 0 0x04) ⟨true, [], 0⟩ 65
          ).2.hidState.KeyboardButtons.getD i 0 = 0 := by
  obtain ⟨i, h6, _, _, h0, _⟩ :=
    (C5_SendKeyboardRelease ((NewHIDController ⟨1⟩).setSlot 0 0x04) ⟨true, [], 0⟩ ⟨true, [], 0⟩ 65
      ⟨rfl, by
        intro a b ha hb hab hne
        interval_cases a <;> interval_cases b <;> simp_all [Controller.setSlot, NewHIDController, defaultHidState]⟩
      (by decide)).1 (by decide)
  exact ⟨i, h6, h0⟩

theorem and_two_pow_eq (m k : Nat) : m &&& 2 ^ k = if m.testBit k then 2 ^ k else 0 := by
  apply Nat.eq_of_testBit_eq
  intro i
  rw [Nat.testBit_and, Nat.testBit_two_pow]
  by_cases hk : k = i
  · subst hk
    cases h : m.testBit k <;> simp [Nat.testBit_two_pow_self]
  · cases h : m.testBit k <;> simp [hk, Nat.testBit_two_pow_of_ne hk]

theorem bitSet_two_pow (m k : Nat) : bitSet m (2 ^ k) = m.testBit k := by
  unfold bitSet
  rw [and_two_pow_eq]
  cases h : m.testBit k
  · simp
  · have : 2 ^ k ≠ 0 := Nat.pos_iff_ne_zero.mp (Nat.two_pow_pos k)
    simp [this]

theorem bitSet_or_two_pow (m j k : Nat) :
    bitSet (m ||| 2 ^ j) (2 ^ k) = (bitSet m (2 ^ k) || decide (j = k)) := by
  rw [bitSet_two_pow, bitSet_two_pow, Nat.testBit_or, Nat.testBit_two_pow]

theorem bitSet_bitClear_two_pow (m j k : Nat) (hk : k < 8) :
    bitSet (bitClear m (2 ^ j)) (2 ^ k) = (bitSet m (2 ^ k) && !decide (j = k)) := by
  unfold bitClear
  rw [bitSet_two_pow, bitSet_two_pow, Nat.testBit_and, Nat.testBit_xor, Nat.testBit_two_pow]
  have : (255 : Nat).testBit k = true := by interval_cases k <;> decide
  rw [this]
  cases decide (j = k) <;> simp


theorem modifierBit_spec (k : Nat) (r : Bool) (b : Nat) (h : modifierBit k r = some b) :
    (∃ j, j < 8 ∧ b = 2 ^ j) ∧ IsModifierKey k = true := by
  unfold modifierBit at h
  split at h <;> cases r <;> simp at h <;> subst h <;> refine ⟨?_, rfl⟩
  · exact ⟨0, by decide, rfl⟩
  · exact ⟨4, by decide, rfl⟩
  · exact ⟨1, by decide, rfl⟩
  · exact ⟨5, by decide, rfl⟩
  · exact ⟨2, by decide, rfl⟩
  · exact ⟨6, by decide, rfl⟩
  · exact ⟨3, by decide, rfl⟩
  · exact ⟨7, by decide, rfl⟩

theorem modifierBit_isSome (k : Nat) (r : Bool) (h : IsModifierKey k = true) :
    ∃ b, modifierBit k r = some b := by
  unfold IsModifierKey at h
  split at h <;> first | exact ⟨_, rfl⟩ | cases h

theorem modifierBit_inj (k k1 : Nat) (r r1 : Bool) (b : Nat)
    (h : modifierBit k r = some b) (h1 : modifierBit k1 r1 = some b) : k = k1 ∧ r = r1 := by
  unfold modifierBit at h h1
  split at h <;> split at h1 <;> cases r <;> cases r1 <;> simp at h h1 <;> subst h <;>
    first | exact ⟨rfl, rfl⟩ | (exfalso; revert h1; decide)

theorem modifierTable_spec (p : Int × Bool × Nat) (hp : p ∈ modifierTable) :
    0 ≤ p.1 ∧ modifierBit p.1.toNat p.2.1 = some p.2.2 := by
  simp only [modifierTable, List.mem_cons, List.mem_singleton, List.not_mem_nil, or_false] at hp
  rcases hp with rfl | rfl | rfl | rfl | rfl | rfl | rfl | rfl <;> decide

theorem two_pow_eq_iff (j k : Nat) : (2 ^ j = 2 ^ k) ↔ j = k :=
  ⟨fun h => Nat.pow_right_injective (le_refl 2) h, fun h => by rw [h]⟩

theorem bitSet_or_mask (m b b1 : Nat) (hb : ∃ j, j < 8 ∧ b = 2 ^ j) (hb1 : ∃ k, k < 8 ∧ b1 = 2 ^ k) :
    bitSet (m ||| b) b1 = (bitSet m b1 || decide (b = b1)) := by
  obtain ⟨j, _, rfl⟩ := hb
  obtain ⟨k, _, rfl⟩ := hb1
  rw [bitSet_or_two_pow]
  simp only [two_pow_eq_iff]

theorem bitSet_bitClear_mask (m b b1 : Nat) (hb : ∃ j, j < 8 ∧ b = 2 ^ j)
    (hb1 : ∃ k, k < 8 ∧ b1 = 2 ^ k) :
    bitSet (bitClear m b) b1 = (bitSet m b1 && !decide (b = b1)) := by
  obtain ⟨j, _, rfl⟩ := hb
  obtain ⟨k, hk, rfl⟩ := hb1
  rw [bitSet_bitClear_two_pow m j k hk]
  simp only [two_pow_eq_iff]


theorem toUint8_of_range (k : Int) (h0 : 0 ≤ k) (h1 : k ≤ 255) : toUint8 k = k.toNat := by
  unfold toUint8
  rw [Int.emod_eq_of_lt h0 (by omega)]

theorem hidState_SetModifierKey (c : Controller) (env : Env) (k : Nat) (r : Bool) (b : Nat)
    (h : modifierBit k r = some b) :
    (SetModifierKey c env k r).2.hidState.Modkey = c.hidState.Modkey ||| b := by
  unfold SetModifierKey
  rw [h]
  simp only
  rw [hidState_keyboardSend]

theorem hidState_UnsetModifierKey (c : Controller) (env : Env) (k : Nat) (r : Bool) (b : Nat)
    (h : modifierBit k r = some b) :
    (UnsetModifierKey c env k r).2.hidState.Modkey = bitClear c.hidState.Modkey b := by
  unfold UnsetModifierKey
  rw [h]
  simp only
  rw [hidState_keyboardSend]

theorem modkey_SendKeyboardPress (c : Controller) (env : Env) (k : Nat) :
    (SendKeyboardPress c env k).2.hidState.Modkey = c.hidState.Modkey := by
  unfold SendKeyboardPress
  simp only
  split
  · rfl
  · split
    · rfl
    · split
      · rw [hidState_keyboardSend]; rfl
      · rfl

theorem modkey_SendKeyboardRelease (c : Controller) (env : Env) (k : Nat) :
    (SendKeyboardRelease c env k).2.hidState.Modkey = c.hidState.Modkey := by
  unfold SendKeyboardRelease
  simp only
  split
  · rfl
  · split
    · rw [hidState_keyboardSend]; rfl
    · rfl

theorem ConstructAndSendCmd_keyPress (c : Controller) (env : Env) (cmd : HIDCommand)
    (he : cmd.Event = EventTypeKeyPress) :
    ConstructAndSendCmd c env cmd
      = if IsModifierKey (toUint8 cmd.Keycode) then
          SetModifierKey c env (toUint8 cmd.Keycode) cmd.IsRightModKey
        else if cmd.Keycode = 13 ∧ cmd.IsRightModKey = true then SendKeyboardPress c env 146
        else SendKeyboardPress c env (toUint8 cmd.Keycode) := by
  unfold ConstructAndSendCmd
  rw [if_pos he]

theorem ConstructAndSendCmd_keyRelease (c : Controller) (env : Env) (cmd : HIDCommand)
    (he : cmd.Event = EventTypeKeyRelease) :
    ConstructAndSendCmd c env cmd
      = if IsModifierKey (toUint8 cmd.Keycode) then
          UnsetModifierKey c env (toUint8 cmd.Keycode) cmd.IsRightModKey
        else if cmd.Keycode = 13 ∧ cmd.IsRightModKey = true then SendKeyboardRelease c env 146
        else SendKeyboardRelease c env (toUint8 cmd.Keycode) := by
  unfold ConstructAndSendCmd
  have hne : ¬ cmd.Event = EventTypeKeyPress := by rw [he]; decide
  rw [if_neg hne, if_pos he]

/-- One key event with a keycode in 0..255: the bit of a table pair is set
afterwards iff the event is a press of that pair, or the event is for another
pair (or another key) and the bit was set before. -/
theorem modkey_step (c : Controller) (env : Env) (cmd : HIDCommand)
    (hev : cmd.Event = EventTypeKeyPress ∨ cmd.Event = EventTypeKeyRelease)
    (h0 : 0 ≤ cmd.Keycode) (h1 : cmd.Keycode ≤ 255)
    (p : Int × Bool × Nat) (hp : p ∈ modifierTable) :
    bitSet (ConstructAndSendCmd c env cmd).2.hidState.Modkey p.2.2
      = if cmd.Keycode = p.1 ∧ cmd.IsRightModKey = p.2.1 then decide (cmd.Event = EventTypeKeyPress)
        else bitSet c.hidState.Modkey p.2.2 := by
  obtain ⟨hp0, hpbit⟩ := modifierTable_spec p hp
  obtain ⟨hpj, hpmod⟩ := modifierBit_spec _ _ _ hpbit
  have hk := toUint8_of_range cmd.Keycode h0 h1
  by_cases hmod : IsModifierKey cmd.Keycode.toNat = true
  · obtain ⟨b, hb⟩ := modifierBit_isSome cmd.Keycode.toNat cmd.IsRightModKey hmod
    obtain ⟨hbj, _⟩ := modifierBit_spec _ _ _ hb
    have hbp : (b = p.2.2) ↔ (cmd.Keycode = p.1 ∧ cmd.IsRightModKey = p.2.1) := by
      constructor
      · intro h
        rw [h] at hb
        obtain ⟨hkk, hrr⟩ := modifierBit_inj _ _ _ _ _ hb hpbit
        refine ⟨?_, hrr⟩
        have := congrArg (fun n : Nat => (n : Int)) hkk
        simpa [Int.toNat_of_nonneg h0, Int.toNat_of_nonneg hp0] using this
      · rintro ⟨hkk, hrr⟩
        rw [hkk, hrr, hpbit] at hb
        exact (Option.some.inj hb).symm
    rcases hev with he | he
    · rw [ConstructAndSendCmd_keyPress c env cmd he, hk, if_pos hmod,
        hidState_SetModifierKey c env _ _ b hb, bitSet_or_mask _ _ _ hbj hpj]
      by_cases hpair : cmd.Keycode = p.1 ∧ cmd.IsRightModKey = p.2.1
      · rw [if_pos hpair]; simp [hbp.mpr hpair, he]
      · rw [if_neg hpair]
        have : ¬ b = p.2.2 := fun h => hpair (hbp.mp h)
        simp [this]
    · have hne : ¬ cmd.Event = EventTypeKeyPress := by rw [he]; decide
      rw [ConstructAndSendCmd_keyRelease c env cmd he, hk, if_pos hmod,
        hidState_UnsetModifierKey c env _ _ b hb, bitSet_bitClear_mask _ _ _ hbj hpj]
      by_cases hpair : cmd.Keycode = p.1 ∧ cmd.IsRightModKey = p.2.1
      · rw [if_pos hpair]; simp [hbp.mpr hpair, hne]
      · rw [if_neg hpair]
        have : ¬ b = p.2.2 := fun h => hpair (hbp.mp h)
        simp [this]
  · have hpair : ¬ (cmd.Keycode = p.1 ∧ cmd.IsRightModKey = p.2.1) := by
      rintro ⟨hkk, _⟩
      rw [hkk] at hmod
      exact hmod hpmod
    rw [if_neg hpair]
    rcases hev with he | he
    · rw [ConstructAndSendCmd_keyPress c env cmd he, hk, if_neg hmod]
      split <;> rw [modkey_SendKeyboardPress]
    · rw [ConstructAndSendCmd_keyRelease c env cmd he, hk, if_neg hmod]
      split <;> rw [modkey_SendKeyboardRelease]

theorem modkey_runEvents (evs : List (HIDCommand × Env)) (c : Controller)
    (hev : ∀ e ∈ evs, (e.1.Event = EventTypeKeyPress ∨ e.1.Event = EventTypeKeyRelease)
      ∧ 0 ≤ e.1.Keycode ∧ e.1.Keycode ≤ 255)
    (p : Int × Bool × Nat) (hp : p ∈ modifierTable) :
    bitSet (runEvents c evs).hidState.Modkey p.2.2
      = evs.foldl (fun held e =>
          if e.1.Keycode = p.1 ∧ e.1.IsRightModKey = p.2.1 then decide (e.1.Event = EventTypeKeyPress)
          else held) (bitSet c.hidState.Modkey p.2.2) := by
  induction evs generalizing c with
  | nil => rfl
  | cons e rest ih =>
    obtain ⟨cmd, env⟩ := e
    have he := hev (cmd, env) (List.mem_cons_self _ _)
    rw [runEvents, ih _ (fun e h => hev e (List.mem_cons_of_mem _ h)), List.foldl_cons,
      modkey_step c env cmd he.1 he.2.1 he.2.2 p hp]


/-- C6: after any sequence of `KeyPress`/`KeyRelease` events with keycodes in
0..255 run from the all-zero HID state, for each of the eight pairs of a
modifier key (17 Ctrl, 16 Shift, 18 Alt, 91 Meta) and a side, the bit of the
pair (`L_CTRL=0x01 ... R_GUI=0x80`) is set in `Modkey` iff the most recent
event for that pair was a `KeyPress`; and a modifier event changes only its
own bit of `Modkey` and never changes `KeyboardButtons`. -/
theorem C6_modifier_bits (c : Controller) (evs : List (HIDCommand × Env))
    (hinit : c.hidState = defaultHidState)
    (hev : ∀ e ∈ evs, (e.1.Event = EventTypeKeyPress ∨ e.1.Event = EventTypeKeyRelease)
      ∧ 0 ≤ e.1.Keycode ∧ e.1.Keycode ≤ 255) :
    (∀ p ∈ modifierTable,
        bitSet (runEvents c evs).hidState.Modkey p.2.2 = lastWasPress p.1 p.2.1 evs)
    ∧ (∀ (c1 : Controller) (env : Env) (cmd : HIDCommand),
        (cmd.Event = EventTypeKeyPress ∨ cmd.Event = EventTypeKeyRelease) →
        0 ≤ cmd.Keycode → cmd.Keycode ≤ 255 → IsModifierKey cmd.Keycode.toNat = true →
        (ConstructAndSendCmd c1 env cmd).2.hidState.KeyboardButtons = c1.hidState.KeyboardButtons
        ∧ ∀ p ∈ modifierTable, ¬ (cmd.Keycode = p.1 ∧ cmd.IsRightModKey = p.2.1) →
            bitSet (ConstructAndSendCmd c1 env cmd).2.hidState.Modkey p.2.2
              = bitSet c1.hidState.Modkey p.2.2) := by
  refine ⟨fun p hp => ?_, fun c1 env cmd hevt h0 h1 hmod => ⟨?_, fun p hp hpair => ?_⟩⟩
  · have hz : bitSet defaultHidState.Modkey p.2.2 = false := by
      simp [bitSet, defaultHidState]
    rw [modkey_runEvents evs c hev p hp, hinit, hz]
    rfl
  · have hk := toUint8_of_range cmd.Keycode h0 h1
    rcases hevt with he | he
    · rw [ConstructAndSendCmd_keyPress c1 env cmd he, hk, if_pos hmod, kb_SetModifierKey]
    · rw [ConstructAndSendCmd_keyRelease c1 env cmd he, hk, if_pos hmod, kb_UnsetModifierKey]
  · rw [modkey_step c1 env cmd hevt h0 h1 p hp, if_neg hpair]

/-- C6 on the sequence press Ctrl (left), press A, press Shift (right),
release Ctrl (left), for the pair (Shift, right) with bit `0x20`. -/
theorem C6_modifier_bits_witness :
    bitSet (runEvents (NewHIDController ⟨1⟩)
        [(keyEvent true 17 false, ⟨true, [], 0⟩), (keyEvent true 65 false, ⟨true, [], 1⟩),
         (keyEvent true 16 true, ⟨true, [], 2⟩), (keyEvent false 17 false, ⟨true, [], 3⟩)]
      ).hidState.Modkey 0x20
      = lastWasPress 16 true
        [(keyEvent true 17 false, ⟨true, [], 0⟩), (keyEvent true 65 false, ⟨true, [], 1⟩),
         (keyEvent true 16 true, ⟨true, [], 2⟩), (keyEvent false 17 false, ⟨true, [], 3⟩)] :=
  (C6_modifier_bits (NewHIDController ⟨1⟩)
      [(keyEvent true 17 false, ⟨true, [], 0⟩), (keyEvent true 65 false, ⟨true, [], 1⟩),
       (keyEvent true 16 true, ⟨true, [], 2⟩), (keyEvent false 17 false, ⟨true, [], 3⟩)]
      rfl (by decide)).1 (16, true, 0x20) (by decide)

set_option maxRecDepth 100000 in
theorem keycodeTable_byte : ∀ c, c < 256 →
    (∀ u, specKeycodeTable c = some u → javaScriptKeycodeToHIDOpcode c = u)
    ∧ (javaScriptKeycodeToHIDOpcode c ≠ 0 ↔ supportedKeycode c = true)
    ∧ javaScriptKeycodeToHIDOpcode c < 256 := by
  intro c hc
  interval_cases c <;> refine ⟨?_, ?_, ?_⟩ <;> decide


theorem javaScriptKeycodeToHIDOpcode_large (c : Nat) (h : 256 ≤ c) :
    javaScriptKeycodeToHIDOpcode c = 0 := by
  unfold javaScriptKeycodeToHIDOpcode
  rw [if_neg (by omega), if_neg (by omega), if_neg (by omega), if_neg (by omega)]
  split <;> first | rfl | omega

theorem specKeycodeTable_large (c : Nat) (h : 256 ≤ c) : specKeycodeTable c = none := by
  unfold specKeycodeTable
  rw [if_neg (by omega), if_neg (by omega), if_neg (by omega), if_neg (by omega)]
  split <;> first | rfl | omega

theorem supportedKeycode_large (c : Nat) (h : 256 ≤ c) : supportedKeycode c = false := by
  unfold supportedKeycode
  rw [decide_eq_false_iff_not]
  omega

/-- C7: `javaScriptKeycodeToHIDOpcode` agrees with the spec table wherever the
table has an entry (65..90 -> 0x04+(c-65), 49..57 -> 0x1E+(c-49), 97..105 ->
0x59+(c-97), 112..123 -> 0x3A+(c-112) and the fixed entries), and its result is
non-zero exactly for the codes of the supported set, zero for every other
code. -/
theorem C7_keycode_table (c : Nat) :
    (∀ u, specKeycodeTable c = some u → javaScriptKeycodeToHIDOpcode c = u)
    ∧ (javaScriptKeycodeToHIDOpcode c ≠ 0 ↔ supportedKeycode c = true) := by
  by_cases hc : c < 256
  · exact ⟨(keycodeTable_byte c hc).1, (keycodeTable_byte c hc).2.1⟩
  · have h : 256 ≤ c := by omega
    refine ⟨fun u hu => ?_, ?_⟩
    · rw [specKeycodeTable_large c h] at hu
      cases hu
    · rw [javaScriptKeycodeToHIDOpcode_large c h, supportedKeycode_large c h]
      simp

theorem isModifierKey_opcode_ne_zero (k : Nat) (h : IsModifierKey k = true) :
    javaScriptKeycodeToHIDOpcode k ≠ 0 := by
  unfold IsModifierKey at h
  split at h <;> first | decide | cases h

/-- Within 0..255 an untranslatable keycode is dropped: an error, the
controller unchanged, nothing sent. -/
theorem keyEvent_unsupported_in_range (c : Controller) (env : Env) (cmd : HIDCommand)
    (hev : cmd.Event = EventTypeKeyPress ∨ cmd.Event = EventTypeKeyRelease)
    (h0 : 0 ≤ cmd.Keycode) (h1 : cmd.Keycode ≤ 255)
    (hu : javaScriptKeycodeToHIDOpcode cmd.Keycode.toNat = 0) :
    ConstructAndSendCmd c env cmd = (.fail .unsupportedKeycode, c) := by
  have hk := toUint8_of_range cmd.Keycode h0 h1
  have hmod : ¬ IsModifierKey cmd.Keycode.toNat = true :=
    fun h => isModifierKey_opcode_ne_zero _ h hu
  have h13 : ¬ (cmd.Keycode = 13 ∧ cmd.IsRightModKey = true) := by
    rintro ⟨h, _⟩
    rw [h] at hu
    revert hu
    decide
  rcases hev with he | he
  · rw [ConstructAndSendCmd_keyPress c env cmd he, hk, if_neg hmod, if_neg h13]
    simp [SendKeyboardPress, hu]
  · rw [ConstructAndSendCmd_keyRelease c env cmd he, hk, if_neg hmod, if_neg h13]
    simp [SendKeyboardRelease, hu]

/-- C8 at keycode 321: the code has no entry in the translation table, yet the
`KeyPress` event is handled as a press of `A` (keycode 65 = 321 mod 256): no
error is returned, usage `0x04` is written to slot 0 and a keyboard report is
sent. -/
theorem C8_keycode_321_pressed_as_A :
    supportedKeycode 321 = false
    ∧ javaScriptKeycodeToHIDOpcode 321 = 0
    ∧ (ConstructAndSendCmd (runningController ⟨1⟩)
        ⟨true, [[0x57, 0xAB, 0x00, 0x82, 0x01, 0x00, 0x85]], 0⟩ (keyEvent true 321 false)).1
        = .data [0x00]
    ∧ (ConstructAndSendCmd (runningController ⟨1⟩)
        ⟨true, [[0x57, 0xAB, 0x00, 0x82, 0x01, 0x00, 0x85]], 0⟩ (keyEvent true 321 false)
        ).2.hidState.KeyboardButtons = [0x04, 0, 0, 0, 0, 0]
    ∧ (ConstructAndSendCmd (runningController ⟨1⟩)
        ⟨true, [[0x57, 0xAB, 0x00, 0x82, 0x01, 0x00, 0x85]], 0⟩ (keyEvent true 321 false)
        ).2.sendLog = [[0x57, 0xAB, 0x00, 0x02, 0x08, 0x00, 0x00, 0x04, 0, 0, 0, 0, 0, 0x10]] := by
  decide

theorem keyboardPacket_eq (s : HIDState) (s0 s1 s2 s3 s4 s5 : Nat)
    (hk : s.KeyboardButtons = [s0, s1, s2, s3, s4, s5]) :
    keyboardPacket s = [0x57, 0xAB, 0x00, 0x02, 0x08, s.Modkey, 0x00, s0, s1, s2, s3, s4, s5,
      calcChecksum [0x57, 0xAB, 0x00, 0x02, 0x08, s.Modkey, 0x00, s0, s1, s2, s3, s4, s5]] := by
  unfold keyboardPacket
  rw [hk]
  rfl

/-- C9: for every modifier byte `m` and slots `s0..s5`, the packet sent by
`keyboardSendKeyCombinations` is exactly the 14 bytes
`57 AB 00 02 08 m 00 s0 s1 s2 s3 s4 s5 chk`; reading byte 5 and bytes 7..12 of
the packet gives back `(m, s)`, so the report is injective in `(m, s)`. -/
theorem C9_keyboard_report_layout (c : Controller) (env : Env) (m s0 s1 s2 s3 s4 s5 : Nat)
    (hm : c.hidState.Modkey = m)
    (hk : c.hidState.KeyboardButtons = [s0, s1, s2, s3, s4, s5]) :
    (keyboardSendKeyCombinations c env).2.sendLog
      = c.sendLog ++ [[0x57, 0xAB, 0x00, 0x02, 0x08, m, 0x00, s0, s1, s2, s3, s4, s5,
          calcChecksum [0x57, 0xAB, 0x00, 0x02, 0x08, m, 0x00, s0, s1, s2, s3, s4, s5]]]
    ∧ parseKeyboardReport (keyboardPacket c.hidState) = (m, [s0, s1, s2, s3, s4, s5])
    ∧ (∀ t : HIDState, t.KeyboardButtons.length = 6 →
        keyboardPacket t = keyboardPacket c.hidState →
        t.Modkey = m ∧ t.KeyboardButtons = [s0, s1, s2, s3, s4, s5]) := by
  have hp := keyboardPacket_eq c.hidState s0 s1 s2 s3 s4 s5 hk
  rw [hm] at hp
  refine ⟨?_, ?_, ?_⟩
  · rw [sendLog_keyboardSend, hp]
  · rw [hp]; rfl
  · intro t ht heq
    obtain ⟨t0, t1, t2, t3, t4, t5, htk⟩ := exists_six_of_length _ ht
    rw [hp, keyboardPacket_eq t t0 t1 t2 t3 t4 t5 htk] at heq
    simp only [List.cons.injEq, true_and] at heq
    obtain ⟨h5, h7, h8, h9, h10, h11, h12, _⟩ := heq
    refine ⟨h5, ?_⟩
    rw [htk, h7, h8, h9, h10, h11, h12]

/-- C9 at modifier byte 0 with `A` and `B` held in slots 0 and 1. -/
theorem C9_keyboard_report_layout_witness :
    (keyboardSendKeyCombinations
        (((runningController ⟨1⟩).setSlot 0 0x04).setSlot 1 0x05) ⟨true, [], 0⟩).2.sendLog
      = [] ++ [[0x57, 0xAB, 0x00, 0x02, 0x08, 0, 0x00, 0x04, 0x05, 0, 0, 0, 0,
          calcChecksum [0x57, 0xAB, 0x00, 0x02, 0x08, 0, 0x00, 0x04, 0x05, 0, 0, 0, 0]]] :=
  (C9_keyboard_report_layout (((runningController ⟨1⟩).setSlot 0 0x04).setSlot 1 0x05)
    ⟨true, [], 0⟩ 0 0x04 0x05 0 0 0 0 rfl rfl).1

/-- C10 (amended): from the all-zero HID state, a `KeyPress` event with
keycode 65 and `is_right_modifier_key = false` sends exactly the bytes
`57 AB 00 02 08 00 00 04 00 00 00 00 00 10`. -/
theorem C10_press_A_packet (c : Controller) (env : Env) (hinit : c.hidState = defaultHidState) :
    (ConstructAndSendCmd c env (keyEvent true 65 false)).2.sendLog
      = c.sendLog ++ [[0x57, 0xAB, 0x00, 0x02, 0x08, 0x00, 0x00, 0x04,
          0x00, 0x00, 0x00, 0x00, 0x00, 0x10]] := by
  have hs : scanSlots c.hidState.KeyboardButtons (javaScriptKeycodeToHIDOpcode 65) = none := by
    rw [hinit]; decide
  have hi : scanSlots c.hidState.KeyboardButtons 0 = some 0 := by
    rw [hinit]; decide
  have hrun : ConstructAndSendCmd c env (keyEvent true 65 false) = SendKeyboardPress c env 65 := by
    rw [ConstructAndSendCmd_keyPress c env _ rfl]
    rfl
  rw [hrun, SendKeyboardPress_eq_of_free c env 65 0 (by decide) hs hi, sendLog_keyboardSend]
  have : keyboardPacket (c.setSlot 0 (javaScriptKeycodeToHIDOpcode 65)).hidState
      = [0x57, 0xAB, 0x00, 0x02, 0x08, 0x00, 0x00, 0x04, 0x00, 0x00, 0x00, 0x00, 0x00, 0x10] := by
    show keyboardPacket { c.hidState with
      KeyboardButtons := c.hidState.KeyboardButtons.set 0 (javaScriptKeycodeToHIDOpcode 65) } = _
    rw [hinit]
    decide
  rw [this]
  rfl

/-- C10 (amended) at a connected controller (serial loop running, write queue
accepting) in the all-zero state, with a device that acknowledges the
report: the press is sent and answered, and the bytes written are
`57 AB 00 02 08 00 00 04 00 00 00 00 00 10`. -/
theorem C10_press_A_packet_witness :
    (runningController ⟨1⟩).hidState = defaultHidState
    ∧ (runningController ⟨1⟩).serialRunning = true
    ∧ (ConstructAndSendCmd (runningController ⟨1⟩)
        ⟨true, [[0x57, 0xAB, 0x00, 0x82, 0x01, 0x00, 0x85]], 0⟩ (keyEvent true 65 false)).1
        = .data [0x00]
    ∧ (ConstructAndSendCmd (runningController ⟨1⟩)
        ⟨true, [[0x57, 0xAB, 0x00, 0x82, 0x01, 0x00, 0x85]], 0⟩ (keyEvent true 65 false)
        ).2.sendLog
      = (runningController ⟨1⟩).sendLog ++ [[0x57, 0xAB, 0x00, 0x02, 0x08, 0x00, 0x00, 0x04,
          0x00, 0x00, 0x00, 0x00, 0x00, 0x10]] :=
  ⟨rfl, rfl, by decide,
    C10_press_A_packet (runningController ⟨1⟩)
      ⟨true, [[0x57, 0xAB, 0x00, 0x82, 0x01, 0x00, 0x85]], 0⟩ rfl⟩

/-- C10 as stated fails: on a connected controller (serial loop running,
write queue accepting, device acknowledging) in the all-zero state,
`press(65)` is sent without error and the one packet written is
`57 AB 00 02 08 00 00 04 00 00 00 00 00 10`, not
`57 AB 00 02 08 00 00 04 00 00 00 00 00 B9`; the checksum byte is `0x10`, the
byte sum modulo 256. -/
theorem C10_counterexample_checksum_B9 :
    (runningController ⟨1⟩).serialRunning = true
    ∧ (ConstructAndSendCmd (runningController ⟨1⟩)
        ⟨true, [[0x57, 0xAB, 0x00, 0x82, 0x01, 0x00, 0x85]], 0⟩ (keyEvent true 65 false)).1
        = .data [0x00]
    ∧ (ConstructAndSendCmd (runningController ⟨1⟩)
        ⟨true, [[0x57, 0xAB, 0x00, 0x82, 0x01, 0x00, 0x85]], 0⟩ (keyEvent true 65 false)
        ).2.sendLog
      = [[0x57, 0xAB, 0x00, 0x02, 0x08, 0x00, 0x00, 0x04, 0x00, 0x00, 0x00, 0x00, 0x00, 0x10]]
    ∧ (ConstructAndSendCmd (runningController ⟨1⟩)
        ⟨true, [[0x57, 0xAB, 0x00, 0x82, 0x01, 0x00, 0x85]], 0⟩ (keyEvent true 65 false)
        ).2.sendLog
      ≠ [[0x57, 0xAB, 0x00, 0x02, 0x08, 0x00, 0x00, 0x04, 0x00, 0x00, 0x00, 0x00, 0x00, 0xB9]]
    ∧ calcChecksum [0x57, 0xAB, 0x00, 0x02, 0x08, 0x00, 0x00, 0x04, 0x00, 0x00, 0x00, 0x00, 0x00]
      = 0x10 := by
  decide

theorem ConstructAndSendCmd_mouseMove (c : Controller) (env : Env) (cmd : HIDCommand)
    (he : cmd.Event = EventTypeMouseMove) :
    ConstructAndSendCmd c env cmd = handleMouseMove c env cmd := by
  unfold ConstructAndSendCmd
  rw [if_neg (by rw [he]; decide), if_neg (by rw [he]; decide), if_pos he]

theorem toUint8_natCast (n : Nat) : toUint8 (n : Int) = n % 256 := by
  unfold toUint8
  omega

theorem toUint8_land_lsb (x : Nat) : toUint8 (Int.land (x : Int) 0xFF) = x % 256 := by
  have h : Int.land (x : Int) 0xFF = ((x &&& 255 : Nat) : Int) := rfl
  rw [h, toUint8_natCast]
  have : x &&& 255 = x % 256 := Nat.and_pow_two_sub_one_eq_mod x 8
  rw [this]
  omega

theorem toUint8_land_msb (x : Nat) :
    toUint8 (Int.land ((x : Int) >>> 8) 0xFF) = x / 256 % 256 := by
  have h : Int.land ((x : Int) >>> 8) 0xFF = (((x >>> 8) &&& 255 : Nat) : Int) := rfl
  rw [h, toUint8_natCast]
  have h1 : (x >>> 8) &&& 255 = (x >>> 8) % 256 := Nat.and_pow_two_sub_one_eq_mod _ 8
  have h2 : x >>> 8 = x / 256 := Nat.shiftRight_eq_div_pow x 8
  rw [h1, h2]
  omega


theorem mouseAbsolutePacket_eq (s : HIDState) (a b x y : Nat) :
    mouseAbsolutePacket s a b x y
      = [0x57, 0xAB, 0x00, 0x04, 0x07, 0x02, s.MouseButtons, a, b, x, y, 0x00,
          calcChecksum [0x57, 0xAB, 0x00, 0x04, 0x07, 0x02, s.MouseButtons, a, b, x, y, 0x00]] :=
  rfl

/-- The absolute-move branch of `handleMouseMove`. -/
theorem handleMouseMove_absolute (c : Controller) (env : Env) (cmd : HIDCommand)
    (h : cmd.MouseAbsX ≠ 0 ∨ cmd.MouseAbsY ≠ 0) :
    handleMouseMove c env cmd
      = MouseMoveAbsolute
          { c.setMouseButtons (syncMouseButtons c.hidState.MouseButtons cmd.MouseMoveButtonState)
              with lastCursorEventTime := env.now } env
          (toUint8 (Int.land cmd.MouseAbsX 0xFF)) (toUint8 (Int.land (cmd.MouseAbsX >>> 8) 0xFF))
          (toUint8 (Int.land cmd.MouseAbsY 0xFF)) (toUint8 (Int.land (cmd.MouseAbsY >>> 8) 0xFF)) := by
  unfold handleMouseMove
  simp only
  rw [if_pos h]

/-- The branch of `handleMouseMove` that sends nothing. -/
theorem handleMouseMove_still (c : Controller) (env : Env) (cmd : HIDCommand)
    (h : ¬ (cmd.MouseAbsX ≠ 0 ∨ cmd.MouseAbsY ≠ 0)) :
    handleMouseMove c env cmd
      = (.data [],
          { c.setMouseButtons (syncMouseButtons c.hidState.MouseButtons cmd.MouseMoveButtonState)
              with lastCursorEventTime := env.now }) := by
  unfold handleMouseMove
  simp only
  rw [if_neg h]

/-- C11: for `x`, `y` in 0..0xFFFF, not both zero, a `MouseMove` event with
`mouse_x = x` and `mouse_y = y` sends the 13-byte packet
`57 AB 00 04 07 02 b xlo xhi ylo yhi 00 chk`, where `b` is `MouseButtons` after
the button synchronisation of the event, `xlo = x mod 256`, `xhi = x / 256`
(so `xlo + 256*xhi = x`), likewise for `y`, and `chk` is the checksum. -/
theorem C11_mouse_move_absolute (c : Controller) (env : Env) (cmd : HIDCommand) (x y : Nat)
    (he : cmd.Event = EventTypeMouseMove)
    (hX : cmd.MouseAbsX = (x : Int)) (hY : cmd.MouseAbsY = (y : Int))
    (hx : x ≤ 0xFFFF) (hy : y ≤ 0xFFFF) (hxy : x ≠ 0 ∨ y ≠ 0) :
    (ConstructAndSendCmd c env cmd).2.sendLog
        = c.sendLog ++ [[0x57, 0xAB, 0x00, 0x04, 0x07, 0x02,
            (ConstructAndSendCmd c env cmd).2.hidState.MouseButtons,
            x % 256, x / 256, y % 256, y / 256, 0x00,
            calcChecksum [0x57, 0xAB, 0x00, 0x04, 0x07, 0x02,
              (ConstructAndSendCmd c env cmd).2.hidState.MouseButtons,
              x % 256, x / 256, y % 256, y / 256, 0x00]]]
    ∧ (ConstructAndSendCmd c env cmd).2.hidState.MouseButtons
        = syncMouseButtons c.hidState.MouseButtons cmd.MouseMoveButtonState
    ∧ x % 256 + 256 * (x / 256) = x ∧ y % 256 + 256 * (y / 256) = y
    ∧ x % 256 < 256 ∧ x / 256 < 256 ∧ y % 256 < 256 ∧ y / 256 < 256 := by
  have hne : cmd.MouseAbsX ≠ 0 ∨ cmd.MouseAbsY ≠ 0 := by
    rcases hxy with h | h
    · left; rw [hX]; exact_mod_cast h
    · right; rw [hY]; exact_mod_cast h
  have hrun := ConstructAndSendCmd_mouseMove c env cmd he
  rw [handleMouseMove_absolute c env cmd hne, hX, hY, toUint8_land_lsb, toUint8_land_msb,
    toUint8_land_lsb, toUint8_land_msb] at hrun
  have hxm : x / 256 % 256 = x / 256 := Nat.mod_eq_of_lt (by omega)
  have hym : y / 256 % 256 = y / 256 := Nat.mod_eq_of_lt (by omega)
  rw [hxm, hym] at hrun
  have hb : (ConstructAndSendCmd c env cmd).2.hidState.MouseButtons
      = syncMouseButtons c.hidState.MouseButtons cmd.MouseMoveButtonState := by
    rw [hrun, hidState_MouseMoveAbsolute]
    rfl
  refine ⟨?_, hb, by omega, by omega, by omega, by omega, by omega, by omega⟩
  rw [hb, hrun, sendLog_MouseMoveAbsolute, mouseAbsolutePacket_eq]
  rfl

/-- C11 at `move_absolute(0x0080, 0x0100)` with no buttons, on a connected
controller (serial loop running, write queue accepting) whose device
acknowledges the move: the event is sent and answered, and the packet written
is `57 AB 00 04 07 02 00 80 00 00 01 00 90`. -/
theorem C11_mouse_move_absolute_witness :
    (runningController ⟨1⟩).serialRunning = true
    ∧ (ConstructAndSendCmd (runningController ⟨1⟩)
        ⟨true, [[0x57, 0xAB, 0x00, 0x84, 0x01, 0x00, 0x87]], 0⟩
        (mouseMoveEvent 0x0080 0x0100 0 0 0)).1 = .data [0x00]
    ∧ (ConstructAndSendCmd (runningController ⟨1⟩)
        ⟨true, [[0x57, 0xAB, 0x00, 0x84, 0x01, 0x00, 0x87]], 0⟩
        (mouseMoveEvent 0x0080 0x0100 0 0 0)).2.sendLog
      = [[0x57, 0xAB, 0x00, 0x04, 0x07, 0x02, 0x00, 0x80, 0x00, 0x00, 0x01, 0x00, 0x90]] := by
  have h := (C11_mouse_move_absolute (runningController ⟨1⟩)
    ⟨true, [[0x57, 0xAB, 0x00, 0x84, 0x01, 0x00, 0x87]], 0⟩
    (mouseMoveEvent 0x0080 0x0100 0 0 0) 0x0080 0x0100 rfl rfl rfl (by decide) (by decide)
    (by decide))
  refine ⟨rfl, by decide, ?_⟩
  rw [h.1, h.2.1]
  decide

theorem mouseRelativePacket_eq (s : HIDState) (dx dy wheel : Nat) :
    mouseRelativePacket s dx dy wheel
      = [0x57, 0xAB, 0x00, 0x05, 0x05, 0x01, s.MouseButtons, avoid80 dx, avoid80 dy, wheel,
          calcChecksum [0x57, 0xAB, 0x00, 0x05, 0x05, 0x01, s.MouseButtons,
            avoid80 dx, avoid80 dy, wheel]] :=
  rfl

theorem avoid80_ne (d : Nat) : avoid80 d ≠ 0x80 := by
  unfold avoid80
  split
  · decide
  · assumption

/-- C12: for every `dx`, `dy`, `wheel` and button state `b`, `MouseMoveRelative`
sends the 11-byte packet `57 AB 00 05 05 01 b dx1 dy1 wheel chk`, where `dx1` is
`0x81` if `dx = 0x80` and `dx` otherwise (likewise `dy1`); so bytes 7 and 8 of
the packet differ from `0x80`. -/
theorem C12_relative_move_packet (c : Controller) (env : Env) (dx dy wheel : Nat) :
    (MouseMoveRelative c env dx dy wheel).2.sendLog
        = c.sendLog ++ [[0x57, 0xAB, 0x00, 0x05, 0x05, 0x01, c.hidState.MouseButtons,
            (if dx = 0x80 then 0x81 else dx), (if dy = 0x80 then 0x81 else dy), wheel,
            calcChecksum [0x57, 0xAB, 0x00, 0x05, 0x05, 0x01, c.hidState.MouseButtons,
              (if dx = 0x80 then 0x81 else dx), (if dy = 0x80 then 0x81 else dy), wheel]]]
    ∧ (mouseRelativePacket c.hidState dx dy wheel).length = 11
    ∧ (mouseRelativePacket c.hidState dx dy wheel).getD 7 0 ≠ 0x80
    ∧ (mouseRelativePacket c.hidState dx dy wheel).getD 8 0 ≠ 0x80 := by
  refine ⟨?_, rfl, ?_, ?_⟩
  · rw [sendLog_MouseMoveRelative, mouseRelativePacket_eq]
    rfl
  · rw [mouseRelativePacket_eq]
    exact avoid80_ne dx
  · rw [mouseRelativePacket_eq]
    exact avoid80_ne dy

theorem MouseScroll_neg (c : Controller) (env : Env) (tilt : Int) (h : tilt < 0) :
    MouseScroll c env tilt = MouseMoveRelative c env 0 0 (c.Config.ScrollSensitivity % 256) := by
  unfold MouseScroll
  rw [if_neg (by omega)]
  simp only [if_pos h]

theorem MouseScroll_pos (c : Controller) (env : Env) (tilt : Int) (h : 0 < tilt) :
    MouseScroll c env tilt
      = MouseMoveRelative c env 0 0 ((0xFF - c.Config.ScrollSensitivity) % 256) := by
  unfold MouseScroll
  rw [if_neg (by omega)]
  simp only [if_neg (show ¬ tilt < 0 by omega)]

/-- C13: with scroll sensitivity `s` in 0..255, `MouseScroll 0` sends nothing
and returns no error; for `tilt < 0` it sends the relative-move packet with
`dx = dy = 0` and wheel byte `s`; for `tilt > 0` the wheel byte is `0xFF - s`. -/
theorem C13_MouseScroll (c : Controller) (env : Env) (tilt : Int)
    (hs : c.Config.ScrollSensitivity ≤ 255) :
    (tilt = 0 → MouseScroll c env tilt = (.data [], c))
    ∧ (tilt < 0 →
        MouseScroll c env tilt = MouseMoveRelative c env 0 0 c.Config.ScrollSensitivity
        ∧ (MouseScroll c env tilt).2.sendLog
            = c.sendLog ++ [[0x57, 0xAB, 0x00, 0x05, 0x05, 0x01, c.hidState.MouseButtons,
                0, 0, c.Config.ScrollSensitivity,
                calcChecksum [0x57, 0xAB, 0x00, 0x05, 0x05, 0x01, c.hidState.MouseButtons,
                  0, 0, c.Config.ScrollSensitivity]]])
    ∧ (0 < tilt →
        MouseScroll c env tilt = MouseMoveRelative c env 0 0 (0xFF - c.Config.ScrollSensitivity)
        ∧ (MouseScroll c env tilt).2.sendLog
            = c.sendLog ++ [[0x57, 0xAB, 0x00, 0x05, 0x05, 0x01, c.hidState.MouseButtons,
                0, 0, 0xFF - c.Config.ScrollSensitivity,
                calcChecksum [0x57, 0xAB, 0x00, 0x05, 0x05, 0x01, c.hidState.MouseButtons,
                  0, 0, 0xFF - c.Config.ScrollSensitivity]]]) := by
  have h1 : c.Config.ScrollSensitivity % 256 = c.Config.ScrollSensitivity :=
    Nat.mod_eq_of_lt (by omega)
  have h2 : (0xFF - c.Config.ScrollSensitivity) % 256 = 0xFF - c.Config.ScrollSensitivity :=
    Nat.mod_eq_of_lt (by omega)
  refine ⟨fun h => ?_, fun h => ?_, fun h => ?_⟩
  · unfold MouseScroll
    rw [if_pos h]
  · have hrun := MouseScroll_neg c env tilt h
    rw [h1] at hrun
    refine ⟨hrun, ?_⟩
    rw [hrun, sendLog_MouseMoveRelative, mouseRelativePacket_eq]
    rfl
  · have hrun := MouseScroll_pos c env tilt h
    rw [h2] at hrun
    refine ⟨hrun, ?_⟩
    rw [hrun, sendLog_MouseMoveRelative, mouseRelativePacket_eq]
    rfl

/-- C13 with sensitivity `0x01`: `scroll(-3)` sends wheel byte `0x01` and
`scroll(+3)` sends wheel byte `0xFE`. -/
theorem C13_MouseScroll_witness :
    (MouseScroll (runningController ⟨0x01⟩) ⟨true, [], 0⟩ (-3)).2.sendLog
        = [[0x57, 0xAB, 0x00, 0x05, 0x05, 0x01, 0x00, 0, 0, 0x01, 0x0E]]
    ∧ (MouseScroll (runningController ⟨0x01⟩) ⟨true, [], 0⟩ 3).2.sendLog
        = [[0x57, 0xAB, 0x00, 0x05, 0x05, 0x01, 0x00, 0, 0, 0xFE, 0x0B]] := by
  have h := C13_MouseScroll (runningController ⟨0x01⟩) ⟨true, [], 0⟩
  refine ⟨?_, ?_⟩
  · rw [((h (-3) (by decide)).2.1 (by decide)).2]
    decide
  · rw [((h 3 (by decide)).2.2 (by decide)).2]
    decide

theorem ConstructAndSendCmd_mousePress (c : Controller) (env : Env) (cmd : HIDCommand)
    (he : cmd.Event = EventTypeMousePress) :
    ConstructAndSendCmd c env cmd
      = if cmd.MouseButton < 1 ∨ cmd.MouseButton > 3 then (.fail .invalidMouseButton, c)
        else MouseButtonPress c env (toUint8 cmd.MouseButton) := by
  unfold ConstructAndSendCmd
  rw [if_neg (by rw [he]; decide), if_neg (by rw [he]; decide), if_neg (by rw [he]; decide),
    if_pos he]

theorem ConstructAndSendCmd_mouseRelease (c : Controller) (env : Env) (cmd : HIDCommand)
    (he : cmd.Event = EventTypeMouseRelease) :
    ConstructAndSendCmd c env cmd
      = if cmd.MouseButton < 1 ∨ cmd.MouseButton > 3 then (.fail .invalidMouseButton, c)
        else MouseButtonRelease c env (toUint8 cmd.MouseButton) := by
  unfold ConstructAndSendCmd
  rw [if_neg (by rw [he]; decide), if_neg (by rw [he]; decide), if_neg (by rw [he]; decide),
    if_neg (by rw [he]; decide), if_pos he]

theorem mouseButtonBit_spec (b : Int) : ∃ j, j < 8 ∧ mouseButtonBit b = 2 ^ j := by
  unfold mouseButtonBit
  split
  · exact ⟨0, by decide, rfl⟩
  · split
    · exact ⟨1, by decide, rfl⟩
    · exact ⟨2, by decide, rfl⟩

theorem MouseButtonPress_valid (c : Controller) (env : Env) (b : Int)
    (hb : b = 1 ∨ b = 2 ∨ b = 3) :
    MouseButtonPress c env (toUint8 b)
      = MouseMoveRelative (c.setMouseButtons (c.hidState.MouseButtons ||| mouseButtonBit b))
          env 0 0 0 := by
  rcases hb with rfl | rfl | rfl <;> rfl

theorem MouseButtonRelease_valid (c : Controller) (env : Env) (b : Int)
    (hb : b = 1 ∨ b = 2 ∨ b = 3) :
    MouseButtonRelease c env (toUint8 b)
      = MouseMoveRelative (c.setMouseButtons (bitClear c.hidState.MouseButtons (mouseButtonBit b)))
          env 0 0 0 := by
  rcases hb with rfl | rfl | rfl <;> rfl


theorem mouseRelativePacket_zero (s : HIDState) :
    mouseRelativePacket s 0 0 0
      = [0x57, 0xAB, 0x00, 0x05, 0x05, 0x01, s.MouseButtons, 0, 0, 0,
          calcChecksum [0x57, 0xAB, 0x00, 0x05, 0x05, 0x01, s.MouseButtons, 0, 0, 0]] :=
  rfl

/-- C14: a `MousePress` or `MouseRelease` event updates the state iff
`mouse_button` is 1, 2 or 3. Then `MousePress` sets exactly the bit `0x01`
(left), `0x02` (right) or `0x04` (middle) of `MouseButtons`, `MouseRelease`
clears exactly that bit, every other bit and the keyboard state are unchanged,
and one relative-move packet with zero `dx`, `dy`, wheel carrying the new
button byte is sent. For any other `mouse_button` an error is returned, the
controller is unchanged and nothing is sent. -/
theorem C14_mouse_buttons (c : Controller) (env : Env) (cmd : HIDCommand) (press : Bool)
    (he : cmd.Event = if press then EventTypeMousePress else EventTypeMouseRelease) :
    ((cmd.MouseButton = 1 ∨ cmd.MouseButton = 2 ∨ cmd.MouseButton = 3) →
        (ConstructAndSendCmd c env cmd).2.hidState.MouseButtons
            = (if press then c.hidState.MouseButtons ||| mouseButtonBit cmd.MouseButton
               else bitClear c.hidState.MouseButtons (mouseButtonBit cmd.MouseButton))
        ∧ (∀ k, k < 8 →
            bitSet (ConstructAndSendCmd c env cmd).2.hidState.MouseButtons (2 ^ k)
              = if mouseButtonBit cmd.MouseButton = 2 ^ k then press
                else bitSet c.hidState.MouseButtons (2 ^ k))
        ∧ (ConstructAndSendCmd c env cmd).2.hidState.KeyboardButtons = c.hidState.KeyboardButtons
        ∧ (ConstructAndSendCmd c env cmd).2.hidState.Modkey = c.hidState.Modkey
        ∧ (ConstructAndSendCmd c env cmd).2.sendLog
            = c.sendLog ++ [[0x57, 0xAB, 0x00, 0x05, 0x05, 0x01,
                (ConstructAndSendCmd c env cmd).2.hidState.MouseButtons, 0, 0, 0,
                calcChecksum [0x57, 0xAB, 0x00, 0x05, 0x05, 0x01,
                  (ConstructAndSendCmd c env cmd).2.hidState.MouseButtons, 0, 0, 0]]])
    ∧ (¬ (cmd.MouseButton = 1 ∨ cmd.MouseButton = 2 ∨ cmd.MouseButton = 3) →
        ConstructAndSendCmd c env cmd = (.fail .invalidMouseButton, c)) := by
  have hbit := mouseButtonBit_spec cmd.MouseButton
  refine ⟨fun hb => ?_, fun hb => ?_⟩
  · have hrange : ¬ (cmd.MouseButton < 1 ∨ cmd.MouseButton > 3) := by omega
    cases press with
    | true =>
      have hrun : ConstructAndSendCmd c env cmd
          = MouseMoveRelative
              (c.setMouseButtons (c.hidState.MouseButtons ||| mouseButtonBit cmd.MouseButton))
              env 0 0 0 := by
        rw [ConstructAndSendCmd_mousePress c env cmd he, if_neg hrange,
          MouseButtonPress_valid c env _ hb]
      have hmb : (ConstructAndSendCmd c env cmd).2.hidState.MouseButtons
          = c.hidState.MouseButtons ||| mouseButtonBit cmd.MouseButton := by
        rw [hrun, hidState_MouseMoveRelative]; rfl
      refine ⟨by rw [hmb]; rfl, fun k hk => ?_, ?_, ?_, ?_⟩
      · rw [hmb, bitSet_or_mask _ _ _ hbit ⟨k, hk, rfl⟩]
        by_cases h : mouseButtonBit cmd.MouseButton = 2 ^ k <;> simp [h]
      · rw [hrun, hidState_MouseMoveRelative]; rfl
      · rw [hrun, hidState_MouseMoveRelative]; rfl
      · rw [hmb, hrun, sendLog_MouseMoveRelative, mouseRelativePacket_zero]; rfl
    | false =>
      have hrun : ConstructAndSendCmd c env cmd
          = MouseMoveRelative
              (c.setMouseButtons (bitClear c.hidState.MouseButtons (mouseButtonBit cmd.MouseButton)))
              env 0 0 0 := by
        rw [ConstructAndSendCmd_mouseRelease c env cmd he, if_neg hrange,
          MouseButtonRelease_valid c env _ hb]
      have hmb : (ConstructAndSendCmd c env cmd).2.hidState.MouseButtons
          = bitClear c.hidState.MouseButtons (mouseButtonBit cmd.MouseButton) := by
        rw [hrun, hidState_MouseMoveRelative]; rfl
      refine ⟨by rw [hmb]; rfl, fun k hk => ?_, ?_, ?_, ?_⟩
      · rw [hmb, bitSet_bitClear_mask _ _ _ hbit ⟨k, hk, rfl⟩]
        by_cases h : mouseButtonBit cmd.MouseButton = 2 ^ k <;> simp [h]
      · rw [hrun, hidState_MouseMoveRelative]; rfl
      · rw [hrun, hidState_MouseMoveRelative]; rfl
      · rw [hmb, hrun, sendLog_MouseMoveRelative, mouseRelativePacket_zero]; rfl
  · have hrange : cmd.MouseButton < 1 ∨ cmd.MouseButton > 3 := by omega
    cases press with
    | true => rw [ConstructAndSendCmd_mousePress c env cmd he, if_pos hrange]
    | false => rw [ConstructAndSendCmd_mouseRelease c env cmd he, if_pos hrange]

/-- C14 at a press of the middle button (3) on a fresh controller: the button
byte becomes `0x04`; and at button 4: an error and no change. -/
theorem C14_mouse_buttons_witness :
    (ConstructAndSendCmd (runningController ⟨1⟩) ⟨true, [], 0⟩
        (mouseButtonEvent true 3)).2.hidState.MouseButtons = 0x04
    ∧ ConstructAndSendCmd (runningController ⟨1⟩) ⟨true, [], 0⟩ (mouseButtonEvent true 4)
        = (.fail .invalidMouseButton, runningController ⟨1⟩) := by
  refine ⟨?_, ?_⟩
  · rw [((C14_mouse_buttons (runningController ⟨1⟩) ⟨true, [], 0⟩ (mouseButtonEvent true 3) true
      rfl).1 (by decide)).1]
    decide
  · exact (C14_mouse_buttons (runningController ⟨1⟩) ⟨true, [], 0⟩ (mouseButtonEvent true 4) true
      rfl).2 (by decide)

theorem ldiff_two_pow_eq (n k : Nat) :
    Nat.ldiff (2 ^ k) n = if n.testBit k then 0 else 2 ^ k := by
  apply Nat.eq_of_testBit_eq
  intro i
  rw [Nat.testBit_ldiff, Nat.testBit_two_pow]
  by_cases hk : k = i
  · subst hk
    cases h : n.testBit k <;> simp [Nat.testBit_two_pow_self]
  · cases h : n.testBit k <;> simp [hk, Nat.testBit_two_pow_of_ne hk]

/-- The test `state & mask != 0` of a Go `int` against a one-bit mask reads
that bit of the two's-complement value. -/
theorem land_two_pow_ne_zero (s : Int) (k : Nat) :
    (Int.land s ((2 ^ k : Nat) : Int) ≠ 0) ↔ s.testBit k = true := by
  have hpos : (2 : Nat) ^ k ≠ 0 := Nat.pos_iff_ne_zero.mp (Nat.two_pow_pos k)
  cases s with
  | ofNat n =>
    have h : Int.land (Int.ofNat n) ((2 ^ k : Nat) : Int) = ((n &&& 2 ^ k : Nat) : Int) := rfl
    rw [h, and_two_pow_eq]
    show _ ↔ n.testBit k = true
    cases n.testBit k <;> simp [hpos]
  | negSucc n =>
    have h : Int.land (Int.negSucc n) ((2 ^ k : Nat) : Int) = ((Nat.ldiff (2 ^ k) n : Nat) : Int) :=
      rfl
    rw [h, ldiff_two_pow_eq]
    show _ ↔ (!n.testBit k) = true
    cases n.testBit k <;> simp [hpos]


/-- One statement `if p { x |= mask } else { x &^= mask }` with a one-bit mask. -/
theorem bitSet_syncStep (p : Prop) [Decidable p] (x mask j k : Nat) (hm : mask = 2 ^ j)
    (hk : k < 8) :
    bitSet (if p then x ||| mask else bitClear x mask) (2 ^ k)
      = if j = k then decide p else bitSet x (2 ^ k) := by
  subst hm
  by_cases hp : p
  · rw [if_pos hp, bitSet_or_two_pow]
    by_cases hjk : j = k <;> simp [hjk, hp]
  · rw [if_neg hp, bitSet_bitClear_two_pow _ _ _ hk]
    by_cases hjk : j = k <;> simp [hjk, hp]

theorem decide_land_ne_zero (s : Int) (k : Nat) :
    decide (Int.land s ((2 ^ k : Nat) : Int) ≠ 0) = s.testBit k := by
  rw [Bool.eq_iff_iff, decide_eq_true_iff]
  exact land_two_pow_ne_zero s k

/-- Bit `k` of the synchronised button byte. -/
theorem syncMouseButtons_bit (b : Nat) (s : Int) (k : Nat) (hk : k < 8) :
    bitSet (syncMouseButtons b s) (2 ^ k)
      = if k = 0 then s.testBit 0 else if k = 2 then s.testBit 1
        else if k = 1 then s.testBit 2 else bitSet b (2 ^ k) := by
  have d0 : decide (Int.land s 0x01 ≠ 0) = s.testBit 0 := decide_land_ne_zero s 0
  have d1 : decide (Int.land s 0x02 ≠ 0) = s.testBit 1 := decide_land_ne_zero s 1
  have d2 : decide (Int.land s 0x04 ≠ 0) = s.testBit 2 := decide_land_ne_zero s 2
  unfold syncMouseButtons
  simp only []
  rw [bitSet_syncStep _ _ 0x02 1 k rfl hk, bitSet_syncStep _ _ 0x04 2 k rfl hk,
    bitSet_syncStep _ _ 0x01 0 k rfl hk, d0, d1, d2]
  by_cases e0 : k = 0
  · subst e0; rfl
  · by_cases e2 : k = 2
    · subst e2; rfl
    · by_cases e1 : k = 1
      · subst e1; rfl
      · rw [if_neg (Ne.symm e1), if_neg (Ne.symm e2), if_neg (Ne.symm e0), if_neg e0, if_neg e2,
          if_neg e1]


theorem mouseButtons_handleMouseMove (c : Controller) (env : Env) (cmd : HIDCommand) :
    (handleMouseMove c env cmd).2.hidState.MouseButtons
      = syncMouseButtons c.hidState.MouseButtons cmd.MouseMoveButtonState := by
  by_cases h : cmd.MouseAbsX ≠ 0 ∨ cmd.MouseAbsY ≠ 0
  · rw [handleMouseMove_absolute c env cmd h, hidState_MouseMoveAbsolute]; rfl
  · rw [handleMouseMove_still c env cmd h]; rfl

/-- C15: after a `MouseMove` event with button bitfield `s`, bit `0x01` of
`MouseButtons` equals bit 0 of `s` (left), bit `0x04` equals bit 1 of `s`
(middle), bit `0x02` equals bit 2 of `s` (right), and bits 3..7 are unchanged;
a packet is sent iff `mouse_x` or `mouse_y` is non-zero (relative deltas alone
send nothing). -/
theorem C15_mouse_move_sync (c : Controller) (env : Env) (cmd : HIDCommand)
    (he : cmd.Event = EventTypeMouseMove) :
    bitSet (ConstructAndSendCmd c env cmd).2.hidState.MouseButtons 0x01
        = cmd.MouseMoveButtonState.testBit 0
    ∧ bitSet (ConstructAndSendCmd c env cmd).2.hidState.MouseButtons 0x04
        = cmd.MouseMoveButtonState.testBit 1
    ∧ bitSet (ConstructAndSendCmd c env cmd).2.hidState.MouseButtons 0x02
        = cmd.MouseMoveButtonState.testBit 2
    ∧ (∀ k, 3 ≤ k → k < 8 →
        bitSet (ConstructAndSendCmd c env cmd).2.hidState.MouseButtons (2 ^ k)
          = bitSet c.hidState.MouseButtons (2 ^ k))
    ∧ ((cmd.MouseAbsX ≠ 0 ∨ cmd.MouseAbsY ≠ 0) →
        ∃ p, (ConstructAndSendCmd c env cmd).2.sendLog = c.sendLog ++ [p])
    ∧ (¬ (cmd.MouseAbsX ≠ 0 ∨ cmd.MouseAbsY ≠ 0) →
        (ConstructAndSendCmd c env cmd).2.sendLog = c.sendLog
        ∧ (ConstructAndSendCmd c env cmd).1 = .data []) := by
  have hrun := ConstructAndSendCmd_mouseMove c env cmd he
  have hmb : (ConstructAndSendCmd c env cmd).2.hidState.MouseButtons
      = syncMouseButtons c.hidState.MouseButtons cmd.MouseMoveButtonState := by
    rw [hrun, mouseButtons_handleMouseMove]
  rw [hmb]
  refine ⟨?_, ?_, ?_, fun k h3 h8 => ?_, fun h => ?_, fun h => ?_⟩
  · exact syncMouseButtons_bit _ _ 0 (by decide)
  · exact syncMouseButtons_bit _ _ 2 (by decide)
  · exact syncMouseButtons_bit _ _ 1 (by decide)
  · rw [syncMouseButtons_bit _ _ k h8, if_neg (by omega), if_neg (by omega), if_neg (by omega)]
  · rw [hrun, handleMouseMove_absolute c env cmd h, sendLog_MouseMoveAbsolute]
    exact ⟨_, rfl⟩
  · rw [hrun, handleMouseMove_still c env cmd h]
    exact ⟨rfl, rfl⟩

/-- C15 at a move to (10, 0) with bitfield `0b110` (middle and right held) on
a controller whose left button was down: left is released, middle and right
are set. -/
theorem C15_mouse_move_sync_witness :
    bitSet (ConstructAndSendCmd ((runningController ⟨1⟩).setMouseButtons 0x01) ⟨true, [], 0⟩
        (mouseMoveEvent 10 0 0 0 6)).2.hidState.MouseButtons 0x01 = false
    ∧ bitSet (ConstructAndSendCmd ((runningController ⟨1⟩).setMouseButtons 0x01) ⟨true, [], 0⟩
        (mouseMoveEvent 10 0 0 0 6)).2.hidState.MouseButtons 0x04 = true := by
  have h := C15_mouse_move_sync ((runningController ⟨1⟩).setMouseButtons 0x01) ⟨true, [], 0⟩
    (mouseMoveEvent 10 0 0 0 6) rfl
  refine ⟨?_, ?_⟩
  · rw [h.1]; decide
  · rw [h.2.1]; decide

theorem time_Send (c : Controller) (env : Env) (p : List Nat) :
    (Send c env p).2.lastCursorEventTime = c.lastCursorEventTime := by
  unfold Send
  split_ifs <;> rfl

theorem time_MouseMoveAbsolute (c : Controller) (env : Env) (a b x y : Nat) :
    (MouseMoveAbsolute c env a b x y).2.lastCursorEventTime = c.lastCursorEventTime := by
  unfold MouseMoveAbsolute
  have h := time_Send c env (mouseAbsolutePacket c.hidState a b x y)
  split
  · next err c1 heq => rw [heq] at h; exact h
  · next c1 heq => rw [heq] at h; exact h

theorem time_MouseMoveRelative (c : Controller) (env : Env) (dx dy w : Nat) :
    (MouseMoveRelative c env dx dy w).2.lastCursorEventTime = c.lastCursorEventTime := by
  unfold MouseMoveRelative
  have h := time_Send c env (mouseRelativePacket c.hidState dx dy w)
  split
  · next err c1 heq => rw [heq] at h; exact h
  · next c1 heq => rw [heq] at h; exact h

theorem time_MouseScroll (c : Controller) (env : Env) (t : Int) :
    (MouseScroll c env t).2.lastCursorEventTime = c.lastCursorEventTime := by
  unfold MouseScroll
  split
  · rfl
  · rw [time_MouseMoveRelative]

theorem ConstructAndSendCmd_mouseScroll (c : Controller) (env : Env) (cmd : HIDCommand)
    (he : cmd.Event = EventTypeMouseScroll) :
    ConstructAndSendCmd c env cmd = handleMouseScroll c env cmd := by
  unfold ConstructAndSendCmd
  rw [if_neg (by rw [he]; decide), if_neg (by rw [he]; decide), if_neg (by rw [he]; decide),
    if_neg (by rw [he]; decide), if_neg (by rw [he]; decide), if_pos he]

/-- C16: with the clock as the input `env.now`, a `MouseScroll` event handled
less than 25 ms after `lastCursorEventTime` sends nothing, returns no error and
leaves the whole controller (so `lastCursorEventTime` and the HID state)
unchanged; otherwise `lastCursorEventTime` becomes `env.now` and
`MouseScroll tilt` is performed. Every `MouseMove` event sets
`lastCursorEventTime` to its handling time. -/
theorem C16_scroll_rate_limit (c : Controller) (env : Env) (cmd : HIDCommand) :
    (cmd.Event = EventTypeMouseScroll → env.now - c.lastCursorEventTime < 25 →
        ConstructAndSendCmd c env cmd = (.data [], c))
    ∧ (cmd.Event = EventTypeMouseScroll → ¬ (env.now - c.lastCursorEventTime < 25) →
        ConstructAndSendCmd c env cmd
            = MouseScroll { c with lastCursorEventTime := env.now } env cmd.MouseScroll
        ∧ (ConstructAndSendCmd c env cmd).2.lastCursorEventTime = env.now)
    ∧ (cmd.Event = EventTypeMouseMove →
        (ConstructAndSendCmd c env cmd).2.lastCursorEventTime = env.now) := by
  refine ⟨fun he hlt => ?_, fun he hge => ?_, fun he => ?_⟩
  · rw [ConstructAndSendCmd_mouseScroll c env cmd he]
    unfold handleMouseScroll
    exact if_pos hlt
  · have hrun : ConstructAndSendCmd c env cmd
        = MouseScroll { c with lastCursorEventTime := env.now } env cmd.MouseScroll := by
      rw [ConstructAndSendCmd_mouseScroll c env cmd he]
      unfold handleMouseScroll
      exact if_neg hge
    refine ⟨hrun, ?_⟩
    rw [hrun, time_MouseScroll]
  · rw [ConstructAndSendCmd_mouseMove c env cmd he]
    by_cases h : cmd.MouseAbsX ≠ 0 ∨ cmd.MouseAbsY ≠ 0
    · rw [handleMouseMove_absolute c env cmd h, time_MouseMoveAbsolute]
    · rw [handleMouseMove_still c env cmd h]

theorem checkReply_short (cmd : Nat) (reply : List Nat) (h : reply.length < 7) :
    checkReply cmd reply = (none, reply) := by
  unfold checkReply
  simp only
  rw [if_neg (by omega)]

/-- A proper prefix of a frame makes the loop wait for more. -/
theorem checkReply_wireFrame_prefix (cmd addr r chk : Nat) (p reply tail : List Nat)
    (h : reply ++ tail = wireFrame addr r p chk) (ht : tail ≠ []) :
    checkReply cmd reply = (none, reply) := by
  by_cases h7 : reply.length ≥ 7
  · obtain ⟨a, b, c, d, e, rest, rfl⟩ := exists_five_of_length reply (by omega)
    simp only [wireFrame, List.cons_append, List.nil_append, List.cons.injEq] at h
    obtain ⟨rfl, rfl, rfl, rfl, rfl, hr⟩ := h
    have hlen : rest.length + tail.length = p.length + 1 := by
      have := congrArg List.length hr
      simpa using this
    have htl : 0 < tail.length := List.length_pos.mpr ht
    have hnot : ¬ (rest.length + 5 ≥ 5 + p.length + 1) := by omega
    simp [checkReply, hnot]
  · exact checkReply_short cmd reply (by omega)

/-- What the loop does with a whole frame of 1..250 payload bytes. -/
theorem checkReply_wireFrame (cmd addr r chk : Nat) (p : List Nat)
    (h1 : 1 ≤ p.length) (h2 : p.length ≤ 250) :
    checkReply cmd (wireFrame addr r p chk)
      = if frameChecksum addr r p = chk then
          if r = cmd ||| 0x80 then (some (.data p), wireFrame addr r p chk)
          else if r = cmd ||| 0xC0 then (some (.fail .deviceError), wireFrame addr r p chk)
          else (none, wireFrame addr r p chk)
        else (some (.fail .checksumFailed), wireFrame addr r p chk) := by
  have hhi : (5 + p.length) % 256 = 5 + p.length := by omega
  have hlen : (wireFrame addr r p chk).length = 5 + p.length + 1 := by
    simp [wireFrame]; omega
  have htake : (wireFrame addr r p chk).take (5 + p.length)
      = [0x57, 0xAB, addr, r, p.length] ++ p := by
    unfold wireFrame
    rw [List.take_append_of_le_length (by simp; omega), List.take_of_length_le (by simp; omega)]
  have hget : (wireFrame addr r p chk).getD (5 + p.length) 0 = chk := by
    unfold wireFrame
    rw [List.getD_append_right _ _ _ _ (by simp; omega)]
    have : 5 + p.length - ([0x57, 0xAB, addr, r, p.length] ++ p).length = 0 := by
      simp; omega
    rw [this]; rfl
  have h0 : (wireFrame addr r p chk).getD 0 0 = 0x57 := by simp [wireFrame]
  have hA : (wireFrame addr r p chk).getD 1 0 = 0xAB := by simp [wireFrame]
  have h3 : (wireFrame addr r p chk).getD 3 0 = r := by simp [wireFrame]
  have h4 : (wireFrame addr r p chk).getD 4 0 = p.length := by simp [wireFrame]
  have hdrop : List.drop 5 ([0x57, 0xAB, addr, r, p.length] ++ p) = p := rfl
  unfold checkReply
  simp only [h0, hA, h3, h4, hhi, hlen, htake, hget, hdrop]
  have hge : 5 + p.length + 1 ≥ 7 := by omega
  have hb : 5 ≤ 5 + p.length ∧ 5 + p.length < 5 + p.length + 1 := ⟨by omega, by omega⟩
  rw [if_pos hge, if_pos (le_refl _), if_pos hb]
  simp only [and_self, if_true]
  rfl


/-- With the accumulator at a frame that is neither accepted nor rejected,
further empty reads end in the timeout. -/
theorem waitLoop_idle (cmd : Nat) (F : List Nat) (hF : checkReply cmd F = (none, F))
    (rest : List (List Nat)) (hrest : rest.flatten = []) :
    (waitLoop cmd F rest).1 = .fail .replyTimeout := by
  induction rest with
  | nil => rfl
  | cons d t ih =>
    rw [List.flatten_cons, List.append_eq_nil] at hrest
    obtain ⟨hd, ht⟩ := hrest
    subst hd
    unfold waitLoop
    rw [List.append_nil, hF]
    exact ih ht

/-- Chunks that make up exactly `F`, every proper prefix of which makes the
loop wait: the result is what the loop decides on the whole of `F`. -/
theorem waitLoop_delivers (cmd : Nat) (F : List Nat)
    (hpre : ∀ reply tail, reply ++ tail = F → tail ≠ [] → checkReply cmd reply = (none, reply))
    (hkeep : (checkReply cmd F).1 = none → (checkReply cmd F).2 = F)
    (chunks : List (List Nat)) (acc : List Nat)
    (hjoin : acc ++ chunks.flatten = F) (hlt : acc.length < F.length) :
    (waitLoop cmd acc chunks).1
      = match (checkReply cmd F).1 with
        | some r => r
        | none => .fail .replyTimeout := by
  induction chunks generalizing acc with
  | nil =>
    simp only [List.flatten_nil, List.append_nil] at hjoin
    rw [hjoin] at hlt
    exact absurd hlt (lt_irrefl _)
  | cons d rest ih =>
    rw [List.flatten_cons, ← List.append_assoc] at hjoin
    unfold waitLoop
    by_cases hrest : rest.flatten = []
    · rw [hrest, List.append_nil] at hjoin
      rw [hjoin]
      rcases hc : checkReply cmd F with ⟨o, x⟩
      rw [hc] at hkeep
      cases o with
      | some r => rfl
      | none =>
        have hx : x = F := hkeep rfl
        subst hx
        exact waitLoop_idle cmd x hc rest hrest
    · rw [hpre (acc ++ d) rest.flatten hjoin hrest]
      refine ih (acc ++ d) hjoin ?_
      have hl := congrArg List.length hjoin
      rw [List.length_append] at hl
      have : 0 < rest.flatten.length := List.length_pos.mpr hrest
      omega

theorem wireFrame_length (addr r chk : Nat) (p : List Nat) :
    (wireFrame addr r p chk).length = p.length + 6 := by
  simp [wireFrame]

/-- The six-byte frame of an empty payload is never looked at. -/
theorem checkReply_wireFrame_empty (cmd addr r chk : Nat) :
    checkReply cmd (wireFrame addr r [] chk) = (none, wireFrame addr r [] chk) :=
  checkReply_short cmd _ (by simp [wireFrame])

theorem errorReply_ne_succReply (cmd : Nat) (h : cmd ≤ 0x3F) : cmd ||| 0xC0 ≠ cmd ||| 0x80 := by
  interval_cases cmd <;> decide

/-- For frames with a length byte of 0..250: an error reply with a correct
checksum, and any frame with a wrong checksum, make `WaitForReply` return an
error and no payload. -/
theorem waitForReply_error_frames (c : Controller) (env : Env) (cmd addr r chk : Nat)
    (p : List Nat) (hq : c.incomgDataQueue = []) (hcmd : cmd ≤ 0x3F) (hlen : p.length ≤ 250)
    (hjoin : env.arrivals.flatten = wireFrame addr r p chk)
    (hbad : (frameChecksum addr r p = chk ∧ r = cmd ||| 0xC0) ∨ frameChecksum addr r p ≠ chk) :
    ∃ e, (WaitForReply c env cmd).1 = .fail e := by
  unfold WaitForReply
  rw [hq, List.nil_append]
  have hrun := waitLoop_delivers cmd (wireFrame addr r p chk)
    (fun reply tail h ht => checkReply_wireFrame_prefix cmd addr r chk p reply tail h ht)
  by_cases h0 : p.length = 0
  · have hp : p = [] := List.length_eq_zero.mp h0
    subst hp
    have hF := checkReply_wireFrame_empty cmd addr r chk
    have := hrun (by rw [hF]; intro _; rfl) env.arrivals [] (by simpa using hjoin)
      (by simp [wireFrame])
    rw [hF] at this
    exact ⟨_, this⟩
  · have hF := checkReply_wireFrame cmd addr r chk p (by omega) hlen
    rcases hbad with ⟨hok, hr⟩ | hne
    · rw [if_pos hok, if_neg (by rw [hr]; exact errorReply_ne_succReply cmd hcmd), if_pos hr] at hF
      have := hrun (by rw [hF]; intro h; cases h) env.arrivals [] (by simpa using hjoin)
        (by simp [wireFrame])
      rw [hF] at this
      exact ⟨_, this⟩
    · rw [if_neg hne] at hF
      have := hrun (by rw [hF]; intro h; cases h) env.arrivals [] (by simpa using hjoin)
        (by simp [wireFrame])
      rw [hF] at this
      exact ⟨_, this⟩

set_option maxRecDepth 100000 in
/-- C17 at an error reply with a 251-byte payload: the frame
`57 AB 00 C2 FB 00..00 BF` has the magic, a correct trailing checksum and the
reply byte `0x02|0xC0`, and `WaitForReply 0x02` ends in a run-time panic (slice
bounds out of range), not in an error return. The same happens when the
checksum byte of that frame is wrong. -/
theorem C17_error_frame_251_panics :
    frameChecksum 0x00 0xC2 (List.replicate 251 0) = 0xBF
    ∧ (WaitForReply (runningController ⟨1⟩)
        ⟨true, [wireFrame 0x00 0xC2 (List.replicate 251 0) 0xBF], 0⟩ 0x02).1 = .crash
    ∧ (WaitForReply (runningController ⟨1⟩)
        ⟨true, [wireFrame 0x00 0xC2 (List.replicate 251 0) 0x00], 0⟩ 0x02).1 = .crash := by
  decide

/-- Seven or more bytes that do not start with the magic are thrown away. -/
theorem checkReply_bad_magic (cmd : Nat) (bad : List Nat) (h7 : 7 ≤ bad.length)
    (hmagic : ¬ (bad.getD 0 0 = 0x57 ∧ bad.getD 1 0 = 0xAB)) :
    checkReply cmd bad = (none, []) := by
  unfold checkReply
  simp only
  rw [if_pos h7, if_neg hmagic]

/-- C18 (amended): when the ingress queue is empty and a chunk of at least
seven bytes that does not begin with the magic `57 AB` arrives, followed, in
separate later chunks, by exactly the success frame for `cmd` of a payload of
1..250 bytes, `WaitForReply cmd` clears the bad bytes from its accumulator and
returns the payload of the valid frame. -/
theorem C18_bad_magic_then_frame (c : Controller) (env : Env) (cmd : Nat)
    (bad p : List Nat) (chunks : List (List Nat))
    (hq : c.incomgDataQueue = []) (harr : env.arrivals = bad :: chunks)
    (h7 : 7 ≤ bad.length) (hmagic : ¬ (bad.getD 0 0 = 0x57 ∧ bad.getD 1 0 = 0xAB))
    (h1 : 1 ≤ p.length) (h2 : p.length ≤ 250)
    (hjoin : chunks.flatten = replyFrame cmd p) :
    (checkReply cmd bad).2 = [] ∧ (WaitForReply c env cmd).1 = .data p := by
  have hbad := checkReply_bad_magic cmd bad h7 hmagic
  refine ⟨by rw [hbad], ?_⟩
  unfold WaitForReply
  rw [hq, harr, List.nil_append]
  unfold waitLoop
  rw [List.nil_append, hbad]
  exact waitLoop_frame cmd p h1 h2 chunks [] (by simpa using hjoin) (by simp [replyFrame])

/-- C18 (amended) at seven zero bytes followed by the reply `57 AB 00 82 01 00 85`. -/
theorem C18_bad_magic_then_frame_witness :
    (checkReply 0x02 [0, 0, 0, 0, 0, 0, 0]).2 = []
    ∧ (WaitForReply (runningController ⟨1⟩)
        ⟨true, [[0, 0, 0, 0, 0, 0, 0], [0x57, 0xAB, 0x00, 0x82, 0x01, 0x00, 0x85]], 0⟩ 0x02).1
      = .data [0x00] :=
  C18_bad_magic_then_frame (runningController ⟨1⟩)
    ⟨true, [[0, 0, 0, 0, 0, 0, 0], [0x57, 0xAB, 0x00, 0x82, 0x01, 0x00, 0x85]], 0⟩ 0x02
    [0, 0, 0, 0, 0, 0, 0] [0x00] [[0x57, 0xAB, 0x00, 0x82, 0x01, 0x00, 0x85]]
    rfl rfl (by decide) (by decide) (by decide) (by decide) (by decide)

/-- C18 as stated fails: after the one-byte chunk `00`, which does not begin
with the magic, the valid success frame `57 AB 00 82 01 00 85` for command
`0x02` arrives as a separate chunk; the accumulator `00 57 AB 00 82 01 00 85`
is then cleared as a whole and `WaitForReply 0x02` ends with the timeout error
instead of returning the payload `00`. -/
theorem C18_counterexample_short_garbage :
    replyFrame 0x02 [0x00] = [0x57, 0xAB, 0x00, 0x82, 0x01, 0x00, 0x85]
    ∧ (checkReply 0x02 ([0x00] ++ [0x57, 0xAB, 0x00, 0x82, 0x01, 0x00, 0x85])).2 = []
    ∧ (WaitForReply (runningController ⟨1⟩)
        ⟨true, [[0x00], [0x57, 0xAB, 0x00, 0x82, 0x01, 0x00, 0x85]], 0⟩ 0x02).1
      = .fail .replyTimeout := by
  decide

theorem setConfigPacket_length (cfg : List Nat) (h : 50 ≤ cfg.length) :
    (setConfigPacket cfg).length = 56 := by
  simp [setConfigPacket]
  omega

/-- The checksum byte of the "set" packet covers the header and the first 49
configuration bytes only. -/
theorem setConfigPacket_checksum (cfg : List Nat) (h : 50 ≤ cfg.length) :
    (setConfigPacket cfg).getLast?
      = some (calcChecksum ([0x57, 0xAB, 0x00, 0x09, 0x32]
          ++ ((((cfg.set 3 0x00).set 4 0x00).set 5 0x4B).set 6 0x00).take 49)) := by
  have hl : (((((cfg.set 3 0x00).set 4 0x00).set 5 0x4B).set 6 0x00).take 50).length = 50 := by
    simp; omega
  unfold setConfigPacket
  simp only []
  rw [List.getLast?_concat]
  congr 2
  rw [List.length_append, hl, List.take_append_eq_append_take]
  simp [List.take_take]

set_option maxRecDepth 100000 in
/-- C19 at a configuration whose 50th byte is `01`: the packet sent by
`ConfigureChipTo19200` has 56 bytes, the header `57 AB 00 09 32` and the
patched configuration, but its last byte is `0x88`, the checksum of the first
54 bytes, while the sum of all 55 preceding bytes modulo 256 is `0x89`. -/
theorem C19_checksum_skips_last_config_byte :
    (ConfigureChipTo19200 (runningController ⟨1⟩)
        ⟨true, [wireFrame 0x00 0x88 sampleConfig (frameChecksum 0x00 0x88 sampleConfig)], 0⟩
        ⟨true, [], 0⟩).2.sendLog
      = [getConfigPacket,
         [0x57, 0xAB, 0x00, 0x09, 0x32] ++ [0, 0, 0, 0x00, 0x00, 0x4B, 0x00]
           ++ List.replicate 42 0x00 ++ [0x01] ++ [0x88]]
    ∧ calcChecksum ([0x57, 0xAB, 0x00, 0x09, 0x32] ++ [0, 0, 0, 0x00, 0x00, 0x4B, 0x00]
           ++ List.replicate 42 0x00 ++ [0x01]) = 0x89
    ∧ ¬ checksumOk (setConfigPacket sampleConfig) := by
  decide

theorem GetUUID_state (c : AuxMcu) (env : AuxEnv) :
    (GetUUID c env).2 = (sendCommand c env 'u'.toNat).2 := by
  unfold GetUUID
  split
  · next err c1 heq => rw [heq]
  · next c1 heq =>
    rw [heq]
    split <;> rfl

/-- C20: a newly created `AuxMcu` reports side KVM. `SwitchUSBToKVM`,
`SwitchUSBToRemote`, `PressPowerButton`, `ReleasePowerButton`,
`PressResetButton`, `ReleaseResetButton` and `GetUUID` each hand exactly one
byte to the port: `m`, `n`, `p`, `s`, `r`, `d`, `u`. After `SwitchUSBToRemote`
the side is Remote, after `SwitchUSBToKVM` it is KVM, and the power, reset and
UUID operations leave the side unchanged. -/
theorem C20_aux_mcu_commands (c : AuxMcu) (env : AuxEnv) :
    GetUSBMassStorageSide NewAuxOutbandController = .USB_MASS_STORAGE_KVM
    ∧ (SwitchUSBToKVM c env).2.written = c.written ++ [0x6D]
    ∧ (SwitchUSBToRemote c env).2.written = c.written ++ [0x6E]
    ∧ (PressPowerButton c env).2.written = c.written ++ [0x70]
    ∧ (ReleasePowerButton c env).2.written = c.written ++ [0x73]
    ∧ (PressResetButton c env).2.written = c.written ++ [0x72]
    ∧ (ReleaseResetButton c env).2.written = c.written ++ [0x64]
    ∧ (GetUUID c env).2.written = c.written ++ [0x75]
    ∧ GetUSBMassStorageSide (SwitchUSBToRemote c env).2 = .USB_MASS_STORAGE_REMOTE
    ∧ GetUSBMassStorageSide (SwitchUSBToKVM c env).2 = .USB_MASS_STORAGE_KVM
    ∧ GetUSBMassStorageSide (PressPowerButton c env).2 = GetUSBMassStorageSide c
    ∧ GetUSBMassStorageSide (ReleasePowerButton c env).2 = GetUSBMassStorageSide c
    ∧ GetUSBMassStorageSide (PressResetButton c env).2 = GetUSBMassStorageSide c
    ∧ GetUSBMassStorageSide (ReleaseResetButton c env).2 = GetUSBMassStorageSide c
    ∧ GetUSBMassStorageSide (GetUUID c env).2 = GetUSBMassStorageSide c
    ∧ ['m'.toNat, 'n'.toNat, 'p'.toNat, 's'.toNat, 'r'.toNat, 'd'.toNat, 'u'.toNat]
        = [0x6D, 0x6E, 0x70, 0x73, 0x72, 0x64, 0x75] := by
  refine ⟨rfl, rfl, rfl, rfl, rfl, rfl, rfl, ?_, rfl, rfl, rfl, rfl, rfl, rfl, ?_, by decide⟩
  · rw [GetUUID_state]; rfl
  · rw [GetUUID_state]; rfl

/-- With a length byte of at most 250 the slice bounds are in range. -/
theorem checkReply_no_crash (cmd : Nat) (reply : List Nat) (h : reply.getD 4 0 ≤ 250) :
    (checkReply cmd reply).1 ≠ some .crash := by
  unfold checkReply
  simp only
  have hhi : (5 + reply.getD 4 0) % 256 = 5 + reply.getD 4 0 := by omega
  split_ifs <;> first | (intro hc; cases hc; done) | (exfalso; omega)

/-- What the loop does with a whole frame of at most 250 payload bytes that
is followed by further bytes in the accumulator. -/
theorem checkReply_wireFrame_append (cmd addr r chk : Nat) (p extra : List Nat)
    (h2 : p.length ≤ 250) (h7 : 7 ≤ p.length + 6 + extra.length) :
    checkReply cmd (wireFrame addr r p chk ++ extra)
      = if frameChecksum addr r p = chk then
          if r = cmd ||| 0x80 then (some (.data p), wireFrame addr r p chk ++ extra)
          else if r = cmd ||| 0xC0 then
            (some (.fail .deviceError), wireFrame addr r p chk ++ extra)
          else (none, wireFrame addr r p chk ++ extra)
        else (some (.fail .checksumFailed), wireFrame addr r p chk ++ extra) := by
  have hhi : (5 + p.length) % 256 = 5 + p.length := by omega
  have hlen : (wireFrame addr r p chk ++ extra).length = 5 + p.length + 1 + extra.length := by
    simp [wireFrame]; omega
  have hshape : wireFrame addr r p chk ++ extra
      = ([0x57, 0xAB, addr, r, p.length] ++ p) ++ ([chk] ++ extra) := by
    simp [wireFrame]
  have hblen : ([0x57, 0xAB, addr, r, p.length] ++ p).length = 5 + p.length := by
    simp; omega
  have htake : (wireFrame addr r p chk ++ extra).take (5 + p.length)
      = [0x57, 0xAB, addr, r, p.length] ++ p := by
    rw [hshape, List.take_append_of_le_length (by rw [hblen]),
      List.take_of_length_le (by rw [hblen])]
  have hget : (wireFrame addr r p chk ++ extra).getD (5 + p.length) 0 = chk := by
    rw [hshape, List.getD_append_right _ _ _ _ (by rw [hblen]), hblen, Nat.sub_self]
    rfl
  have h0 : (wireFrame addr r p chk ++ extra).getD 0 0 = 0x57 := by simp [wireFrame]
  have hA : (wireFrame addr r p chk ++ extra).getD 1 0 = 0xAB := by simp [wireFrame]
  have h3 : (wireFrame addr r p chk ++ extra).getD 3 0 = r := by simp [wireFrame]
  have h4 : (wireFrame addr r p chk ++ extra).getD 4 0 = p.length := by simp [wireFrame]
  have hdrop : List.drop 5 ([0x57, 0xAB, addr, r, p.length] ++ p) = p := rfl
  unfold checkReply
  simp only [h0, hA, h3, h4, hhi, hlen, htake, hget, hdrop]
  have hge : 5 + p.length + 1 + extra.length ≥ 7 := by omega
  have hexp : 5 + p.length + 1 + extra.length ≥ 5 + p.length + 1 := by omega
  have hb : 5 ≤ 5 + p.length ∧ 5 + p.length < 5 + p.length + 1 + extra.length :=
    ⟨by omega, by omega⟩
  rw [if_pos hge, if_pos hexp, if_pos hb]
  simp only [and_self, if_true]
  rfl

theorem checkReply_snd (cmd : Nat) (reply : List Nat) :
    (checkReply cmd reply).2 = reply ∨ (checkReply cmd reply).2 = [] := by
  unfold checkReply
  simp only
  split_ifs <;> simp

theorem getD_le_of_forall (l : List Nat) (i : Nat) (h : ∀ b ∈ l, b ≤ 250) : l.getD i 0 ≤ 250 := by
  by_cases hi : i < l.length
  · rw [List.getD_eq_getElem _ _ hi]
    exact h _ (List.getElem_mem _)
  · rw [List.getD_eq_default _ _ (by omega)]
    omega

/-- While no byte above 250 arrives, `WaitForReply` ends with a payload or an
error. -/
theorem waitLoop_no_crash (cmd : Nat) (chunks : List (List Nat)) (acc : List Nat)
    (hacc : ∀ b ∈ acc, b ≤ 250) (hall : ∀ ch ∈ chunks, ∀ b ∈ ch, b ≤ 250) :
    (waitLoop cmd acc chunks).1 ≠ .crash := by
  induction chunks generalizing acc with
  | nil => intro h; cases h
  | cons d rest ih =>
    have hd : ∀ b ∈ acc ++ d, b ≤ 250 := by
      intro b hb
      rcases List.mem_append.mp hb with h | h
      · exact hacc b h
      · exact hall d (List.mem_cons_self _ _) b h
    have hnc := checkReply_no_crash cmd (acc ++ d) (getD_le_of_forall _ 4 hd)
    have hsnd := checkReply_snd cmd (acc ++ d)
    unfold waitLoop
    rcases hc : checkReply cmd (acc ++ d) with ⟨o, x⟩
    rw [hc] at hnc hsnd
    cases o with
    | some r =>
      intro h
      apply hnc
      simp only at h ⊢
      rw [h]
    | none =>
      refine ih x ?_ (fun ch hch => hall ch (List.mem_cons_of_mem _ hch))
      rcases hsnd with h | h
      · simp only at h; rw [h]; exact hd
      · simp only at h; rw [h]; intro b hb; cases hb

set_option maxRecDepth 100000 in
/-- C29 at a frame with length byte 255: on the 261-byte chunk
`57 AB 00 82 FF 00..00 83` (magic, reply byte `0x02|0x80`, 255 payload bytes,
correct checksum) `WaitForReply 0x02` ends in a run-time panic: the slice
`reply[5 : 5+dataLength]` has the upper bound `(5+255) mod 256 = 4`. -/
theorem C29_length_byte_255_panics :
    frameChecksum 0x00 0x82 (List.replicate 255 0) = 0x83
    ∧ (wireFrame 0x00 0x82 (List.replicate 255 0) 0x83).length = 261
    ∧ (5 + (wireFrame 0x00 0x82 (List.replicate 255 0) 0x83).getD 4 0) % 256 = 4
    ∧ (WaitForReply (runningController ⟨1⟩)
        ⟨true, [wireFrame 0x00 0x82 (List.replicate 255 0) 0x83], 0⟩ 0x02).1 = .crash := by
  decide

/-- A whole frame with a correct checksum and a reply byte that is neither
the success nor the error reply of `cmd` stays in the accumulator, whatever
follows it. -/
theorem checkReply_stale_frame (cmd addr r : Nat) (p extra : List Nat)
    (h2 : p.length ≤ 250) (hs : r ≠ cmd ||| 0x80) (he : r ≠ cmd ||| 0xC0) :
    checkReply cmd (wireFrame addr r p (frameChecksum addr r p) ++ extra)
      = (none, wireFrame addr r p (frameChecksum addr r p) ++ extra) := by
  by_cases h7 : 7 ≤ p.length + 6 + extra.length
  · rw [checkReply_wireFrame_append cmd addr r _ p extra h2 h7, if_pos rfl, if_neg hs, if_neg he]
  · exact checkReply_short cmd _ (by simp [wireFrame]; omega)

/-- With such a frame at the head of the accumulator the call can only time
out (length byte at most 250). -/
theorem waitLoop_stale_frame (cmd addr r : Nat) (p : List Nat)
    (h2 : p.length ≤ 250) (hs : r ≠ cmd ||| 0x80) (he : r ≠ cmd ||| 0xC0)
    (chunks : List (List Nat)) (extra : List Nat) :
    (waitLoop cmd (wireFrame addr r p (frameChecksum addr r p) ++ extra) chunks).1
      = .fail .replyTimeout := by
  induction chunks generalizing extra with
  | nil => rfl
  | cons d rest ih =>
    unfold waitLoop
    rw [List.append_assoc, checkReply_stale_frame cmd addr r p (extra ++ d) h2 hs he]
    exact ih (extra ++ d)

set_option maxRecDepth 100000 in
/-- C30 at a stale frame with length byte 251: with the late reply
`57 AB 00 84 FB 00..00 81` (magic, correct checksum, reply byte `0x84`, which
is neither `0x02|0x80` nor `0x02|0xC0`) at the head of the accumulator,
`WaitForReply 0x02` does not end with the timeout error but in a run-time
panic, with or without a valid success frame for `0x02` after it. -/
theorem C30_stale_frame_251_panics :
    frameChecksum 0x00 0x84 (List.replicate 251 0) = 0x81
    ∧ (WaitForReply (runningController ⟨1⟩)
        ⟨true, [wireFrame 0x00 0x84 (List.replicate 251 0) 0x81], 0⟩ 0x02).1 = .crash
    ∧ (WaitForReply (runningController ⟨1⟩)
        ⟨true, [wireFrame 0x00 0x84 (List.replicate 251 0) 0x81,
                [0x57, 0xAB, 0x00, 0x82, 0x01, 0x00, 0x85]], 0⟩ 0x02).1 = .crash := by
  decide

theorem groupOf_hubsUpdate (hubs : List (String × hubGroup)) (k h : String)
    (f : hubGroup → hubGroup) :
    groupOf (hubsUpdate hubs k f) h = if h = k then f (groupOf hubs k) else groupOf hubs h := by
  induction hubs with
  | nil =>
    by_cases hk : h = k
    · subst hk; simp [hubsUpdate, groupOf, hubsGet]
    · have : ¬ k = h := fun e => hk e.symm
      simp [hubsUpdate, groupOf, hubsGet, hk, this]
  | cons e rest ih =>
    obtain ⟨k1, g1⟩ := e
    unfold groupOf at ih ⊢
    by_cases h1 : k1 = k
    · subst h1
      by_cases hk : h = k1
      · subst hk; simp [hubsUpdate, hubsGet]
      · have : ¬ k1 = h := fun e => hk e.symm
        simp [hubsUpdate, hubsGet, hk, this]
    · by_cases hk : h = k
      · subst hk
        simp only [hubsUpdate, if_neg h1, hubsGet]
        simpa using ih
      · simp only [hubsUpdate, if_neg h1, hubsGet, if_neg hk] at ih ⊢
        by_cases h2 : k1 = h
        · simp [h2]
        · simp only [if_neg h2]; exact ih

theorem keys_hubsUpdate (hubs : List (String × hubGroup)) (k : String)
    (f : hubGroup → hubGroup) :
    (hubsUpdate hubs k f).map Prod.fst
      = if k ∈ hubs.map Prod.fst then hubs.map Prod.fst else hubs.map Prod.fst ++ [k] := by
  induction hubs with
  | nil => simp [hubsUpdate]
  | cons e rest ih =>
    obtain ⟨k1, g1⟩ := e
    by_cases h1 : k1 = k
    · subst h1; simp [hubsUpdate]
    · have : ¬ k = k1 := fun e => h1 e.symm
      simp only [hubsUpdate, if_neg h1, List.map_cons, ih, List.mem_cons, this, false_or]
      split <;> simp

theorem nodup_hubsUpdate (hubs : List (String × hubGroup)) (k : String)
    (f : hubGroup → hubGroup) (h : (hubs.map Prod.fst).Nodup) :
    ((hubsUpdate hubs k f).map Prod.fst).Nodup := by
  rw [keys_hubsUpdate]
  split
  · exact h
  · next hn =>
    rw [List.nodup_append]
    refine ⟨h, List.nodup_singleton k, ?_⟩
    intro a ha hb
    rw [List.mem_singleton] at hb
    subst hb
    exact hn ha

theorem nodup_hubsLoop (add : devInfo → hubGroup → hubGroup) (devs : List devInfo)
    (hubs : List (String × hubGroup)) (h : (hubs.map Prod.fst).Nodup) :
    ((hubsLoop add hubs devs).map Prod.fst).Nodup := by
  induction devs generalizing hubs with
  | nil => exact h
  | cons t rest ih =>
    unfold hubsLoop
    rw [List.foldl_cons]
    apply ih
    simp only
    split
    · exact nodup_hubsUpdate _ _ _ h
    · exact h

/-- The group of `h` after a loop: the bodies of the devices of hub `h`,
applied in input order. -/
theorem groupOf_hubsLoop (add : devInfo → hubGroup → hubGroup) (devs : List devInfo)
    (hubs : List (String × hubGroup)) (h : String) :
    groupOf (hubsLoop add hubs devs) h
      = (devs.filter (fun d => decide (getHub d.sysPath = h) && decide (h ≠ ""))).foldl
          (fun g t => add t g) (groupOf hubs h) := by
  induction devs generalizing hubs with
  | nil => rfl
  | cons t rest ih =>
    have hstep : hubsLoop add hubs (t :: rest)
        = hubsLoop add (if getHub t.sysPath ≠ "" then hubsUpdate hubs (getHub t.sysPath) (add t)
            else hubs) rest := rfl
    rw [hstep, ih, List.filter_cons]
    by_cases hne : getHub t.sysPath ≠ ""
    · rw [if_pos hne, groupOf_hubsUpdate]
      by_cases hh : h = getHub t.sysPath
      · subst hh
        simp [hne]
      · have : ¬ getHub t.sysPath = h := fun e => hh e.symm
        simp [hh, this]
    · rw [if_neg hne]
      have he : getHub t.sysPath = "" := by simpa using hne
      by_cases hh : h = ""
      · subst hh; simp
      · have : ¬ getHub t.sysPath = h := by rw [he]; exact fun e => hh e.symm
        simp [this]

theorem foldl_addTty (l : List devInfo) (g : hubGroup) :
    l.foldl (fun g t => addTty t g) g
      = { ttys := g.ttys ++ ((l.map (fun d => d.path)).filter (fun p => !isAcm p))
          acms := g.acms ++ ((l.map (fun d => d.path)).filter (fun p => isAcm p))
          videos := g.videos
          alsas := g.alsas } := by
  induction l generalizing g with
  | nil => simp
  | cons t rest ih =>
    rw [List.foldl_cons, ih]
    unfold addTty
    by_cases hacm : isAcm t.path = true
    · simp [hacm]
    · simp [hacm]

theorem foldl_addVideo (l : List devInfo) (g : hubGroup) :
    l.foldl (fun g t => addVideo t g) g
      = { g with videos := g.videos ++ l.map (fun d => d.path) } := by
  induction l generalizing g with
  | nil => simp
  | cons t rest ih =>
    rw [List.foldl_cons, ih]
    simp [addVideo]

theorem foldl_addAlsa (l : List devInfo) (g : hubGroup) :
    l.foldl (fun g t => addAlsa t g) g
      = { g with alsas := g.alsas ++ l.map (fun d => d.path) } := by
  induction l generalizing g with
  | nil => simp
  | cons t rest ih =>
    rw [List.foldl_cons, ih]
    simp [addAlsa]

/-- The group of a hub prefix after the three loops. -/
theorem groupOf_buildHubs (ttys videos alsas : List devInfo) (h : String) :
    groupOf (buildHubs ttys videos alsas) h
      = { ttys := (devicesOfHub h ttys).filter (fun p => !isAcm p)
          acms := (devicesOfHub h ttys).filter (fun p => isAcm p)
          videos := devicesOfHub h videos
          alsas := devicesOfHub h alsas } := by
  unfold buildHubs
  rw [groupOf_hubsLoop, groupOf_hubsLoop, groupOf_hubsLoop, foldl_addTty, foldl_addVideo,
    foldl_addAlsa]
  simp [groupOf, hubsGet, hubGroup.empty, devicesOfHub]

theorem nodup_buildHubs (ttys videos alsas : List devInfo) :
    ((buildHubs ttys videos alsas).map Prod.fst).Nodup := by
  unfold buildHubs
  exact nodup_hubsLoop _ _ _ (nodup_hubsLoop _ _ _ (nodup_hubsLoop _ _ _ List.nodup_nil))

/-- In a map without repeated keys, the entries of key `h` are the value of
`hubs[h]`, if any. -/
theorem filter_key_eq (hubs : List (String × hubGroup)) (h : String)
    (hn : (hubs.map Prod.fst).Nodup) :
    hubs.filter (fun kg => decide (kg.1 = h))
      = match hubsGet hubs h with
        | some g => [(h, g)]
        | none => [] := by
  induction hubs with
  | nil => rfl
  | cons e rest ih =>
    obtain ⟨k, g⟩ := e
    rw [List.map_cons, List.nodup_cons] at hn
    obtain ⟨hk, hrest⟩ := hn
    by_cases hkh : k = h
    · subst hkh
      have hnone : rest.filter (fun kg => decide (kg.1 = k)) = [] := by
        rw [List.filter_eq_nil_iff]
        intro kg hmem hdec
        have hkg : kg.1 = k := by simpa using hdec
        have hm : kg.1 ∈ rest.map Prod.fst := List.mem_map_of_mem Prod.fst hmem
        rw [hkg] at hm
        exact hk hm
      simp [List.filter_cons, hubsGet, hnone]
    · simp only [List.filter_cons, hubsGet, hkh, decide_False, if_false, Bool.false_eq_true]
      exact ih hrest

theorem first_or_empty (l : List String) :
    (if l.length > 0 then l.getD 0 "" else "") = l.head?.getD "" := by
  cases l <;> simp

theorem filter_split_ne_nil (l : List String) (p : String → Bool) :
    (((l.filter (fun x => !p x)).length > 0 || (l.filter (fun x => p x)).length > 0) = true)
      ↔ l ≠ [] := by
  induction l with
  | nil => simp
  | cons a t _ =>
    cases hp : p a <;> simp [List.filter_cons, hp]

theorem toDevice_spec (h : String) (ttys videos alsas : List devInfo) :
    (groupOf (buildHubs ttys videos alsas) h).toDevice = specCandidate h ttys videos alsas := by
  rw [groupOf_buildHubs]
  unfold hubGroup.toDevice specCandidate
  simp only [first_or_empty]

theorem qualifies_spec (h : String) (ttys videos alsas : List devInfo) :
    (groupOf (buildHubs ttys videos alsas) h).qualifies = true
      ↔ (devicesOfHub h ttys ≠ [] ∧ devicesOfHub h videos ≠ []) := by
  rw [groupOf_buildHubs]
  unfold hubGroup.qualifies
  simp only [Bool.and_eq_true, filter_split_ne_nil, decide_eq_true_eq]
  have : (devicesOfHub h videos).length > 0 ↔ devicesOfHub h videos ≠ [] := List.length_pos
  rw [this]

/-- The candidates of one hub prefix, for the map visited in insertion order. -/
theorem candidates_of_key (ttys videos alsas : List devInfo) (h : String) :
    ((buildHubs ttys videos alsas).filter (fun kg => decide (kg.1 = h))).filterMap
        (fun kg => if kg.2.qualifies then some (kg.1, kg.2.toDevice) else none)
      = if devicesOfHub h ttys ≠ [] ∧ devicesOfHub h videos ≠ [] then
          [(h, specCandidate h ttys videos alsas)]
        else [] := by
  rw [filter_key_eq _ h (nodup_buildHubs ttys videos alsas)]
  have hq := qualifies_spec h ttys videos alsas
  have hd := toDevice_spec h ttys videos alsas
  unfold groupOf at hq hd
  cases hg : hubsGet (buildHubs ttys videos alsas) h with
  | none =>
    rw [hg] at hq
    have : ¬ (devicesOfHub h ttys ≠ [] ∧ devicesOfHub h videos ≠ []) := by
      rw [← hq]
      decide
    rw [if_neg this]
    rfl
  | some g =>
    rw [hg] at hq hd
    simp only [Option.getD_some] at hq hd
    by_cases hqual : g.qualifies = true
    · rw [if_pos (hq.mp hqual)]
      simp [hqual, hd]
    · rw [if_neg (fun hc => hqual (hq.mpr hc))]
      simp [hqual]

theorem filter_filterMap_key (l : List (String × hubGroup)) (h : String) :
    (l.filterMap (fun kg => if kg.2.qualifies then some (kg.1, kg.2.toDevice) else none)).filter
        (fun kd => decide (kd.1 = h))
      = (l.filter (fun kg => decide (kg.1 = h))).filterMap
          (fun kg => if kg.2.qualifies then some (kg.1, kg.2.toDevice) else none) := by
  induction l with
  | nil => rfl
  | cons e rest ih =>
    obtain ⟨k, g⟩ := e
    by_cases hq : g.qualifies = true <;> by_cases hk : k = h <;>
      simp [List.filterMap_cons, List.filter_cons, hq, hk, ih]

theorem perm_filter_key_eq (l m : List (String × hubGroup)) (h : String)
    (hp : l.Perm m) (hn : (m.map Prod.fst).Nodup) :
    l.filter (fun kg => decide (kg.1 = h)) = m.filter (fun kg => decide (kg.1 = h)) := by
  have hperm := hp.filter (fun kg => decide (kg.1 = h))
  rw [filter_key_eq m h hn] at hperm ⊢
  cases hg : hubsGet m h with
  | none =>
    rw [hg] at hperm
    exact List.perm_nil.mp hperm
  | some g =>
    rw [hg] at hperm
    exact List.perm_singleton.mp hperm

/-- The candidates of one hub prefix, whatever the order of the map. -/
theorem discoverCandidates_of_key (iter : List (String × hubGroup) → List (String × hubGroup))
    (hiter : ∀ m, (iter m).Perm m) (ttys videos alsas : List devInfo) (h : String) :
    (discoverCandidates iter ttys videos alsas).filter (fun kd => decide (kd.1 = h))
      = (if devicesOfHub h ttys ≠ [] ∧ devicesOfHub h videos ≠ [] then
          [(h, specCandidate h ttys videos alsas)]
        else []) := by
  unfold discoverCandidates
  rw [filter_filterMap_key,
    perm_filter_key_eq _ _ h (hiter _) (nodup_buildHubs ttys videos alsas)]
  exact candidates_of_key ttys videos alsas h

/-- C21: for the resolved device lists and whatever order the map of hubs is
visited in, `DiscoverUsbKvmSubtree` yields for every hub prefix `h` exactly
one candidate when `h` has at least one tty device and at least one video
device, and none otherwise. In the candidate, `USBKVMDevicePath` is the first
tty path of `h` not containing "ACM" (empty if none), `AuxMCUDevicePath` the
first tty path containing "ACM" (empty if none), and `CaptureDevicePaths`,
`AlsaDevicePaths` are all video and audio paths of `h` in input order. The
UUID lookup that follows changes no other field. -/
theorem C21_discovery_candidates (iter : List (String × hubGroup) → List (String × hubGroup))
    (hiter : ∀ m, (iter m).Perm m) (readUUID : String → Option String)
    (ttys videos alsas : List devInfo) (h : String) :
    (discoverCandidates iter ttys videos alsas).filter (fun kd => decide (kd.1 = h))
        = (if devicesOfHub h ttys ≠ [] ∧ devicesOfHub h videos ≠ [] then
            [(h, specCandidate h ttys videos alsas)]
          else [])
    ∧ DiscoverUsbKvmSubtree iter readUUID ttys videos alsas
        = (if (discoverCandidates iter ttys videos alsas).length = 0 then none
          else some ((discoverCandidates iter ttys videos alsas).map
            (fun kd => populateUsbKvmUUID readUUID kd.2)))
    ∧ (∀ d : UsbKvmDevice,
        { populateUsbKvmUUID readUUID d with UUID := d.UUID } = d) := by
  refine ⟨discoverCandidates_of_key iter hiter ttys videos alsas h, ?_, ?_⟩
  · unfold DiscoverUsbKvmSubtree
    simp only [List.length_map]
  · intro d
    unfold populateUsbKvmUUID
    split
    · rfl
    · split <;> rfl

/-- C21 on the dongle at 1-2.3 together with a lone video node under 2-1:
the hub prefix `.../usb1/1-2` has exactly the candidate made of the three
device nodes of the dongle. -/
theorem C21_discovery_candidates_witness :
    (discoverCandidates id sampleTtysA (sampleVideosA ++ sampleVideosC) sampleAlsasA).filter
        (fun kd => decide (kd.1 = "/sys/devices/pci0000:00/0000:00:14.0/usb1/1-2"))
      = [("/sys/devices/pci0000:00/0000:00:14.0/usb1/1-2",
          { UUID := ""
            USBKVMDevicePath := "/dev/ttyUSB0"
            AuxMCUDevicePath := "/dev/ttyACM0"
            CaptureDevicePaths := ["/dev/video0"]
            AlsaDevicePaths := ["/dev/snd/pcmC1D0c"] })] := by
  rw [(C21_discovery_candidates id (fun m => List.Perm.refl m) (fun _ => none)
    sampleTtysA (sampleVideosA ++ sampleVideosC) sampleAlsasA
    "/sys/devices/pci0000:00/0000:00:14.0/usb1/1-2").1]
  decide

theorem mem_devicesOfHub (h p : String) (devs : List devInfo) (hp : p ∈ devicesOfHub h devs) :
    ∃ d ∈ devs, d.path = p ∧ getHub d.sysPath = h := by
  unfold devicesOfHub at hp
  rw [List.mem_map] at hp
  obtain ⟨d, hd, hpath⟩ := hp
  rw [List.mem_filter] at hd
  refine ⟨d, hd.1, hpath, ?_⟩
  have := hd.2
  simp only [Bool.and_eq_true, decide_eq_true_eq] at this
  exact this.1

theorem head_getD_mem (l : List String) (h : l.head?.getD "" ≠ "") : l.head?.getD "" ∈ l := by
  cases l with
  | nil => exact absurd rfl h
  | cons a t => simp

/-- C22 (amended): discovery groups devices by hub prefix, the sysfs path up
to the first port segment. Every candidate is made of devices of one hub
prefix only: its tty, Aux MCU, video and audio paths all belong to devices
whose hub prefix is the one of the candidate, so devices with different hub
prefixes (first port segments, such as 1-2 and 2-1) are never merged. -/
theorem C22_groups_by_first_port_segment
    (iter : List (String × hubGroup) → List (String × hubGroup))
    (hiter : ∀ m, (iter m).Perm m) (ttys videos alsas : List devInfo)
    (k : String) (d : UsbKvmDevice)
    (hmem : (k, d) ∈ discoverCandidates iter ttys videos alsas) :
    d = specCandidate k ttys videos alsas
    ∧ (d.USBKVMDevicePath ≠ "" →
        ∃ t ∈ ttys, t.path = d.USBKVMDevicePath ∧ getHub t.sysPath = k)
    ∧ (d.AuxMCUDevicePath ≠ "" →
        ∃ t ∈ ttys, t.path = d.AuxMCUDevicePath ∧ getHub t.sysPath = k)
    ∧ (∀ p ∈ d.CaptureDevicePaths, ∃ v ∈ videos, v.path = p ∧ getHub v.sysPath = k)
    ∧ (∀ p ∈ d.AlsaDevicePaths, ∃ a ∈ alsas, a.path = p ∧ getHub a.sysPath = k) := by
  have hf : (k, d) ∈ (discoverCandidates iter ttys videos alsas).filter
      (fun kd => decide (kd.1 = k)) := by
    rw [List.mem_filter]
    exact ⟨hmem, by simp⟩
  rw [discoverCandidates_of_key iter hiter] at hf
  have hd : d = specCandidate k ttys videos alsas := by
    split at hf
    · rw [List.mem_singleton] at hf
      exact (Prod.mk.inj hf).2
    · cases hf
  subst hd
  refine ⟨rfl, fun h => ?_, fun h => ?_, fun p hp => ?_, fun p hp => ?_⟩
  · have hm := head_getD_mem _ h
    exact mem_devicesOfHub k _ ttys (List.mem_filter.mp hm).1
  · have hm := head_getD_mem _ h
    exact mem_devicesOfHub k _ ttys (List.mem_filter.mp hm).1
  · exact mem_devicesOfHub k p videos hp
  · exact mem_devicesOfHub k p alsas hp

/-- C22 (amended) on the dongle at 1-2.3 and the dongle at 2-1: discovery
yields two candidates, one per hub prefix, and the candidate of `.../usb1/1-2`
holds no device of the other. -/
theorem C22_groups_by_first_port_segment_witness :
    discoverCandidates id (sampleTtysA ++ sampleTtysC) (sampleVideosA ++ sampleVideosC)
        sampleAlsasA
      = [("/sys/devices/pci0000:00/0000:00:14.0/usb1/1-2",
          { UUID := ""
            USBKVMDevicePath := "/dev/ttyUSB0"
            AuxMCUDevicePath := "/dev/ttyACM0"
            CaptureDevicePaths := ["/dev/video0"]
            AlsaDevicePaths := ["/dev/snd/pcmC1D0c"] }),
         ("/sys/devices/pci0000:00/0000:00:14.0/usb2/2-1",
          { UUID := ""
            USBKVMDevicePath := "/dev/ttyUSB2"
            AuxMCUDevicePath := "/dev/ttyACM2"
            CaptureDevicePaths := ["/dev/video4"]
            AlsaDevicePaths := [] })]
    ∧ ({ UUID := ""
         USBKVMDevicePath := "/dev/ttyUSB0"
         AuxMCUDevicePath := "/dev/ttyACM0"
         CaptureDevicePaths := ["/dev/video0"]
         AlsaDevicePaths := ["/dev/snd/pcmC1D0c"] } : UsbKvmDevice)
        = specCandidate "/sys/devices/pci0000:00/0000:00:14.0/usb1/1-2"
            (sampleTtysA ++ sampleTtysC) (sampleVideosA ++ sampleVideosC) sampleAlsasA := by
  refine ⟨by decide, ?_⟩
  exact (C22_groups_by_first_port_segment id (fun m => List.Perm.refl m)
    (sampleTtysA ++ sampleTtysC) (sampleVideosA ++ sampleVideosC) sampleAlsasA
    "/sys/devices/pci0000:00/0000:00:14.0/usb1/1-2" _ (by decide)).1

/-- C22 as stated fails: the dongle at 1-2.3 and the dongle at 1-2.4, both
reached through the upstream segment 1-2, have the same hub prefix
`.../usb1/1-2`, and discovery merges them into one candidate that holds the
video nodes of both. -/
theorem C22_counterexample_same_upstream_hub :
    getHub "/sys/devices/pci0000:00/0000:00:14.0/usb1/1-2/1-2.3/1-2.3.1/1-2.3.1:1.0/ttyUSB0/tty/ttyUSB0"
        = "/sys/devices/pci0000:00/0000:00:14.0/usb1/1-2"
    ∧ getHub "/sys/devices/pci0000:00/0000:00:14.0/usb1/1-2/1-2.4/1-2.4.1/1-2.4.1:1.0/ttyUSB1/tty/ttyUSB1"
        = "/sys/devices/pci0000:00/0000:00:14.0/usb1/1-2"
    ∧ DiscoverUsbKvmSubtree id (fun _ => none) (sampleTtysA ++ sampleTtysB)
        (sampleVideosA ++ sampleVideosB) sampleAlsasA
      = some [{ UUID := ""
                USBKVMDevicePath := "/dev/ttyUSB0"
                AuxMCUDevicePath := "/dev/ttyACM0"
                CaptureDevicePaths := ["/dev/video0", "/dev/video2"]
                AlsaDevicePaths := ["/dev/snd/pcmC1D0c"] }] := by
  decide

theorem foldl_video_path (isCaptureCard : String → Bool) (paths : List String)
    (o : UsbKvmDeviceOption) :
    (paths.foldl (fun option videoPath =>
        if isCaptureCard videoPath then { option with VideoCaptureDevicePath := videoPath }
        else option) o)
      = { o with VideoCaptureDevicePath :=
            ((paths.filter isCaptureCard).getLast?).getD o.VideoCaptureDevicePath } := by
  induction paths generalizing o with
  | nil => rfl
  | cons p rest ih =>
    rw [List.foldl_cons, ih]
    by_cases hp : isCaptureCard p = true
    · simp only [hp, if_true, List.filter_cons]
      cases hr : rest.filter isCaptureCard with
      | nil => simp
      | cons a t =>
        simp [List.getLast?_eq_getLast _ (List.cons_ne_nil a t)]
    · simp [hp, List.filter_cons]

/-- What the scan picks: the LAST video path that passes the probe, and the
first audio path. -/
theorem scanOption_paths (isCaptureCard : String → Bool) (dev : UsbKvmDevice) :
    (scanOption isCaptureCard dev).VideoCaptureDevicePath
        = ((dev.CaptureDevicePaths.filter isCaptureCard).getLast?).getD ""
    ∧ (scanOption isCaptureCard dev).AudioCaptureDevicePath
        = (dev.AlsaDevicePaths.head?).getD "" := by
  unfold scanOption
  simp only [foldl_video_path]
  cases h : dev.AlsaDevicePaths <;> simp

/-- C23 at a group whose two video paths both pass the capture-card probe:
`ScanConnectedUsbKvmDevices` sets `VideoCaptureDevicePath` to `/dev/video2`,
the last passing path, while the first element of `CaptureDevicePaths` that
passes the probe is `/dev/video0`. The audio path is the first one. -/
theorem C23_scan_takes_last_video_path :
    ScanConnectedUsbKvmDevices (fun _ => true) (some [sampleGroupTwoVideos])
      = some [{ USBKVMDevicePath := "/dev/ttyUSB0"
                AuxMCUDevicePath := "/dev/ttyACM0"
                VideoCaptureDevicePath := "/dev/video2"
                AudioCaptureDevicePath := "/dev/snd/pcmC1D0c"
                CaptureVideoResolutionWidth := 0
                CaptureeVideoResolutionHeight := 0
                CaptureeVideoFPS := 0
                CaptureAudioSampleRate := 0
                CaptureAudioChannels := 0
                CaptureAudioBytesPerSample := 0
                CaptureAudioFrameSize := 0
                USBKVMBaudrate := 0
                AuxMCUBaudrate := 0 }]
    ∧ (sampleGroupTwoVideos.CaptureDevicePaths.filter (fun _ => true)).head? = some "/dev/video0" := by
  decide

/-- With an Aux MCU path configured and both ports open, a failed `GetUUID`
makes `Start` return that error: the UUID is left as it was and the capture
device is not started. -/
theorem Start_getUUID_failure (i : UsbKvmDeviceInstance) (env : StartEnv) (err : AuxError)
    (hpath : i.Config.USBKVMDevicePath ≠ "") (haux : i.Config.AuxMCUDevicePath ≠ "")
    (hhid : env.hidOpens = true) (hopen : env.auxOpens = true)
    (hfail : (GetUUID NewAuxOutbandController env.aux).1 = .error err) :
    (i.Start env).1 = some (.getUUIDFailed err)
    ∧ (i.Start env).2.uuid = i.uuid
    ∧ (i.Start env).2.usbCaptureDevice = i.usbCaptureDevice := by
  unfold UsbKvmDeviceInstance.Start UsbKvmDeviceInstance.startAux
  simp only [if_neg hpath, hhid, hopen, if_true]
  have haux2 : ∀ j : UsbKvmDeviceInstance, j.Config.AuxMCUDevicePath = i.Config.AuxMCUDevicePath →
      j.defaultAuxMCUBaudrate.Config.AuxMCUDevicePath = i.Config.AuxMCUDevicePath := by
    intro j hj
    unfold UsbKvmDeviceInstance.defaultAuxMCUBaudrate
    split <;> simpa using hj
  have hb : i.defaultUSBKVMBaudrate.Config.AuxMCUDevicePath = i.Config.AuxMCUDevicePath
      ∧ i.defaultUSBKVMBaudrate.uuid = i.uuid
      ∧ i.defaultUSBKVMBaudrate.usbCaptureDevice = i.usbCaptureDevice := by
    unfold UsbKvmDeviceInstance.defaultUSBKVMBaudrate
    split <;> simp
  rw [if_pos (by simpa [hb.1] using haux)]
  rcases hg : GetUUID NewAuxOutbandController env.aux with ⟨r, auxMCU⟩
  rw [hg] at hfail
  simp only at hfail
  subst hfail
  simp only
  unfold UsbKvmDeviceInstance.defaultAuxMCUBaudrate
  split <;> simp [hb.2.1, hb.2.2]

/-- When the Aux MCU answers, the instance UUID is the trimmed line it sent,
whatever happens to the capture device afterwards. -/
theorem Start_uuid_from_mcu (i : UsbKvmDeviceInstance) (env : StartEnv) (line : String)
    (hpath : i.Config.USBKVMDevicePath ≠ "") (haux : i.Config.AuxMCUDevicePath ≠ "")
    (hhid : env.hidOpens = true) (hopen : env.auxOpens = true)
    (hw : env.aux.writeOk = true) (hline : env.aux.line = some line) :
    (i.Start env).2.uuid = trimSpace line := by
  unfold UsbKvmDeviceInstance.Start UsbKvmDeviceInstance.startAux
  simp only [if_neg hpath, hhid, hopen, if_true]
  have hb : i.defaultUSBKVMBaudrate.Config.AuxMCUDevicePath = i.Config.AuxMCUDevicePath := by
    unfold UsbKvmDeviceInstance.defaultUSBKVMBaudrate
    split <;> simp
  rw [if_pos (by simpa [hb] using haux)]
  have hg : GetUUID NewAuxOutbandController env.aux
      = (.ok (trimSpace line), { NewAuxOutbandController with written := [117] }) := by
    simp [GetUUID, sendCommand, hw, hline, NewAuxOutbandController]
  rw [hg]
  simp only
  unfold UsbKvmDeviceInstance.startCapture
  split
  · split <;> rfl
  · rfl

/-- Without an Aux MCU path the instance UUID is the string generated by
`uuid.NewRandom`, whatever happens to the capture device afterwards. -/
theorem Start_uuid_generated (i : UsbKvmDeviceInstance) (env : StartEnv) (u : String)
    (hpath : i.Config.USBKVMDevicePath ≠ "") (haux : i.Config.AuxMCUDevicePath = "")
    (hhid : env.hidOpens = true) (hrand : env.newRandom = some u) :
    (i.Start env).2.uuid = u ∧ (i.Start env).2.auxMCUController = i.auxMCUController := by
  unfold UsbKvmDeviceInstance.Start UsbKvmDeviceInstance.startAux
  simp only [if_neg hpath, hhid, if_true]
  have hb : i.defaultUSBKVMBaudrate.Config.AuxMCUDevicePath = i.Config.AuxMCUDevicePath
      ∧ i.defaultUSBKVMBaudrate.auxMCUController = i.auxMCUController := by
    unfold UsbKvmDeviceInstance.defaultUSBKVMBaudrate
    split <;> simp
  rw [if_neg (by simp [hb.1, haux]), hrand]
  simp only
  unfold UsbKvmDeviceInstance.startCapture
  split
  · split <;> simp [hb.2]
  · simp [hb.2]

/-- C24 at an instance with an Aux MCU path whose HID and Aux ports open but
whose UUID read fails: `Start` (through `StartAllUsbKvmDevices`) returns the
read error instead of continuing with a generated v4 UUID; the UUID stays
empty and the capture device is not started. -/
theorem C24_start_fails_when_uuid_read_fails :
    (StartAllUsbKvmDevices sampleRegistry (fun _ => envUuidReadFails)).1
        = some (.getUUIDFailed .readFailed)
    ∧ (StartAllUsbKvmDevices sampleRegistry (fun _ => envUuidReadFails)).2.UsbKvmInstance.map
        (fun i => (i.uuid, i.usbCaptureDevice)) = [("", none)]
    ∧ envUuidReadFails.newRandom = some "5b0c7e0e-6f0a-4c58-9d0b-0d6a4f7f3a11" := by
  decide

theorem listLoop_eq (insts : List UsbKvmDeviceInstance) (acc : List InstanceEntry) :
    listLoop insts acc
      = if insts.all (fun i => (listEntry i).isSome) then
          .entries (acc ++ insts.filterMap listEntry)
        else .nilDereference := by
  induction insts generalizing acc with
  | nil => simp [listLoop]
  | cons inst rest ih =>
    cases h : listEntry inst with
    | none => simp [listLoop, h]
    | some e => simp [listLoop, h, ih, List.filterMap_cons]

/-- The list handler answers exactly when every instance has both a capture
device and an Aux MCU controller; it then gives one entry per instance, in
list order. Otherwise it dereferences nil. -/
theorem HandleListInstances_eq (d : DezukVM) :
    HandleListInstances d
      = if d.UsbKvmInstance.all
            (fun i => i.usbCaptureDevice.isSome && i.auxMCUController.isSome) then
          .entries (d.UsbKvmInstance.filterMap listEntry)
        else .nilDereference := by
  have hs : ∀ i : UsbKvmDeviceInstance,
      (listEntry i).isSome = (i.usbCaptureDevice.isSome && i.auxMCUController.isSome) := by
    intro i
    unfold listEntry
    cases i.usbCaptureDevice <;> cases i.auxMCUController <;> rfl
  unfold HandleListInstances
  rw [listLoop_eq]
  simp [hs]

/-- C27 at three reachable registry states: an instance added but not yet
started, an instance started and then stopped, and a started instance with no
Aux MCU path configured. In each of them `HandleListInstances` dereferences a
nil capture device or a nil Aux MCU controller instead of producing an entry.
Only a started instance with an Aux MCU gives an entry. -/
theorem C27_list_dereferences_nil :
    HandleListInstances sampleRegistry = .nilDereference
    ∧ (StartAllUsbKvmDevices sampleRegistry (fun _ => envAllGood)).1 = none
    ∧ HandleListInstances
        (StopAllUsbKvmDevices (StartAllUsbKvmDevices sampleRegistry (fun _ => envAllGood)).2)
        = .nilDereference
    ∧ (StartAllUsbKvmDevices sampleRegistryNoAux (fun _ => envAllGood)).1 = none
    ∧ HandleListInstances (StartAllUsbKvmDevices sampleRegistryNoAux (fun _ => envAllGood)).2
        = .nilDereference
    ∧ HandleListInstances (StartAllUsbKvmDevices sampleRegistry (fun _ => envAllGood)).2
        = .entries
            [{ uuid := "dezukvm-0001"
               video_capture_dev := "/dev/video0"
               audio_capture_dev := "/dev/snd/pcmC1D0c"
               video_resolution_width := 1920
               video_resolution_height := 1080
               video_framerate := 25
               audio_sample_rate := 48000
               audio_channels := 2
               stream_info := "MJPG 1920x1080"
               usb_kvm_device := "/dev/ttyUSB0"
               aux_mcu_device := "/dev/ttyACM0"
               usb_mass_storage_side := .USB_MASS_STORAGE_KVM }] := by
  decide

theorem downsampleLoop_spec (k : Nat) (buf : List Nat) (n m : Nat)
    (hlen : buf.length = 4 * n) (hm : ∀ j, j < m ↔ k * j < n) :
    ∀ (d j fuel : Nat) (out : List Nat), j + d = m → d + 1 ≤ fuel →
      downsampleLoop (4 * k) buf fuel (4 * k * j) out
        = some (out ++ ((List.range' j d).map (fun t => frameAt buf (k * t))).flatten) := by
  intro d
  induction d with
  | zero =>
    intro j fuel out hj hf
    obtain ⟨f, rfl⟩ : ∃ f, fuel = f + 1 := ⟨fuel - 1, by omega⟩
    have hnot : ¬ k * j < n := by
      intro h
      have := (hm j).2 h
      omega
    have hi : ¬ 4 * k * j < buf.length := by
      rw [hlen, Nat.mul_assoc]
      omega
    simp [downsampleLoop, hi]
  | succ d ih =>
    intro j fuel out hj hf
    obtain ⟨f, rfl⟩ : ∃ f, fuel = f + 1 := ⟨fuel - 1, by omega⟩
    have hlt : k * j < n := (hm j).1 (by omega)
    have hi : 4 * k * j < buf.length := by
      rw [hlen, Nat.mul_assoc]
      omega
    have hi4 : 4 * k * j + 4 ≤ buf.length := by
      rw [hlen, Nat.mul_assoc]
      omega
    have hnext : 4 * k * j + 4 * k = 4 * k * (j + 1) := by ring
    have hframe : (buf.take (4 * k * j + 4)).drop (4 * k * j) = frameAt buf (k * j) := by
      unfold frameAt
      rw [List.drop_take, Nat.mul_assoc]
      congr 1
      omega
    unfold downsampleLoop
    rw [if_pos hi, if_pos hi4, hnext, hframe, ih (j + 1) f _ (by omega) (by omega)]
    simp [List.range'_succ, List.append_assoc]

theorem frameAt_take (b : List Nat) (n t : Nat) (h : t < n) :
    frameAt (b.take (4 * n)) t = frameAt b t := by
  unfold frameAt
  rw [List.drop_take, List.take_take]
  congr 1
  omega

theorem trimIncompleteFrame_eq (b : List Nat) :
    trimIncompleteFrame b = b.take (4 * (b.length / 4)) := by
  unfold trimIncompleteFrame
  split
  · congr 1
    omega
  · rw [List.take_of_length_le]
    omega

theorem downsample_everyKth (k : Nat) (hk : 0 < k) (b : List Nat) :
    downsampleLoop (4 * k) (trimIncompleteFrame b) ((trimIncompleteFrame b).length + 1) 0 []
      = some (everyKthFrame k b) := by
  have hlen : (trimIncompleteFrame b).length = 4 * (b.length / 4) := by
    rw [trimIncompleteFrame_eq, List.length_take]
    omega
  have hm : ∀ j, j < (b.length / 4 + k - 1) / k ↔ k * j < b.length / 4 := by
    intro j
    have key : j + 1 ≤ (b.length / 4 + k - 1) / k ↔ (j + 1) * k ≤ b.length / 4 + k - 1 :=
      Nat.le_div_iff_mul_le hk
    rw [Nat.add_mul, Nat.one_mul, Nat.mul_comm j k] at key
    constructor
    · intro h
      have := key.1 h
      omega
    · intro h
      have := key.2 (by omega)
      omega
  have hbound : (b.length / 4 + k - 1) / k ≤ b.length / 4 := by
    by_contra hc
    have := (hm (b.length / 4)).1 (by omega)
    have h2 : b.length / 4 ≤ k * (b.length / 4) := Nat.le_mul_of_pos_left _ hk
    omega
  have h := downsampleLoop_spec k (trimIncompleteFrame b) (b.length / 4)
    ((b.length / 4 + k - 1) / k) hlen hm ((b.length / 4 + k - 1) / k) 0
    ((trimIncompleteFrame b).length + 1) [] (by omega) (by omega)
  rw [Nat.mul_zero] at h
  rw [h, List.nil_append]
  unfold everyKthFrame
  rw [List.range_eq_range']
  congr 2
  apply List.map_congr_left
  intro t ht
  rw [trimIncompleteFrame_eq]
  apply frameAt_take
  have ht2 : t < (b.length / 4 + k - 1) / k := by
    simpa [List.mem_range'] using ht
  have := (hm t).1 ht2
  have h3 : t ≤ k * t := Nat.le_mul_of_pos_left _ hk
  omega

theorem frameAt_length (b : List Nat) (t : Nat) (h : t < b.length / 4) :
    (frameAt b t).length = 4 := by
  unfold frameAt
  rw [List.length_take, List.length_drop]
  omega

theorem flatten_frames_length (F : Nat → List Nat) (m : Nat)
    (h : ∀ j, j < m → (F j).length = 4) :
    (((List.range m).map F).flatten).length = 4 * m := by
  induction m with
  | zero => simp
  | succ m ih =>
    rw [List.range_succ, List.map_append, List.flatten_append, List.length_append,
      ih (fun j hj => h j (by omega))]
    simp [h m (by omega)]
    omega

theorem frameAt_flatten_frames (F : Nat → List Nat) (m : Nat)
    (h : ∀ j, j < m → (F j).length = 4) :
    ∀ i, i < m → frameAt (((List.range m).map F).flatten) i = F i := by
  induction m with
  | zero => intro i hi; omega
  | succ m ih =>
    intro i hi
    have hlen := flatten_frames_length F m (fun j hj => h j (by omega))
    rw [List.range_succ, List.map_append, List.flatten_append]
    simp only [List.map_cons, List.map_nil, List.flatten_cons, List.flatten_nil, List.append_nil]
    by_cases him : i < m
    · have := ih (fun j hj => h j (by omega)) i him
      unfold frameAt at this ⊢
      rw [List.drop_append_of_le_length (by omega), List.take_append_of_le_length, this]
      rw [List.length_drop]
      omega
    · have hi2 : i = m := by omega
      subst hi2
      unfold frameAt
      rw [List.drop_append_of_le_length (by omega), List.drop_of_length_le (by omega),
        List.nil_append, List.take_of_length_le]
      rw [h i (by omega)]

theorem everyKthFrame_count (k : Nat) (hk : 0 < k) (b : List Nat) (j : Nat)
    (hj : j < (b.length / 4 + k - 1) / k) : k * j < b.length / 4 := by
  have key : j + 1 ≤ (b.length / 4 + k - 1) / k ↔ (j + 1) * k ≤ b.length / 4 + k - 1 :=
    Nat.le_div_iff_mul_le hk
  rw [Nat.add_mul, Nat.one_mul, Nat.mul_comm j k] at key
  have := key.1 hj
  omega

theorem everyKthFrame_take (k : Nat) (b : List Nat) :
    everyKthFrame k (b.take (4 * (b.length / 4))) = everyKthFrame k b := by
  rcases Nat.eq_zero_or_pos k with hk | hk
  · subst hk
    simp [everyKthFrame]
  · have hl : (b.take (4 * (b.length / 4))).length / 4 = b.length / 4 := by
      rw [List.length_take]
      omega
    unfold everyKthFrame
    rw [hl]
    congr 1
    apply List.map_congr_left
    intro t ht
    apply frameAt_take
    have := everyKthFrame_count k hk b t (by simpa using ht)
    have h3 : t ≤ k * t := Nat.le_mul_of_pos_left _ hk
    omega

/-- C25: for every buffer `b` with `n = len(b) / 4` complete frames,
`downsample48kTo24kStereo` returns the concatenation of frames 0, 2, 4, ...
(`(n + 1) / 2` of them) and `downsample48kTo16kStereo` the concatenation of
frames 0, 3, 6, ... (`(n + 2) / 3` of them); the output length is four times
the frame count, output frame `i` is input frame `2 * i` (`3 * i`), which is
a complete frame of `b`, and the result is the same as on `b` cut down to
its complete frames. -/
theorem C25_downsample_keeps_whole_frames (b : List Nat) :
    downsample48kTo24kStereo b = some (everyKthFrame 2 b)
    ∧ downsample48kTo16kStereo b = some (everyKthFrame 3 b)
    ∧ (everyKthFrame 2 b).length = 4 * ((b.length / 4 + 1) / 2)
    ∧ (everyKthFrame 3 b).length = 4 * ((b.length / 4 + 2) / 3)
    ∧ (∀ i, i < (b.length / 4 + 1) / 2 →
        2 * i < b.length / 4 ∧ (frameAt b (2 * i)).length = 4
          ∧ frameAt (everyKthFrame 2 b) i = frameAt b (2 * i))
    ∧ (∀ i, i < (b.length / 4 + 2) / 3 →
        3 * i < b.length / 4 ∧ (frameAt b (3 * i)).length = 4
          ∧ frameAt (everyKthFrame 3 b) i = frameAt b (3 * i))
    ∧ downsample48kTo24kStereo (b.take (4 * (b.length / 4))) = downsample48kTo24kStereo b
    ∧ downsample48kTo16kStereo (b.take (4 * (b.length / 4))) = downsample48kTo16kStereo b := by
  have h2 : downsample48kTo24kStereo b = some (everyKthFrame 2 b) :=
    downsample_everyKth 2 (by decide) b
  have h3 : downsample48kTo16kStereo b = some (everyKthFrame 3 b) :=
    downsample_everyKth 3 (by decide) b
  have h2t : downsample48kTo24kStereo (b.take (4 * (b.length / 4)))
      = some (everyKthFrame 2 (b.take (4 * (b.length / 4)))) :=
    downsample_everyKth 2 (by decide) _
  have h3t : downsample48kTo16kStereo (b.take (4 * (b.length / 4)))
      = some (everyKthFrame 3 (b.take (4 * (b.length / 4)))) :=
    downsample_everyKth 3 (by decide) _
  have c2 : ∀ j, j < (b.length / 4 + 2 - 1) / 2 → (frameAt b (2 * j)).length = 4 :=
    fun j hj => frameAt_length b _ (everyKthFrame_count 2 (by decide) b j hj)
  have c3 : ∀ j, j < (b.length / 4 + 3 - 1) / 3 → (frameAt b (3 * j)).length = 4 :=
    fun j hj => frameAt_length b _ (everyKthFrame_count 3 (by decide) b j hj)
  refine ⟨h2, h3, ?_, ?_, ?_, ?_, ?_, ?_⟩
  · exact flatten_frames_length (fun j => frameAt b (2 * j)) _ c2
  · exact flatten_frames_length (fun j => frameAt b (3 * j)) _ c3
  · intro i hi
    exact ⟨everyKthFrame_count 2 (by decide) b i hi, c2 i hi,
      frameAt_flatten_frames (fun j => frameAt b (2 * j)) _ c2 i hi⟩
  · intro i hi
    exact ⟨everyKthFrame_count 3 (by decide) b i hi, c3 i hi,
      frameAt_flatten_frames (fun j => frameAt b (3 * j)) _ c3 i hi⟩
  · rw [h2t, h2, everyKthFrame_take]
  · rw [h3t, h3, everyKthFrame_take]

theorem selectQuality_cases (quality : String) :
    selectQuality quality = "low" ∨ selectQuality quality = "standard"
      ∨ selectQuality quality = "high" := by
  unfold selectQuality
  by_cases h1 : quality = "low"
  · left; simp [List.find?, h1]
  · by_cases h2 : quality = "standard"
    · right; left; simp [List.find?, h2]
    · by_cases h3 : quality = "high"
      · right; right; simp [List.find?, h3]
      · right; left; simp [List.find?, h1, h2, h3]

/-- C26, amended: for every quality parameter and every non-empty chunk a
message is delivered. For `standard` and `low` it consists of whole 4-byte
frames only: it is the decimation of the chunk's complete frames and its
length is divisible by 4. For `high` it is the chunk itself, unmodified and
untrimmed, so its length is the chunk's length. -/
theorem C26_audio_message_framing (quality : String) (chunk : List Nat) (hne : chunk ≠ []) :
    ∃ msg, audioMessage (selectQuality quality) chunk = some msg
      ∧ (selectQuality quality = "standard" → msg = everyKthFrame 2 chunk ∧ msg.length % 4 = 0)
      ∧ (selectQuality quality = "low" → msg = everyKthFrame 3 chunk ∧ msg.length % 4 = 0)
      ∧ (selectQuality quality = "high" → msg = chunk ∧ msg ≠ []) := by
  have h2 : downsample48kTo24kStereo chunk = some (everyKthFrame 2 chunk) :=
    downsample_everyKth 2 (by decide) chunk
  have h3 : downsample48kTo16kStereo chunk = some (everyKthFrame 3 chunk) :=
    downsample_everyKth 3 (by decide) chunk
  have l2 : (everyKthFrame 2 chunk).length % 4 = 0 := by
    have := flatten_frames_length (fun j => frameAt chunk (2 * j)) ((chunk.length / 4 + 2 - 1) / 2)
      (fun j hj => frameAt_length chunk _ (everyKthFrame_count 2 (by decide) chunk j hj))
    unfold everyKthFrame
    omega
  have l3 : (everyKthFrame 3 chunk).length % 4 = 0 := by
    have := flatten_frames_length (fun j => frameAt chunk (3 * j)) ((chunk.length / 4 + 3 - 1) / 3)
      (fun j hj => frameAt_length chunk _ (everyKthFrame_count 3 (by decide) chunk j hj))
    unfold everyKthFrame
    omega
  rcases selectQuality_cases quality with h | h | h
  · refine ⟨everyKthFrame 3 chunk, ?_, ?_, ?_, ?_⟩
    · rw [h]; simp [audioMessage, h3]
    · rw [h]; intro hc; exact absurd hc (by decide)
    · intro _; exact ⟨rfl, l3⟩
    · rw [h]; intro hc; exact absurd hc (by decide)
  · refine ⟨everyKthFrame 2 chunk, ?_, ?_, ?_, ?_⟩
    · rw [h]; simp [audioMessage, h2]
    · intro _; exact ⟨rfl, l2⟩
    · rw [h]; intro hc; exact absurd hc (by decide)
    · rw [h]; intro hc; exact absurd hc (by decide)
  · refine ⟨chunk, ?_, ?_, ?_, ?_⟩
    · rw [h]; simp [audioMessage]
    · rw [h]; intro hc; exact absurd hc (by decide)
    · rw [h]; intro hc; exact absurd hc (by decide)
    · intro _; exact ⟨rfl, hne⟩

/-- Witness for C26: a 9-byte chunk at quality `standard` is delivered as its
first frame. -/
theorem C26_audio_message_framing_witness :
    [1, 2, 3, 4, 5, 6, 7, 8, 9] ≠ ([] : List Nat)
    ∧ ∃ msg, audioMessage (selectQuality "standard") [1, 2, 3, 4, 5, 6, 7, 8, 9] = some msg
      ∧ (selectQuality "standard" = "standard"
          → msg = everyKthFrame 2 [1, 2, 3, 4, 5, 6, 7, 8, 9] ∧ msg.length % 4 = 0)
      ∧ (selectQuality "standard" = "low"
          → msg = everyKthFrame 3 [1, 2, 3, 4, 5, 6, 7, 8, 9] ∧ msg.length % 4 = 0)
      ∧ (selectQuality "standard" = "high" → msg = [1, 2, 3, 4, 5, 6, 7, 8, 9] ∧ msg ≠ []) :=
  ⟨by decide, C26_audio_message_framing "standard" [1, 2, 3, 4, 5, 6, 7, 8, 9] (by decide)⟩

/-- Counterexample to C26 as stated: at quality `high` a 5-byte chunk is
delivered as a 5-byte message, whose length is not divisible by 4; the
trailing incomplete frame is not trimmed. -/
theorem C26_counterexample_high_untrimmed :
    audioMessage (selectQuality "high") [1, 2, 3, 4, 5] = some [1, 2, 3, 4, 5]
    ∧ ([1, 2, 3, 4, 5] : List Nat).length % 4 ≠ 0
    ∧ audioMessage (selectQuality "high") [1, 2, 3, 4, 5] ≠ some [1, 2, 3, 4]
    ∧ audioMessage (selectQuality "standard") [1, 2, 3, 4, 5] = some [1, 2, 3, 4] := by
  decide

/-- C28 at a listing with one format and two sizes: the line that ends the
interval loop of the first size is the second `Size:` line, which the scanner
has already consumed, so `GetV4L2FormatInfo` returns only the first size and
`deviceSupportResolution` is false for the listed 1280x720 at 60 fps. At a
listing with two formats of one size each the second format line is consumed
the same way: its size is filed under the first format and the second format
is missing. -/
theorem C28_parser_skips_line_after_intervals :
    GetV4L2FormatInfo sampleListingTwoSizes
      = some (.formats [{ Format := "MJPG"
                          Sizes := [{ Width := 1920, Height := 1080, FPS := [30] }] }])
    ∧ deviceSupportResolution sampleListingTwoSizes { Width := 1280, Height := 720, FPS := 60 }
      = some false
    ∧ deviceSupportResolution sampleListingTwoSizes { Width := 1920, Height := 1080, FPS := 30 }
      = some true
    ∧ GetV4L2FormatInfo sampleListingTwoFormats
      = some (.formats [{ Format := "MJPG"
                          Sizes := [{ Width := 1920, Height := 1080, FPS := [30] },
                                    { Width := 640, Height := 480, FPS := [30] }] }]) := by
  decide

end DezuKVM
